import Mathlib

/-!
# UnchartedBlockout: a shallow embedding of `src/main.cpp`

The program is one frame loop over a physics world (Bullet), a renderer and an
input device (raylib).  The embedding keeps the program's own data and control
flow and treats the three collaborators as follows.

* `float` values live in an arbitrary linearly ordered field `F` with a floor
  function; arithmetic is exact.  Every definition is computable, so it can be
  evaluated at `F = ℚ`, and every theorem also holds at `F = ℝ`.
* `sinf`, `cosf`, `sqrtf`, `atan2f` and the constant `PI` are the fields of a
  record `LibM F` passed to the code that calls them.
* What the input device and the physics queries return in a frame (keys, mouse,
  frame time, ray tests, random numbers, the result of `stepSimulation`) is the
  record `FrameInput F`.
* A `btRigidBody*` is a natural number (`handle`); the fields of the body that
  the program reads or writes are kept next to it.
-/

namespace UnchartedBlockout

/-! ## Data model (main.cpp lines 13-96) -/

/-- Game states. -/
inductive GameState where
  | STATE_GAMEPLAY
  | STATE_SETTINGS
  | STATE_EDITOR
  deriving DecidableEq

/-- Player/Enemy state for handling different actions. -/
inductive CharacterState where
  | STATE_ON_GROUND
  | STATE_JUMPING
  | STATE_DYING
  deriving DecidableEq

/-- Editor modes. -/
inductive EditorMode where
  | MODE_PLACE
  | MODE_ERASE
  | MODE_SPAWN
  deriving DecidableEq

export GameState (STATE_GAMEPLAY STATE_SETTINGS STATE_EDITOR)
export CharacterState (STATE_ON_GROUND STATE_JUMPING STATE_DYING)
export EditorMode (MODE_PLACE MODE_ERASE MODE_SPAWN)

/-- The raylib colour, four channels. -/
structure Color where
  r : Nat
  g : Nat
  b : Nat
  a : Nat
  deriving DecidableEq

def RED : Color := ⟨230, 41, 55, 255⟩
def YELLOW : Color := ⟨253, 249, 0, 255⟩
def ORANGE : Color := ⟨255, 161, 0, 255⟩
def GRAY : Color := ⟨130, 130, 130, 255⟩
def DARKGRAY : Color := ⟨80, 80, 80, 255⟩

/-- The raylib `Vector2`. -/
structure Vector2 (F : Type) where
  x : F
  y : F
  deriving DecidableEq

/-- The raylib `Vector3`. -/
structure Vector3 (F : Type) where
  x : F
  y : F
  z : F
  deriving DecidableEq

/-- The part of a `btRigidBody` that the program reads or writes. -/
structure RigidBody (F : Type) where
  /-- the address of the body: two bodies are the same object iff the handles agree -/
  handle : Nat
  /-- the value of `getWorldTransform().getOrigin()` -/
  origin : Vector3 F
  /-- the value of `getLinearVelocity()` -/
  linearVelocity : Vector3 F
  /-- the bit `CF_NO_CONTACT_RESPONSE` of the collision flags -/
  noContactResponse : Bool
  /-- the value of `getUserIndex()`: -1 static block, 1 player, 2 enemy -/
  userIndex : Int
  deriving DecidableEq

/-- Struct for static level geometry. -/
structure PhysicsBlock (F : Type) where
  body : RigidBody F
  color : Color
  size : Vector3 F
  deriving DecidableEq

/-- Struct for visual effects like bullet tracers. -/
structure VisualEffect (F : Type) where
  start : Vector3 F
  «end» : Vector3 F
  life : F
  color : Color
  deriving DecidableEq

/-- Player data. -/
structure Player (F : Type) where
  body : RigidBody F
  health : Int
  maxHealth : Int
  state : CharacterState
  modelRotationAngle : F
  isMoving : Bool
  deriving DecidableEq

/-- Struct for enemies/NPCs. -/
structure Enemy (F : Type) where
  body : RigidBody F
  health : Int
  maxHealth : Int
  state : CharacterState
  animationTimer : F
  isMoving : Bool
  modelRotationAngle : F
  deathTimer : F
  aiStateTimer : F
  wanderDirection : Vector3 F
  deriving DecidableEq

/-- Settings controllable from the menu. -/
structure GameSettings (F : Type) where
  enemiesFrozen : Bool
  enemiesAttack : Bool
  enemiesSuperSpeed : Bool
  playerInfiniteHealth : Bool
  playerInfiniteAmmo : Bool
  inEditMode : Bool
  editorMode : EditorMode
  editorBlockSize : Vector3 F
  editorBlockColor : Color
  deriving DecidableEq

/-- The two fields of `Camera3D` that the frame update reads or writes. -/
structure Camera3D (F : Type) where
  position : Vector3 F
  target : Vector3 F
  deriving DecidableEq

/-! ## The collaborators: libm, raymath, the input device, the physics queries -/

/-- The functions of `<cmath>` that the program calls, and the constant `PI`. -/
structure LibM (F : Type) where
  sinf : F → F
  cosf : F → F
  sqrtf : F → F
  atan2f : F → F → F
  PI : F

section Raymath

variable {F : Type} [LinearOrderedField F] [FloorRing F]

/-- The raylib constant `DEG2RAD = PI/180`. -/
def DEG2RAD (m : LibM F) : F := m.PI / 180

/-- The raylib constant `RAD2DEG = 180/PI`. -/
def RAD2DEG (m : LibM F) : F := 180 / m.PI

def Vector3Add (a b : Vector3 F) : Vector3 F := ⟨a.x + b.x, a.y + b.y, a.z + b.z⟩

def Vector3Subtract (a b : Vector3 F) : Vector3 F := ⟨a.x - b.x, a.y - b.y, a.z - b.z⟩

def Vector3Scale (v : Vector3 F) (k : F) : Vector3 F := ⟨v.x * k, v.y * k, v.z * k⟩

def Vector3LengthSqr (v : Vector3 F) : F := v.x * v.x + v.y * v.y + v.z * v.z

def Vector3Length (m : LibM F) (v : Vector3 F) : F := m.sqrtf (v.x * v.x + v.y * v.y + v.z * v.z)

def Vector3DistanceSqr (a b : Vector3 F) : F :=
  (b.x - a.x) * (b.x - a.x) + (b.y - a.y) * (b.y - a.y) + (b.z - a.z) * (b.z - a.z)

/-- The raymath `Vector3Normalize`: the vector is returned as it is when its
length is zero, and multiplied by `1/length` otherwise. -/
def Vector3Normalize (m : LibM F) (v : Vector3 F) : Vector3 F :=
  let length := m.sqrtf (v.x * v.x + v.y * v.y + v.z * v.z)
  if length ≠ 0 then
    let ilength := 1 / length
    ⟨v.x * ilength, v.y * ilength, v.z * ilength⟩
  else v

/-- The raymath `Lerp`. -/
def Lerp (start finish amount : F) : F := start + amount * (finish - start)

/-- The raymath `Vector3Transform v (MatrixRotateY angle)`: with `c = cosf angle` and
`s = sinf angle` the matrix has `m0 = c`, `m2 = -s`, `m8 = s`, `m10 = c`, `m5 = 1`. -/
def Vector3TransformRotateY (m : LibM F) (v : Vector3 F) (angle : F) : Vector3 F :=
  ⟨m.cosf angle * v.x + m.sinf angle * v.z, v.y, -(m.sinf angle) * v.x + m.cosf angle * v.z⟩

/-- The conversion of a `float` to `int`: the fractional part is discarded
(rounding toward zero). -/
def floatToInt (x : F) : Int := if 0 ≤ x then ⌊x⌋ else ⌈x⌉

/-- The raylib `GetRandomValue(min, max)` on the generator's raw output `raw`:
`raw % (max - min + 1) + min`. -/
def GetRandomValue (raw : Nat) (min max : Int) : Int := (raw : Int) % (max - min + 1) + min

end Raymath

/-- What `ClosestRayResultCallback` holds after a ray test that hit. -/
structure RayHit (F : Type) where
  m_hitPointWorld : Vector3 F
  m_hitNormalWorld : Vector3 F
  /-- the value of `m_collisionObject->getUserIndex()` -/
  userIndex : Int
  /-- the value of `m_collisionObject->getUserPointer()`: the owner, named by its body's handle -/
  userPointer : Nat

/-- Everything the frame reads from outside the program. -/
structure FrameInput (F : Type) where
  /-- the value of `GetFrameTime()` -/
  dt : F
  keyTabPressed : Bool
  keyEPressed : Bool
  keySpacePressed : Bool
  keyRPressed : Bool
  keyWDown : Bool
  keySDown : Bool
  keyADown : Bool
  keyDDown : Bool
  keySpaceDown : Bool
  keyLeftControlDown : Bool
  mouseLeftDown : Bool
  mouseLeftPressed : Bool
  mouseRightDown : Bool
  /-- the value of `GetMouseDelta()` -/
  mouseDelta : Vector2 F
  /-- the value of `groundRay.hasHit()` for the ray from the player origin down by `0.55 * playerHeight` -/
  groundRay : Bool
  /-- the ray test of the shot, as a function of the ray's two ends -/
  bulletRay : Vector3 F → Vector3 F → Option (RayHit F)
  /-- the ray test of the camera rig, as a function of the ray's two ends -/
  camRay : Vector3 F → Vector3 F → Option (RayHit F)
  /-- the ray test of the editor cursor, as a function of the ray's two ends -/
  editorRay : Vector3 F → Vector3 F → Option (RayHit F)
  /-- the raw output of the random generator at its `n`-th call -/
  rand : Nat → Nat
  /-- what `stepSimulation(dt, 10)` makes of a dynamic body; only the origin and
  the linear velocity of the result are used -/
  stepSimulation : RigidBody F → RigidBody F
  /-- what the clicks on the settings menu make of the settings in this frame -/
  settingsMenu : GameSettings F → GameSettings F

/-- The variables of `main` that live across frames, the global
`enemySpawnPoints`, and the set of bodies registered in `dynamicsWorld`. -/
structure Game (F : Type) where
  gameState : GameState
  settings : GameSettings F
  playerCamera : Camera3D F
  cameraDistance : F
  cameraDistanceTarget : F
  editorCamera : Camera3D F
  editorYaw : F
  editorPitch : F
  playerYaw : F
  playerPitch : F
  animationTimer : F
  playerDeathTimer : F
  worldBlocks : List (PhysicsBlock F)
  enemies : List (Enemy F)
  enemySpawnPoints : List (Vector3 F)
  vfx : List (VisualEffect F)
  enemyRespawnTimer : F
  player : Player F
  isAiming : Bool
  currentAmmo : Int
  reloadTimer : F
  fireTimer : F
  editorCursorPos : Vector3 F
  editorCursorValid : Bool
  inDialogue : Bool
  /-- the pointer `Enemy* dialoguePartner`, by the handle of the enemy's body; `none` is `nullptr` -/
  dialoguePartner : Option Nat
  /-- the index in `npcDialogueLines` of `currentDialogue` -/
  currentDialogue : Int
  /-- the handles of the bodies registered in `dynamicsWorld` -/
  dynamicsWorld : List Nat
  /-- the handle the next `new btRigidBody` gets -/
  nextHandle : Nat
  /-- how many times the random generator has been called -/
  randCalls : Nat

/-! ## The frame update (main.cpp lines 433-829) -/

section Frame

variable {F : Type} [LinearOrderedField F] [FloorRing F]

def sensitivity : F := 3 / 1000

def playerHeight : F := 2

def magazineSize : Int := 30

def reloadTime : F := 2

def fireRate : F := 1 / 10

def ENEMY_RESPAWN_TIME : F := 5

/-- Helper to get enemy position. -/
def GetEnemyPosition (enemy : Enemy F) : Vector3 F := enemy.body.origin

/-- A write through an `Enemy*`: the enemy whose body has handle `h` becomes `f` of itself. -/
def modifyEnemy (h : Nat) (f : Enemy F → Enemy F) (enemies : List (Enemy F)) : List (Enemy F) :=
  enemies.map fun e => if e.body.handle = h then f e else e

/-- State switching (lines 437-456). -/
def stateSwitching (inp : FrameInput F) (s : Game F) : Game F :=
  if inp.keyTabPressed then
    if s.gameState = STATE_SETTINGS then
      if s.settings.inEditMode then
        { s with
          gameState := STATE_EDITOR
          editorCamera := { s.editorCamera with position := s.playerCamera.position }
          editorYaw := s.playerYaw
          editorPitch := s.playerPitch }
      else { s with gameState := STATE_GAMEPLAY }
    else { s with gameState := STATE_SETTINGS }
  else s

/-- Player camera control (lines 466-473). -/
def playerCameraControl (m : LibM F) (inp : FrameInput F) (s : Game F) : Game F :=
  if s.player.state ≠ STATE_DYING then
    let playerYaw := s.playerYaw - inp.mouseDelta.x * sensitivity
    let playerPitch := s.playerPitch - inp.mouseDelta.y * sensitivity
    let playerPitch := if playerPitch > 89 * DEG2RAD m then 89 * DEG2RAD m else playerPitch
    let playerPitch := if playerPitch < -89 * DEG2RAD m then -89 * DEG2RAD m else playerPitch
    { s with playerYaw := playerYaw, playerPitch := playerPitch }
  else s

/-- Player ground check (lines 475-484). -/
def groundCheck (inp : FrameInput F) (s : Game F) : Game F :=
  let onGround := inp.groundRay
  if onGround then { s with player := { s.player with state := STATE_ON_GROUND } } else s

/-- The loop of lines 493-509 up to its `break`: the first enemy in list order
that is not dying and is nearer to the player than 4 (squared distance below 16). -/
def findDialoguePartner (playerPos : Vector3 F) : List (Enemy F) → Option (Enemy F)
  | [] => none
  | enemy :: rest =>
    if enemy.state = STATE_DYING then findDialoguePartner playerPos rest
    else if Vector3DistanceSqr playerPos (GetEnemyPosition enemy) < 16 then some enemy
    else findDialoguePartner playerPos rest

/-- Handle dialogue (lines 486-511). -/
def handleDialogue (m : LibM F) (inp : FrameInput F) (playerPos : Vector3 F) (s : Game F) :
    Game F :=
  if inp.keyEPressed then
    if s.inDialogue then { s with inDialogue := false, dialoguePartner := none }
    else if s.settings.enemiesAttack = false ∧ s.player.state ≠ STATE_DYING then
      match findDialoguePartner playerPos s.enemies with
      | none => s
      | some enemy =>
        let enemyPos := GetEnemyPosition enemy
        let toPlayer := Vector3Subtract playerPos enemyPos
        let toNpc := Vector3Scale toPlayer (-1)
        { s with
          inDialogue := true
          dialoguePartner := some enemy.body.handle
          currentDialogue := GetRandomValue (inp.rand s.randCalls) 0 5
          randCalls := s.randCalls + 1
          enemies := modifyEnemy enemy.body.handle
            (fun e => { e with
              modelRotationAngle := m.atan2f toPlayer.x toPlayer.z * RAD2DEG m + 180 })
            s.enemies
          player := { s.player with
            modelRotationAngle := m.atan2f toNpc.x toNpc.z * RAD2DEG m + 180 } }
    else s
  else s

/-- Freeze participants during dialogue (lines 513-521). -/
def freezeParticipants (s : Game F) : Game F :=
  if s.inDialogue then
    let player := { s.player with
      isMoving := false
      body := { s.player.body with linearVelocity := ⟨0, s.player.body.linearVelocity.y, 0⟩ } }
    match s.dialoguePartner with
    | some h =>
      { s with
        player := player
        enemies := modifyEnemy h
          (fun e => { e with
            isMoving := false
            body := { e.body with linearVelocity := ⟨0, e.body.linearVelocity.y, 0⟩ } })
          s.enemies }
    | none => { s with player := player }
  else s

/-- The vector `moveInput` of lines 527-531. -/
def moveInput (inp : FrameInput F) : Vector3 F :=
  let z : F := 0
  let z := if inp.keyWDown then 1 else z
  let z := if inp.keySDown then -1 else z
  let x : F := 0
  let x := if inp.keyADown then -1 else x
  let x := if inp.keyDDown then 1 else x
  ⟨x, 0, z⟩

/-- Player movement, aiming and jump (lines 526-565).  `applyCentralImpulse` on a
body of mass 1 adds the impulse to the linear velocity. -/
def playerMovement (m : LibM F) (inp : FrameInput F) (s : Game F) : Game F :=
  let speed : F := 8
  let moveInput : Vector3 F := moveInput inp
  let isMoving : Bool := decide (moveInput.x ≠ 0 ∨ moveInput.z ≠ 0)
  let cameraForwardRaw : Vector3 F := ⟨m.sinf s.playerYaw, 0, m.cosf s.playerYaw⟩
  let cameraRight : Vector3 F := ⟨-(m.cosf s.playerYaw), 0, m.sinf s.playerYaw⟩
  let isAiming : Bool :=
    inp.mouseRightDown && decide (s.player.state ≠ STATE_JUMPING) && decide (s.reloadTimer ≤ 0)
  let worldMove := Vector3Normalize m
    (Vector3Add (Vector3Scale cameraForwardRaw moveInput.z) (Vector3Scale cameraRight moveInput.x))
  let modelRotationAngle :=
    if isAiming then m.atan2f cameraForwardRaw.x cameraForwardRaw.z * RAD2DEG m + 180
    else if isMoving then m.atan2f worldMove.x worldMove.z * RAD2DEG m + 180
    else s.player.modelRotationAngle
  let currentVel := s.player.body.linearVelocity
  let desiredVel : Vector3 F :=
    if isMoving = true ∧ (s.player.state = STATE_ON_GROUND ∨ s.player.state = STATE_JUMPING) then
      ⟨worldMove.x * speed, currentVel.y, worldMove.z * speed⟩
    else ⟨0, currentVel.y, 0⟩
  let velocity :=
    if s.player.state = STATE_ON_GROUND ∨ s.player.state = STATE_JUMPING then desiredVel
    else currentVel
  let jump : Bool := inp.keySpacePressed && decide (s.player.state = STATE_ON_GROUND)
  { s with
    isAiming := isAiming
    player := { s.player with
      isMoving := isMoving
      modelRotationAngle := modelRotationAngle
      state := if jump then STATE_JUMPING else s.player.state
      body := { s.player.body with
        linearVelocity := if jump then Vector3Add velocity ⟨0, 12, 0⟩ else velocity } } }

/-- The countdown of the fire and reload timers (lines 567-573). -/
def tickWeaponTimers (inp : FrameInput F) (s : Game F) : Game F :=
  let fireTimer := if s.fireTimer > 0 then s.fireTimer - inp.dt else s.fireTimer
  if s.reloadTimer > 0 then
    let reloadTimer := s.reloadTimer - inp.dt
    if reloadTimer ≤ 0 then
      { s with fireTimer := fireTimer, reloadTimer := reloadTimer, currentAmmo := magazineSize }
    else { s with fireTimer := fireTimer, reloadTimer := reloadTimer }
  else { s with fireTimer := fireTimer }

/-- The condition of line 574. -/
def fireGates (inp : FrameInput F) (s : Game F) : Prop :=
  inp.mouseLeftDown = true ∧ s.fireTimer ≤ 0 ∧ s.reloadTimer ≤ 0 ∧ s.player.state ≠ STATE_JUMPING

instance (inp : FrameInput F) (s : Game F) : Decidable (fireGates inp s) := by
  unfold fireGates; infer_instance

/-- What a bullet does to the enemy it hits (lines 594-597); the impulse on a
body of mass 1 is added to the linear velocity. -/
def bulletDamage (camForward : Vector3 F) (enemy : Enemy F) : Enemy F :=
  if enemy.state ≠ STATE_DYING then
    { enemy with
      health := enemy.health - 25
      body := { enemy.body with
        linearVelocity := Vector3Add enemy.body.linearVelocity (Vector3Scale camForward 2) } }
  else enemy

/-- Weapon fire (lines 574-611). -/
def fireWeapon (m : LibM F) (inp : FrameInput F) (playerPos : Vector3 F) (s : Game F) : Game F :=
  if fireGates inp s then
    if s.currentAmmo > 0 then
      let currentAmmo := if s.settings.playerInfiniteAmmo = false then s.currentAmmo - 1
        else s.currentAmmo
      let rayStart := s.playerCamera.position
      let camForward := Vector3Normalize m
        (Vector3Subtract s.playerCamera.target s.playerCamera.position)
      let rayEnd := Vector3Add rayStart (Vector3Scale camForward 1000)
      let rotatedOffset := Vector3TransformRotateY m ⟨0, 115 / 100, 7 / 10⟩
        ((s.player.modelRotationAngle - 180) * DEG2RAD m)
      let tracerStart := Vector3Add playerPos rotatedOffset
      match inp.bulletRay rayStart rayEnd with
      | some bulletRay =>
        let tracerEnd := bulletRay.m_hitPointWorld
        { s with
          currentAmmo := currentAmmo
          fireTimer := fireRate
          enemies :=
            if bulletRay.userIndex = 2 then
              modifyEnemy bulletRay.userPointer (bulletDamage camForward) s.enemies
            else s.enemies
          vfx := s.vfx ++ [⟨tracerEnd, tracerEnd, 1 / 10, RED⟩,
            ⟨tracerStart, tracerEnd, 1 / 20, YELLOW⟩] }
      | none =>
        { s with
          currentAmmo := currentAmmo
          fireTimer := fireRate
          vfx := s.vfx ++ [⟨tracerStart, rayEnd, 1 / 20, YELLOW⟩] }
    else if s.reloadTimer ≤ 0 then { s with reloadTimer := reloadTime }
    else s
  else s

/-- The reload key (lines 612-614). -/
def manualReload (inp : FrameInput F) (s : Game F) : Game F :=
  if inp.keyRPressed = true ∧ s.reloadTimer ≤ 0 ∧ s.currentAmmo < magazineSize ∧
      s.settings.playerInfiniteAmmo = false then
    { s with reloadTimer := reloadTime }
  else s

/-- Player is dying (lines 616-631). -/
def playerDying (inp : FrameInput F) (s : Game F) : Game F :=
  let playerDeathTimer := s.playerDeathTimer + inp.dt
  if playerDeathTimer > 3 then
    { s with
      playerDeathTimer := 0
      currentAmmo := magazineSize
      player := { s.player with
        health := s.player.maxHealth
        state := STATE_ON_GROUND
        body := { s.player.body with origin := ⟨0, 5, 0⟩, linearVelocity := ⟨0, 0, 0⟩ } } }
  else
    { s with
      playerDeathTimer := playerDeathTimer
      player := { s.player with body := { s.player.body with linearVelocity := ⟨0, 0, 0⟩ } } }

/-- The state in which line 574 tests the fire gates. -/
def atFireGate (m : LibM F) (inp : FrameInput F) (s : Game F) : Game F :=
  tickWeaponTimers inp (playerMovement m inp s)

/-- Handle player input and movement, or the dying player (lines 524-631). -/
def playerUpdate (m : LibM F) (inp : FrameInput F) (playerPos : Vector3 F) (s : Game F) :
    Game F :=
  if s.player.state ≠ STATE_DYING ∧ s.inDialogue = false then
    manualReload inp (fireWeapon m inp playerPos (atFireGate m inp s))
  else if s.player.state = STATE_DYING then playerDying inp s
  else s

/-- The variables that the iterations of the enemy loop share. -/
structure EnemyLoop where
  /-- the field `player.health` -/
  playerHealth : Int
  /-- the counter `deadEnemies` -/
  deadEnemies : Int
  /-- how many times the random generator has been called -/
  randCalls : Nat
  deriving DecidableEq

/-- The statement `player.health -= 20 * dt` of line 659: `health` is an `int`, so
the difference is computed in `float` and converted back to `int`. -/
def meleeDamage (dt : F) (health : Int) : Int := floatToInt ((health : F) - 20 * dt)

/-- Wander behavior if not attacking (lines 675-691); `animationTimer` is the
timer already advanced by line 652. -/
def enemyWander (m : LibM F) (inp : FrameInput F) (enemySpeed animationTimer : F)
    (acc : EnemyLoop) (enemy : Enemy F) : Enemy F × EnemyLoop :=
  let aiStateTimer := enemy.aiStateTimer - inp.dt
  let enemyVel := enemy.body.linearVelocity
  if aiStateTimer ≤ 0 then
    let isMoving := !enemy.isMoving
    let aiStateTimer : F := ((GetRandomValue (inp.rand acc.randCalls) 20 50 : Int) : F) / 10
    if isMoving then
      let angle : F :=
        ((GetRandomValue (inp.rand (acc.randCalls + 1)) 0 360 : Int) : F) * DEG2RAD m
      let wanderDirection : Vector3 F := ⟨m.sinf angle, 0, m.cosf angle⟩
      ({ enemy with
          animationTimer := animationTimer
          isMoving := isMoving
          aiStateTimer := aiStateTimer
          wanderDirection := wanderDirection
          modelRotationAngle := angle * RAD2DEG m + 180
          body := { enemy.body with
            linearVelocity :=
              ⟨wanderDirection.x * enemySpeed, enemyVel.y, wanderDirection.z * enemySpeed⟩ } },
        { acc with randCalls := acc.randCalls + 2 })
    else
      ({ enemy with
          animationTimer := animationTimer
          isMoving := isMoving
          aiStateTimer := aiStateTimer
          body := { enemy.body with linearVelocity := ⟨0, enemyVel.y, 0⟩ } },
        { acc with randCalls := acc.randCalls + 1 })
  else if enemy.isMoving then
    ({ enemy with
        animationTimer := animationTimer
        aiStateTimer := aiStateTimer
        body := { enemy.body with
          linearVelocity :=
            ⟨enemy.wanderDirection.x * enemySpeed, enemyVel.y,
              enemy.wanderDirection.z * enemySpeed⟩ } },
      acc)
  else
    ({ enemy with
        animationTimer := animationTimer
        aiStateTimer := aiStateTimer
        body := { enemy.body with linearVelocity := ⟨0, enemyVel.y, 0⟩ } },
      acc)

/-- The attack behavior (lines 655-672); `animationTimer` is the timer already
advanced by line 652. -/
def enemyAttack (m : LibM F) (inp : FrameInput F) (settings : GameSettings F)
    (playerPos : Vector3 F) (enemySpeed animationTimer : F)
    (acc : EnemyLoop) (enemy : Enemy F) : Enemy F × EnemyLoop :=
  let enemyPos := GetEnemyPosition enemy
  let toPlayer := Vector3Subtract playerPos enemyPos
  let distance := Vector3Length m toPlayer
  if distance < 3 / 2 then
    ({ enemy with animationTimer := animationTimer, isMoving := false },
      if settings.playerInfiniteHealth = false then
        { acc with playerHealth := meleeDamage inp.dt acc.playerHealth }
      else acc)
  else if distance < 20 then
    let dir := Vector3Normalize m toPlayer
    let enemyVel := enemy.body.linearVelocity
    ({ enemy with
        animationTimer := animationTimer
        body := { enemy.body with
          linearVelocity := ⟨dir.x * enemySpeed, enemyVel.y, dir.z * enemySpeed⟩ }
        modelRotationAngle := m.atan2f dir.x dir.z * RAD2DEG m + 180
        isMoving := true },
      acc)
  else
    ({ enemy with
        animationTimer := animationTimer
        isMoving := false
        body := { enemy.body with linearVelocity := ⟨0, enemy.body.linearVelocity.y, 0⟩ } },
      acc)

/-- The body of the enemy loop (lines 635-696) for one enemy. -/
def updateEnemy (m : LibM F) (inp : FrameInput F) (settings : GameSettings F)
    (playerState : CharacterState) (playerPos : Vector3 F) (inDialogue : Bool)
    (dialoguePartner : Option Nat) (acc : EnemyLoop) (enemy : Enemy F) :
    Enemy F × EnemyLoop :=
  if enemy.state = STATE_DYING then
    ({ enemy with
        deathTimer := enemy.deathTimer + inp.dt
        isMoving := false
        body := { enemy.body with linearVelocity := ⟨0, 0, 0⟩ } },
      { acc with deadEnemies := acc.deadEnemies + 1 })
  else if enemy.health ≤ 0 then
    ({ enemy with
        state := STATE_DYING
        body := { enemy.body with noContactResponse := true } },
      acc)
  else if inDialogue = true ∧ dialoguePartner = some enemy.body.handle then (enemy, acc)
  else if settings.enemiesFrozen = false then
    let animationTimer := enemy.animationTimer + inp.dt
    let enemySpeed : F := if settings.enemiesSuperSpeed then 8 else 4
    if settings.enemiesAttack = true ∧ playerState ≠ STATE_DYING then
      enemyAttack m inp settings playerPos enemySpeed animationTimer acc enemy
    else enemyWander m inp enemySpeed animationTimer acc enemy
  else
    ({ enemy with
        body := { enemy.body with linearVelocity := ⟨0, enemy.body.linearVelocity.y, 0⟩ } },
      acc)

/-- The enemy loop (lines 634-697) over the list, front to back. -/
def enemyLoop (m : LibM F) (inp : FrameInput F) (settings : GameSettings F)
    (playerState : CharacterState) (playerPos : Vector3 F) (inDialogue : Bool)
    (dialoguePartner : Option Nat) : List (Enemy F) → EnemyLoop → List (Enemy F) × EnemyLoop
  | [], acc => ([], acc)
  | enemy :: rest, acc =>
    let r := updateEnemy m inp settings playerState playerPos inDialogue dialoguePartner acc enemy
    let rs := enemyLoop m inp settings playerState playerPos inDialogue dialoguePartner rest r.2
    (r.1 :: rs.1, rs.2)

/-- The enemy loop on the game state (lines 633-697); the second component is
the counter `deadEnemies` after the loop. -/
def enemyUpdate (m : LibM F) (inp : FrameInput F) (playerPos : Vector3 F) (s : Game F) :
    Game F × Int :=
  let r := enemyLoop m inp s.settings s.player.state playerPos s.inDialogue s.dialoguePartner
    s.enemies ⟨s.player.health, 0, s.randCalls⟩
  ({ s with
      enemies := r.1
      player := { s.player with health := r.2.playerHealth }
      randCalls := r.2.randCalls },
    r.2.deadEnemies)

/-- The death of the player (lines 699-702). -/
def playerDeath (s : Game F) : Game F :=
  if s.player.health ≤ 0 ∧ s.player.state ≠ STATE_DYING then
    { s with player := { s.player with state := STATE_DYING }, playerDeathTimer := 0 }
  else s

/-- What the physics step makes of one dynamic body. -/
def stepBody (inp : FrameInput F) (body : RigidBody F) : RigidBody F :=
  { body with
    origin := (inp.stepSimulation body).origin
    linearVelocity := (inp.stepSimulation body).linearVelocity }

/-- The call `dynamicsWorld->stepSimulation(dt, 10)` of line 704: it moves the
dynamic bodies, those of the player and of the enemies. -/
def stepSimulation (inp : FrameInput F) (s : Game F) : Game F :=
  { s with
    player := { s.player with body := stepBody inp s.player.body }
    enemies := s.enemies.map fun e => { e with body := stepBody inp e.body } }

/-- Function to create a standalone static physics box (lines 100-112). -/
def CreateStaticBox (position size : Vector3 F) (color : Color) (s : Game F) : Game F :=
  let body : RigidBody F := ⟨s.nextHandle, position, ⟨0, 0, 0⟩, false, -1⟩
  { s with
    worldBlocks := s.worldBlocks ++ [⟨body, color, size⟩]
    dynamicsWorld := s.dynamicsWorld ++ [body.handle]
    nextHandle := s.nextHandle + 1 }

/-- Function to create an enemy (lines 117-147). -/
def CreateEnemy (rand : Nat → Nat) (position : Vector3 F) (s : Game F) : Game F :=
  let body : RigidBody F := ⟨s.nextHandle, position, ⟨0, 0, 0⟩, false, 2⟩
  let newEnemy : Enemy F :=
    { body := body
      maxHealth := 100
      health := 100
      state := STATE_ON_GROUND
      animationTimer := ((GetRandomValue (rand s.randCalls) 0 100 : Int) : F) / 10
      isMoving := false
      modelRotationAngle := 0
      deathTimer := 0
      aiStateTimer := ((GetRandomValue (rand (s.randCalls + 1)) 1 3 : Int) : F)
      wanderDirection := ⟨0, 0, 0⟩ }
  { s with
    enemies := newEnemy :: s.enemies
    dynamicsWorld := s.dynamicsWorld ++ [body.handle]
    nextHandle := s.nextHandle + 1
    randCalls := s.randCalls + 2 }

/-- The respawn timer of the enemies (lines 706-715). -/
def enemyRespawn (inp : FrameInput F) (deadEnemies : Int) (s : Game F) : Game F :=
  if deadEnemies > 0 then
    let enemyRespawnTimer := s.enemyRespawnTimer + inp.dt * (deadEnemies : F)
    if enemyRespawnTimer ≥ ENEMY_RESPAWN_TIME then
      if s.enemySpawnPoints ≠ [] then
        let spawnIdx :=
          GetRandomValue (inp.rand s.randCalls) 0 ((s.enemySpawnPoints.length : Int) - 1)
        match s.enemySpawnPoints[spawnIdx.toNat]? with
        | some position =>
          CreateEnemy inp.rand position
            { s with enemyRespawnTimer := 0, randCalls := s.randCalls + 1 }
        | none => { s with enemyRespawnTimer := 0, randCalls := s.randCalls + 1 }
      else { s with enemyRespawnTimer := 0 }
    else { s with enemyRespawnTimer := enemyRespawnTimer }
  else s

/-- The reap loop (lines 717-728) over the list of enemies and the registered
bodies: a dying enemy whose death timer is above 3 is erased and its body is
removed from the world, any other enemy is stepped over. -/
def reapLoop : List (Enemy F) → List Nat → List (Enemy F) × List Nat
  | [], world => ([], world)
  | it :: rest, world =>
    if it.state = STATE_DYING ∧ it.deathTimer > 3 then
      reapLoop rest (world.erase it.body.handle)
    else
      let r := reapLoop rest world
      (it :: r.1, r.2)

/-- The reap loop on the game state. -/
def reapDeadEnemies (s : Game F) : Game F :=
  let r := reapLoop s.enemies s.dynamicsWorld
  { s with enemies := r.1, dynamicsWorld := r.2 }

/-- The gameplay state up to the test of line 525 (lines 466-521): camera
control, ground check, dialogue. -/
def beforePlayerUpdate (m : LibM F) (inp : FrameInput F) (playerPos : Vector3 F) (s : Game F) :
    Game F :=
  let s := playerCameraControl m inp s
  let s := groundCheck inp s
  let s := handleDialogue m inp playerPos s
  freezeParticipants s

/-- The gameplay state up to the physics step (lines 466-702): the commands of
the frame, and the counter `deadEnemies`. -/
def gameplayCommands (m : LibM F) (inp : FrameInput F) (playerPos : Vector3 F) (s : Game F) :
    Game F × Int :=
  let s := beforePlayerUpdate m inp playerPos s
  let s := playerUpdate m inp playerPos s
  let r := enemyUpdate m inp playerPos s
  (playerDeath r.1, r.2)

/-- The gameplay state (lines 465-730). -/
def gameplayState (m : LibM F) (inp : FrameInput F) (playerPos : Vector3 F) (s : Game F) :
    Game F :=
  let r := gameplayCommands m inp playerPos s
  reapDeadEnemies (enemyRespawn inp r.2 (stepSimulation inp r.1))

/-- The loop of lines 775-784: the first block whose body is the one hit is
erased and its body is removed from the world; then the loop breaks. -/
def eraseBlockLoop (hitBody : Nat) : List (PhysicsBlock F) → List Nat →
    List (PhysicsBlock F) × List Nat
  | [], world => ([], world)
  | it :: rest, world =>
    if it.body.handle = hitBody then (rest, world.erase it.body.handle)
    else
      let r := eraseBlockLoop hitBody rest world
      (it :: r.1, r.2)

/-- The loop of lines 787-792 from index `i` on, with at most `n` iterations
left: the first spawn point whose squared distance to the cursor is below 2 is
erased; then the loop breaks. -/
def eraseSpawnPointLoop (editorCursorPos : Vector3 F) (enemySpawnPoints : List (Vector3 F))
    (i : Nat) : Nat → List (Vector3 F)
  | 0 => enemySpawnPoints
  | n + 1 =>
    match enemySpawnPoints[i]? with
    | none => enemySpawnPoints
    | some p =>
      if Vector3DistanceSqr editorCursorPos p < 2 then enemySpawnPoints.eraseIdx i
      else eraseSpawnPointLoop editorCursorPos enemySpawnPoints (i + 1) n

/-- The loop of lines 787-792: `i` runs from 0 while `i < enemySpawnPoints.size()`. -/
def eraseSpawnPoint (editorCursorPos : Vector3 F) (enemySpawnPoints : List (Vector3 F)) :
    List (Vector3 F) :=
  eraseSpawnPointLoop editorCursorPos enemySpawnPoints 0 enemySpawnPoints.length

/-- The case `MODE_ERASE` (lines 771-793). -/
def editorErase (hit : RayHit F) (editorCursorPos : Vector3 F) (s : Game F) : Game F :=
  let r :=
    if hit.userIndex = -1 then eraseBlockLoop hit.userPointer s.worldBlocks s.dynamicsWorld
    else (s.worldBlocks, s.dynamicsWorld)
  { s with
    worldBlocks := r.1
    dynamicsWorld := r.2
    enemySpawnPoints := eraseSpawnPoint editorCursorPos s.enemySpawnPoints }

/-- The primary action of the editor, by tool (lines 763-795). -/
def editorTool (hit : RayHit F) (editorCursorPos : Vector3 F) (s : Game F) : Game F :=
  match s.settings.editorMode with
  | MODE_PLACE =>
    CreateStaticBox editorCursorPos s.settings.editorBlockSize s.settings.editorBlockColor s
  | MODE_SPAWN => { s with enemySpawnPoints := s.enemySpawnPoints ++ [editorCursorPos] }
  | MODE_ERASE => editorErase hit editorCursorPos s

/-- The direction of the editor camera's move (lines 739-747). -/
def editorMoveDir (m : LibM F) (inp : FrameInput F) (camForward camRight : Vector3 F) :
    Vector3 F :=
  let moveDir : Vector3 F := ⟨0, 0, 0⟩
  let moveDir := if inp.keyWDown then Vector3Add moveDir camForward else moveDir
  let moveDir := if inp.keySDown then Vector3Subtract moveDir camForward else moveDir
  let moveDir := if inp.keyADown then Vector3Add moveDir camRight else moveDir
  let moveDir := if inp.keyDDown then Vector3Subtract moveDir camRight else moveDir
  let moveDir := if inp.keySpaceDown then { moveDir with y := moveDir.y + 1 } else moveDir
  let moveDir := if inp.keyLeftControlDown then { moveDir with y := moveDir.y - 1 } else moveDir
  if Vector3LengthSqr moveDir > 0 then Vector3Normalize m moveDir else moveDir

/-- The free-fly camera of the editor (lines 732-749). -/
def editorCameraControl (m : LibM F) (inp : FrameInput F) (s : Game F) : Game F :=
  let editorYaw := s.editorYaw - inp.mouseDelta.x * sensitivity
  let editorPitch := s.editorPitch - inp.mouseDelta.y * sensitivity
  let editorPitch := if editorPitch > 89 * DEG2RAD m then 89 * DEG2RAD m else editorPitch
  let editorPitch := if editorPitch < -89 * DEG2RAD m then -89 * DEG2RAD m else editorPitch
  let camForward : Vector3 F :=
    ⟨m.cosf editorPitch * m.sinf editorYaw, m.sinf editorPitch,
      m.cosf editorPitch * m.cosf editorYaw⟩
  let camRight : Vector3 F := ⟨-(m.cosf editorYaw), 0, m.sinf editorYaw⟩
  let moveDir := editorMoveDir m inp camForward camRight
  let editorSpeed : F := 15
  let position := Vector3Add s.editorCamera.position (Vector3Scale moveDir (editorSpeed * inp.dt))
  let target := Vector3Add position camForward
  { s with
    editorYaw := editorYaw
    editorPitch := editorPitch
    editorCamera := ⟨position, target⟩ }

/-- The far end `rayTo` of the editor's picking ray (lines 751-753). -/
def editorRayTo (m : LibM F) (s : Game F) : Vector3 F :=
  let position := s.editorCamera.position
  let direction := Vector3Normalize m (Vector3Subtract s.editorCamera.target position)
  ⟨position.x + direction.x * 1000, position.y + direction.y * 1000,
    position.z + direction.z * 1000⟩

/-- The cursor of the editor: the hit point moved by 0.01 along the normal (line 761). -/
def editorCursor (hit : RayHit F) : Vector3 F :=
  let p := hit.m_hitPointWorld
  let n := hit.m_hitNormalWorld
  ⟨p.x + n.x * (1 / 100), p.y + n.y * (1 / 100), p.z + n.z * (1 / 100)⟩

/-- The picking ray of the editor and the tool (lines 751-796). -/
def editorPicking (m : LibM F) (inp : FrameInput F) (s : Game F) : Game F :=
  let rayFrom := s.editorCamera.position
  let rayTo := editorRayTo m s
  match inp.editorRay rayFrom rayTo with
  | some hit =>
    let editorCursorPos := editorCursor hit
    let s := { s with editorCursorValid := true, editorCursorPos := editorCursorPos }
    if inp.mouseLeftPressed then editorTool hit editorCursorPos s else s
  | none => { s with editorCursorValid := false }

/-- The editor state (lines 731-797). -/
def editorState (m : LibM F) (inp : FrameInput F) (s : Game F) : Game F :=
  editorPicking m inp (editorCameraControl m inp s)

/-- The decay loop of lines 799-804 with `n` iterations left, that is with
`i = n - 1` next: the life of `vfx[i]` is lowered by `dt`, and the effect is
erased in place when its life is then at most 0. -/
def vfxDecayLoop (dt : F) : Nat → List (VisualEffect F) → List (VisualEffect F)
  | 0, vfx => vfx
  | i + 1, vfx =>
    match vfx[i]? with
    | none => vfxDecayLoop dt i vfx
    | some e =>
      let vfx := vfx.set i { e with life := e.life - dt }
      if e.life - dt ≤ 0 then vfxDecayLoop dt i (vfx.eraseIdx i) else vfxDecayLoop dt i vfx

/-- The decay loop of lines 799-804: `i` runs from `vfx.size() - 1` down to 0. -/
def vfxDecay (dt : F) (vfx : List (VisualEffect F)) : List (VisualEffect F) :=
  vfxDecayLoop dt vfx.length vfx

/-- The camera rig of the gameplay state (lines 808-829). -/
def cameraRig (m : LibM F) (inp : FrameInput F) (playerPos : Vector3 F) (s : Game F) : Game F :=
  let focusPos := Vector3Add playerPos ⟨0, 3 / 2, 0⟩
  let cameraDistanceTarget : F := if s.isAiming then 3 else 8
  let cameraDistance := Lerp s.cameraDistance cameraDistanceTarget (inp.dt * 5)
  let idealCamX := focusPos.x - m.cosf s.playerPitch * m.sinf s.playerYaw * cameraDistance
  let idealCamY := focusPos.y - m.sinf s.playerPitch * cameraDistance
  let idealCamZ := focusPos.z - m.cosf s.playerPitch * m.cosf s.playerYaw * cameraDistance
  let camRayStart := focusPos
  let camRayEnd : Vector3 F := ⟨idealCamX, idealCamY, idealCamZ⟩
  let position :=
    match inp.camRay camRayStart camRayEnd with
    | some camRay =>
      let hitPoint := camRay.m_hitPointWorld
      let diff := Vector3Subtract camRayEnd hitPoint
      let norm := Vector3Normalize m diff
      Vector3Add hitPoint (Vector3Scale norm (2 / 10))
    | none => camRayEnd
  { s with
    cameraDistanceTarget := cameraDistanceTarget
    cameraDistance := cameraDistance
    playerCamera := ⟨position, focusPos⟩ }

/-- The head of the loop body (lines 434-456): the animation clock and the
state switching. -/
def frameStart (inp : FrameInput F) (s : Game F) : Game F :=
  stateSwitching inp { s with animationTimer := s.animationTimer + inp.dt }

/-- The state in which a frame from `s` reaches the test of line 525. -/
def atPlayerUpdate (m : LibM F) (inp : FrameInput F) (s : Game F) : Game F :=
  beforePlayerUpdate m inp (frameStart inp s).player.body.origin (frameStart inp s)

/-- One pass of the main game loop (lines 433-1030), without the drawing. -/
def mainLoopBody (m : LibM F) (inp : FrameInput F) (s : Game F) : Game F :=
  let s := frameStart inp s
  let playerPos := s.player.body.origin
  let s :=
    match s.gameState with
    | STATE_GAMEPLAY => gameplayState m inp playerPos s
    | STATE_EDITOR => editorState m inp s
    | STATE_SETTINGS => s
  let s := { s with vfx := vfxDecay inp.dt s.vfx }
  let s := if s.gameState = STATE_GAMEPLAY then cameraRig m inp playerPos s else s
  if s.gameState = STATE_SETTINGS then { s with settings := inp.settingsMenu s.settings } else s

/-- Creates a large shooter arena with cover objects and enemies (lines 150-178). -/
def CreateShooterArena (rand : Nat → Nat) (s : Game F) : Game F :=
  let s := CreateStaticBox ⟨0, -(1 / 2), 0⟩ ⟨80, 1, 80⟩ GRAY s
  let s := CreateStaticBox ⟨0, 2, 81 / 2⟩ ⟨80, 5, 1⟩ DARKGRAY s
  let s := CreateStaticBox ⟨0, 2, -(81 / 2)⟩ ⟨80, 5, 1⟩ DARKGRAY s
  let s := CreateStaticBox ⟨81 / 2, 2, 0⟩ ⟨1, 5, 80⟩ DARKGRAY s
  let s := CreateStaticBox ⟨-(81 / 2), 2, 0⟩ ⟨1, 5, 80⟩ DARKGRAY s
  let s := CreateStaticBox ⟨0, 1, 15⟩ ⟨20, 2, 2⟩ DARKGRAY s
  let s := CreateStaticBox ⟨-15, 1, 5⟩ ⟨3, 2, 3⟩ DARKGRAY s
  let s := CreateStaticBox ⟨-12, 1, -10⟩ ⟨3, 2, 3⟩ DARKGRAY s
  let s := CreateStaticBox ⟨20, 1, -5⟩ ⟨10, 2, 2⟩ DARKGRAY s
  let s := CreateStaticBox ⟨24, 1, -10⟩ ⟨2, 2, 10⟩ DARKGRAY s
  let s := CreateStaticBox ⟨0, 2, -20⟩ ⟨4, 4, 4⟩ DARKGRAY s
  let s := { s with
    enemySpawnPoints := s.enemySpawnPoints ++
      ([⟨0, 2, 25⟩, ⟨20, 2, -25⟩, ⟨-25, 2, 0⟩, ⟨15, 2, 10⟩, ⟨-15, 2, -20⟩] : List (Vector3 F)) }
  s.enemySpawnPoints.foldl (fun s sp => CreateEnemy rand sp s) s

/-- The state in which `main` enters its loop (lines 332-430). -/
def initialGame (m : LibM F) (rand : Nat → Nat) : Game F :=
  let s : Game F :=
    { gameState := STATE_GAMEPLAY
      settings :=
        { enemiesFrozen := false
          enemiesAttack := false
          enemiesSuperSpeed := false
          playerInfiniteHealth := false
          playerInfiniteAmmo := false
          inEditMode := false
          editorMode := MODE_PLACE
          editorBlockSize := ⟨2, 2, 2⟩
          editorBlockColor := ORANGE }
      playerCamera := ⟨⟨0, 0, 0⟩, ⟨0, 0, 0⟩⟩
      cameraDistance := 8
      cameraDistanceTarget := 8
      editorCamera := ⟨⟨0, 15, 15⟩, ⟨0, 0, 0⟩⟩
      editorYaw := -90 * DEG2RAD m
      editorPitch := -45 * DEG2RAD m
      playerYaw := -90 * DEG2RAD m
      playerPitch := 20 * DEG2RAD m
      animationTimer := 0
      playerDeathTimer := 0
      worldBlocks := []
      enemies := []
      enemySpawnPoints := []
      vfx := []
      enemyRespawnTimer := 0
      player :=
        { body := ⟨0, ⟨0, 5, 0⟩, ⟨0, 0, 0⟩, false, 1⟩
          health := 100
          maxHealth := 100
          state := STATE_ON_GROUND
          modelRotationAngle := 0
          isMoving := false }
      isAiming := false
      currentAmmo := magazineSize
      reloadTimer := 0
      fireTimer := 0
      editorCursorPos := ⟨0, 0, 0⟩
      editorCursorValid := false
      inDialogue := false
      dialoguePartner := none
      currentDialogue := 0
      dynamicsWorld := []
      nextHandle := 0
      randCalls := 0 }
  let s := CreateShooterArena rand s
  { s with
    player := { s.player with body := { s.player.body with handle := s.nextHandle } }
    dynamicsWorld := s.dynamicsWorld ++ [s.nextHandle]
    nextHandle := s.nextHandle + 1 }

end Frame


/-! ## The pose of the animated character (main.cpp lines 181-258) -/

section Pose

variable {F : Type} [LinearOrderedField F] [FloorRing F]

/-- The local variables of `DrawAnimatedCharacter` that hold the joint angles
and offsets handed to the drawing calls. -/
structure JointAngles (F : Type) where
  leftLegRot : F
  rightLegRot : F
  leftArmRotX : F
  rightArmRotX : F
  leftArmRotZ : F
  rightArmRotZ : F
  torsoYOffset : F
  torsoXRot : F
  bodyRotX : F
  headRotX : F
  deriving DecidableEq

/-- Base pose based on movement state (lines 191-221), from the angles all 0. -/
def basePose (m : LibM F) (state : CharacterState) (animationTimer : F)
    (isMoving isTalking : Bool) : JointAngles F :=
  let walkCycleSpeed : F := 10
  let walkCycleAmplitude : F := 35
  let idleBreathSpeed : F := 2
  let idleBreathAmplitude : F := 2 / 100
  let j : JointAngles F := ⟨0, 0, 0, 0, 0, 0, 0, 0, 0, 0⟩
  match state with
  | STATE_ON_GROUND =>
    if isMoving then
      { j with
        leftLegRot := m.sinf (animationTimer * walkCycleSpeed) * walkCycleAmplitude
        rightLegRot := -(m.sinf (animationTimer * walkCycleSpeed)) * walkCycleAmplitude }
    else if isTalking then
      { j with
        torsoYOffset :=
          m.sinf (animationTimer * idleBreathSpeed * (5 / 2)) * idleBreathAmplitude * (18 / 10)
        headRotX := m.cosf (animationTimer * idleBreathSpeed * (3 / 2)) * 5 }
    else
      { j with torsoYOffset := m.sinf (animationTimer * idleBreathSpeed) * idleBreathAmplitude }
  | STATE_JUMPING => { j with leftLegRot := 45, rightLegRot := -20 }
  | STATE_DYING => { j with bodyRotX := 90, torsoYOffset := -1 }

/-- Arm animation overrides for weapon handling (lines 223-245). -/
def armPose (m : LibM F) (state : CharacterState) (animationTimer : F)
    (isAiming isTalking : Bool) (j : JointAngles F) : JointAngles F :=
  if state ≠ STATE_DYING then
    if isTalking then
      { j with
        rightArmRotX := 25 + m.sinf (animationTimer * 4) * 10
        rightArmRotZ := -45
        leftArmRotX := 35 + m.cosf (animationTimer * 3) * 10
        leftArmRotZ := 45 }
    else if isAiming then
      { j with
        torsoXRot := -10
        rightArmRotX := 90
        rightArmRotZ := -20
        leftArmRotX := 90
        leftArmRotZ := 20 }
    else
      { j with rightArmRotX := 75, rightArmRotZ := -15, leftArmRotX := 80, leftArmRotZ := 20 }
  else
    { j with rightArmRotX := -45, rightArmRotZ := 70, leftArmRotX := 45, leftArmRotZ := -70 }

/-- Reloading animation override (lines 247-253). -/
def reloadOverride (m : LibM F) (reloadProgress : F) (j : JointAngles F) : JointAngles F :=
  if reloadProgress > 0 then
    let progress := 1 - reloadProgress / 2
    let reloadAngle := m.sinf (progress * m.PI * 2) * -15
    { j with
      leftArmRotX := j.leftArmRotX + reloadAngle
      leftArmRotZ := j.leftArmRotZ + reloadAngle }
  else j

/-- Apply recoil (lines 255-258). -/
def applyRecoil (fireRecoil : F) (j : JointAngles F) : JointAngles F :=
  { j with
    rightArmRotX := j.rightArmRotX - fireRecoil * 15
    leftArmRotX := j.leftArmRotX - fireRecoil * 10
    rightArmRotZ := j.rightArmRotZ + fireRecoil * 5 }

/-- The pose computed by `DrawAnimatedCharacter` (lines 186-258): the base pose
by state, the arm pose, the reload override and the recoil.  The position, the
facing and the colours only reach the drawing calls and are left out. -/
def DrawAnimatedCharacter (m : LibM F) (state : CharacterState) (animationTimer : F)
    (isMoving isAiming isTalking : Bool) (reloadProgress fireRecoil : F) : JointAngles F :=
  applyRecoil fireRecoil
    (reloadOverride m reloadProgress
      (armPose m state animationTimer isAiming isTalking
        (basePose m state animationTimer isMoving isTalking)))

end Pose

/-! ## The predicates of the invariants -/

/-- The handles of the bodies that the live entities own: those of the
enemies, those of the static blocks, and that of the player. -/
def entityBodies {F : Type} (s : Game F) : List Nat :=
  s.enemies.map (fun e => e.body.handle) ++
    (s.worldBlocks.map (fun b => b.body.handle) ++ [s.player.body.handle])

/-- The world and the entities agree: the registered bodies are, each once, the
bodies that the live entities own; no two entities own the same body; and every
body in use is older than the next `new btRigidBody`. -/
def WorldConsistent {F : Type} (s : Game F) : Prop :=
  s.dynamicsWorld.Perm (entityBodies s) ∧ (entityBodies s).Nodup ∧
    ∀ h ∈ entityBodies s, h < s.nextHandle

instance {F : Type} (s : Game F) : Decidable (WorldConsistent s) := by
  unfold WorldConsistent; infer_instance

/-- An enemy keeps its body, its health, its life state and its death timer. -/
def EnemyKeeps {F : Type} (e e' : Enemy F) : Prop :=
  e'.body.handle = e.body.handle ∧ e'.body.noContactResponse = e.body.noContactResponse ∧
    e'.health = e.health ∧ e'.maxHealth = e.maxHealth ∧ e'.state = e.state ∧
    e'.deathTimer = e.deathTimer

/-- What the shot of a frame can make of an enemy: nothing, or 25 less health
for an enemy that is not dying. -/
def EnemyShot {F : Type} (e e' : Enemy F) : Prop :=
  e'.body.handle = e.body.handle ∧ e'.body.noContactResponse = e.body.noContactResponse ∧
    e'.maxHealth = e.maxHealth ∧ e'.state = e.state ∧ e'.deathTimer = e.deathTimer ∧
    (e'.health = e.health ∨ (e.state ≠ STATE_DYING ∧ e'.health = e.health - 25))

/-- What the enemy loop makes of an enemy in a frame of length `dt`: a dying
enemy stays dying and its death timer grows by `dt`; an enemy with no health
left becomes dying without collision response; any other enemy keeps its state. -/
def EnemyTick {F : Type} [Add F] (dt : F) (e e' : Enemy F) : Prop :=
  e'.body.handle = e.body.handle ∧ e'.maxHealth = e.maxHealth ∧ e'.health = e.health ∧
    (e.state = STATE_DYING →
      e'.state = STATE_DYING ∧ e'.deathTimer = e.deathTimer + dt ∧
        e'.body.noContactResponse = e.body.noContactResponse) ∧
    (e.state ≠ STATE_DYING →
      e'.deathTimer = e.deathTimer ∧
        (e.health ≤ 0 → e'.state = STATE_DYING ∧ e'.body.noContactResponse = true) ∧
        (0 < e.health →
          e'.state = e.state ∧ e'.body.noContactResponse = e.body.noContactResponse))

/-- What a gameplay frame of length `dt` makes of an enemy up to the respawn
and the reap pass: the shot, then the enemy loop. -/
def EnemyFrame {F : Type} [Add F] (dt : F) (e e' : Enemy F) : Prop :=
  e'.body.handle = e.body.handle ∧ e'.maxHealth = e.maxHealth ∧
    (e.state = STATE_DYING →
      e'.state = STATE_DYING ∧ e'.health = e.health ∧ e'.deathTimer = e.deathTimer + dt ∧
        e'.body.noContactResponse = e.body.noContactResponse) ∧
    (e.state ≠ STATE_DYING →
      (e'.health = e.health ∨ e'.health = e.health - 25) ∧ e'.deathTimer = e.deathTimer ∧
        (e'.health ≤ 0 → e'.state = STATE_DYING ∧ e'.body.noContactResponse = true) ∧
        (0 < e'.health →
          e'.state = e.state ∧ e'.body.noContactResponse = e.body.noContactResponse))

/-- The enemy that `CreateEnemy` makes on the body `h`. -/
def EnemyFresh {F : Type} (h : Nat) (e : Enemy F) : Prop :=
  e.body.handle = h ∧ e.body.noContactResponse = false ∧ e.health = 100 ∧ e.maxHealth = 100 ∧
    e.state = STATE_ON_GROUND

/-- The test of the reap pass (line 718) fails: the enemy stays in the list. -/
def survivesReap {F : Type} [LinearOrderedField F] (e : Enemy F) : Bool :=
  decide ¬(e.state = STATE_DYING ∧ e.deathTimer > 3)

/-- The health of an enemy is as the program keeps it: a multiple of 25 between
0 and the maximum 100, and 0 exactly for a dying enemy. -/
def EnemyHealthy {F : Type} (e : Enemy F) : Prop :=
  e.maxHealth = 100 ∧ 0 ≤ e.health ∧ e.health ≤ 100 ∧ 25 ∣ e.health ∧
    (e.state = STATE_DYING ↔ e.health ≤ 0)

/-- The upper end `start` of the ground ray (line 476): the origin of the player. -/
def groundRayStart {F : Type} (playerPos : Vector3 F) : Vector3 F := playerPos

/-- The lower end `end` of the ground ray (line 477):
`start - btVector3(0, playerHeight * 0.55f, 0)`. -/
def groundRayEnd {F : Type} [LinearOrderedField F] [FloorRing F] (playerPos : Vector3 F) :
    Vector3 F :=
  let start := groundRayStart playerPos
  ⟨start.x - 0, start.y - playerHeight * (55 / 100), start.z - 0⟩

/-! ## Example data over the rational numbers -/

/-- The square root rounded down to a whole number, for arguments below 40000:
the number of `k` in 1..199 with `k * k ≤ x`. -/
def exampleSqrt (x : ℚ) : ℚ :=
  (((List.range 200).filter fun k => 0 < k ∧ ((k : ℚ) * k ≤ x)).length : ℚ)

/-- A libm over the rationals: the square root is exact on the squares of whole
numbers, the angle is fixed at sine 0 and cosine 1. -/
def exampleLibM : LibM ℚ :=
  { sinf := fun _ => 0
    cosf := fun _ => 1
    sqrtf := exampleSqrt
    atan2f := fun _ _ => 0
    PI := 22 / 7 }

/-- A frame of `dt` seconds with no key, no button, no ray hit, and a physics
step that leaves the bodies where they are. -/
def idleInput (dt : ℚ) : FrameInput ℚ :=
  { dt := dt
    keyTabPressed := false
    keyEPressed := false
    keySpacePressed := false
    keyRPressed := false
    keyWDown := false
    keySDown := false
    keyADown := false
    keyDDown := false
    keySpaceDown := false
    keyLeftControlDown := false
    mouseLeftDown := false
    mouseLeftPressed := false
    mouseRightDown := false
    mouseDelta := ⟨0, 0⟩
    groundRay := false
    bulletRay := fun _ _ => none
    camRay := fun _ _ => none
    editorRay := fun _ _ => none
    rand := fun _ => 0
    stepSimulation := fun body => body
    settingsMenu := fun settings => settings }

/-- The state in which `main` enters its loop, over the rationals. -/
def exampleGame : Game ℚ := initialGame exampleLibM fun _ => 0

/-- The player is dying, with health 0, 2.9 seconds into the death timer. -/
def deadPlayerGame : Game ℚ :=
  { exampleGame with
    player := { exampleGame.player with state := STATE_DYING, health := 0 }
    playerDeathTimer := 29 / 10 }

/-- The player is dying in the air next to the enemy that stands at (-15, 2, -20),
three seconds into the death timer, and the enemies attack. -/
def meleeRespawnGame : Game ℚ :=
  { exampleGame with
    settings := { exampleGame.settings with enemiesAttack := true }
    player := { exampleGame.player with
      state := STATE_DYING
      health := 0
      body := { exampleGame.player.body with origin := ⟨-15, 2, -19⟩ } }
    playerDeathTimer := 3 }

/-- The player stands next to the enemy at (-15, 2, -20), and the enemies attack. -/
def meleeGame : Game ℚ :=
  { exampleGame with
    settings := { exampleGame.settings with enemiesAttack := true }
    player := { exampleGame.player with
      body := { exampleGame.player.body with origin := ⟨-15, 2, -19⟩ } } }

/-- One round is left in the magazine. -/
def lastRoundGame : Game ℚ := { exampleGame with currentAmmo := 1 }

/-- The player stands three units from the enemy at (-15, 2, -20). -/
def talkGame : Game ℚ :=
  { exampleGame with
    player := { exampleGame.player with
      body := { exampleGame.player.body with origin := ⟨-15, 2, -17⟩ } } }

/-- The editor with the erase tool. -/
def eraseGame : Game ℚ :=
  { exampleGame with
    gameState := STATE_EDITOR
    settings := { exampleGame.settings with inEditMode := true, editorMode := MODE_ERASE } }

/-- The two enemies created last are dying, with their death timers at 0. -/
def twoDeadGame : Game ℚ :=
  { exampleGame with
    enemies := exampleGame.enemies.map fun e =>
      if 14 ≤ e.body.handle then { e with state := STATE_DYING, health := 0 } else e }

/-- The frames of a list of inputs, one after the other. -/
def runFrames {F : Type} [LinearOrderedField F] [FloorRing F] (m : LibM F) :
    List (FrameInput F) → Game F → Game F
  | [], s => s
  | inp :: rest, s => runFrames m rest (mainLoopBody m inp s)

/-- An enemy at the origin, at rest, with full health. -/
def chaseEnemy : Enemy ℚ :=
  { body := ⟨11, ⟨0, 0, 0⟩, ⟨0, 0, 0⟩, false, 2⟩
    health := 100
    maxHealth := 100
    state := STATE_ON_GROUND
    animationTimer := 0
    isMoving := false
    modelRotationAngle := 0
    deathTimer := 0
    aiStateTimer := 1
    wanderDirection := ⟨0, 0, 0⟩ }

/-- The frame of half a second in which the ground ray hits. -/
def groundedInput : FrameInput ℚ := { idleInput (1 / 2) with groundRay := true }

/-- The player is dying in the air, three seconds into the death timer, and
the enemies do not attack. -/
def respawnGame : Game ℚ :=
  { exampleGame with
    player := { exampleGame.player with state := STATE_DYING, health := 0 }
    playerDeathTimer := 3 }

/-- The frame of 1/60 second with the fire button down and the ground ray hitting. -/
def fireInput : FrameInput ℚ := { idleInput (1 / 60) with mouseLeftDown := true, groundRay := true }

/-- The settings with attack mode on and everything else off. -/
def attackSettings : GameSettings ℚ :=
  { exampleGame.settings with enemiesAttack := true }

/-- The hit of the editor ray on the enemy that stands on the spawn point (0, 2, 25). -/
def spawnPointHit : RayHit ℚ := ⟨⟨0, 2, 25⟩, ⟨0, 1, 0⟩, 2, 11⟩

/-- The frame with a click in which the editor ray hits the enemy on the spawn point. -/
def eraseInput : FrameInput ℚ :=
  { idleInput (1 / 60) with mouseLeftPressed := true, editorRay := fun _ _ => some spawnPointHit }

/-- The frame of 1/60 second with the interact key pressed and the ground ray hitting. -/
def talkInput : FrameInput ℚ := { idleInput (1 / 60) with keyEPressed := true, groundRay := true }

/-- The hit of the bullet ray on the body of the enemy at (-15, 2, -20). -/
def exampleBulletHit : RayHit ℚ := ⟨⟨-15, 2, -20⟩, ⟨0, 0, 1⟩, 2, 15⟩

/-- The frame of 1/60 second with the fire button down, the ground ray hitting
and the bullet ray hitting the enemy at (-15, 2, -20). -/
def shotInput : FrameInput ℚ :=
  { idleInput (1 / 60) with
    mouseLeftDown := true, groundRay := true, bulletRay := fun _ _ => some exampleBulletHit }

/-- The frame of 1/60 second with the forward key down and the ground ray hitting. -/
def walkInput : FrameInput ℚ := { idleInput (1 / 60) with keyWDown := true, groundRay := true }

/-- The player stands at (0, 1, -14), four units in front of the face `z = -18`
of the block at (0, 2, -20), and looks along the z axis (yaw 0, pitch 0, where
sine is 0 and cosine is 1). -/
def occludedGame : Game ℚ :=
  { exampleGame with
    playerYaw := 0
    playerPitch := 0
    player := { exampleGame.player with
      body := { exampleGame.player.body with origin := ⟨0, 1, -14⟩ } } }

/-- The hit of the camera ray on the face `z = -18` of the block at (0, 2, -20),
whose normal points to the player. -/
def occluderHit : RayHit ℚ := ⟨⟨0, 5 / 2, -18⟩, ⟨0, 0, 1⟩, -1, 10⟩

/-- The frame of 1/60 second in which the camera ray hits the block. -/
def occludedInput : FrameInput ℚ :=
  { idleInput (1 / 60) with groundRay := true, camRay := fun _ _ => some occluderHit }

/-- The frame with a click in which the editor ray hits the block at (0, 2, -20). -/
def eraseBlockInput : FrameInput ℚ :=
  { idleInput (1 / 60) with mouseLeftPressed := true, editorRay := fun _ _ => some occluderHit }

/-- The enemy at (-15, 2, -20), whose body has handle 15, has 25 health left. -/
def weakEnemyGame : Game ℚ :=
  { exampleGame with
    enemies := exampleGame.enemies.map fun e =>
      if e.body.handle = 15 then { e with health := 25 } else e }

/-- The frame of 1/60 second in which Tab opens the settings menu and a click
in the menu turns the attack of the enemies on. -/
def menuInput : FrameInput ℚ :=
  { idleInput (1 / 60) with
    keyTabPressed := true
    settingsMenu := fun settings => { settings with enemiesAttack := true } }

/-- The frame of 1/60 second in which Tab closes the settings menu, and whose
physics step leaves the player at (-15, 2, -19), one unit from the enemy that
stands at (-15, 2, -20). -/
def resumeInput : FrameInput ℚ :=
  { idleInput (1 / 60) with
    keyTabPressed := true
    stepSimulation := fun body =>
      if body.userIndex = 1 then { body with origin := ⟨-15, 2, -19⟩ } else body }

/-- A frame that takes six seconds (the loop was stalled), with no key and no button. -/
def stallInput : FrameInput ℚ := idleInput 6

/-- The player stands three units from the enemy at (-15, 2, -20), and the
enemies attack. -/
def chaseGame : Game ℚ := { talkGame with settings := attackSettings }

/-- The frame of 1/60 second whose physics step leaves the enemy on the body 15
at (-15, 2, -18), one unit from the player of `chaseGame`. -/
def closeInInput : FrameInput ℚ :=
  { idleInput (1 / 60) with
    stepSimulation := fun body =>
      if body.handle = 15 then { body with origin := ⟨-15, 2, -18⟩ } else body }

/-- An enemy at the origin that moves at (3, -1, 4). -/
def slidingEnemy : Enemy ℚ :=
  { chaseEnemy with
    isMoving := true
    body := { chaseEnemy.body with linearVelocity := ⟨3, -1, 4⟩ } }

/-- The frame of 1/60 second in which Tab is pressed and nothing else happens. -/
def tabInput : FrameInput ℚ := { idleInput (1 / 60) with keyTabPressed := true }

/-- The game in the settings menu, one Tab press after the initial state. -/
def menuGame : Game ℚ := mainLoopBody exampleLibM tabInput exampleGame

/-- The frame of 1/60 second, without a click, in which the editor ray hits the
block at (0, 2, -20). -/
def hoverInput : FrameInput ℚ :=
  { idleInput (1 / 60) with editorRay := fun _ _ => some occluderHit }

/-- The frame of `dt` seconds with the aim button down and the ground ray hitting. -/
def aimInput (dt : ℚ) : FrameInput ℚ :=
  { idleInput dt with mouseRightDown := true, groundRay := true }

/-- The player of `talkGame`, three units from the enemy at (-15, 2, -20), is
dying, with health 0. -/
def dyingTalkGame : Game ℚ :=
  { talkGame with player := { talkGame.player with state := STATE_DYING, health := 0 } }

/-- The magazine is empty and the reload has 1/100 second left. -/
def reloadingGame : Game ℚ := { exampleGame with currentAmmo := 0, reloadTimer := 1 / 100 }

/-- The magazine is empty and the reload has one second left. -/
def midReloadGame : Game ℚ := { exampleGame with currentAmmo := 0, reloadTimer := 1 }

/-- Seven rounds are left and infinite ammo is on. -/
def infiniteAmmoGame : Game ℚ :=
  { exampleGame with
    currentAmmo := 7
    settings := { exampleGame.settings with playerInfiniteAmmo := true } }

/-- The player is dying in the air, three seconds into the death timer, with
five rounds left. -/
def respawnAmmoGame : Game ℚ := { respawnGame with currentAmmo := 5 }

/-! ## Theorems -/

section Theorems

set_option linter.unusedSectionVars false

variable {F : Type} [LinearOrderedField F] [FloorRing F]

/-! ### The reap pass and the decay pass -/

/-- The reap loop keeps the enemies that fail its test, in order. -/
theorem reapLoop_fst (enemies : List (Enemy F)) (world : List Nat) :
    (reapLoop enemies world).1 =
      enemies.filter fun e => ¬(e.state = STATE_DYING ∧ e.deathTimer > 3) := by
  induction enemies generalizing world with
  | nil => rfl
  | cons it rest ih =>
    unfold reapLoop
    by_cases h : it.state = STATE_DYING ∧ it.deathTimer > 3
    · rw [if_pos h, List.filter_cons, if_neg (by rw [decide_eq_true_eq]; exact not_not_intro h)]
      exact ih _
    · rw [if_neg h, List.filter_cons, if_pos (decide_eq_true h)]
      simp only [ih]

/-- C3. For every enemy list the reap pass removes an enemy if and only if its
state is dying and its death timer is strictly above 3: the list after the
pass is the list before it without exactly those enemies, the others unchanged
and in their order; an enemy whose timer is exactly 3, or that is not dying,
stays. -/
theorem reap_removes_exactly_expired (s : Game F) :
    (reapDeadEnemies s).enemies =
        s.enemies.filter (fun e => ¬(e.state = STATE_DYING ∧ e.deathTimer > 3)) ∧
      List.Sublist (reapDeadEnemies s).enemies s.enemies ∧
      (∀ e ∈ s.enemies, e ∈ (reapDeadEnemies s).enemies ↔
        ¬(e.state = STATE_DYING ∧ e.deathTimer > 3)) ∧
      (∀ e ∈ s.enemies, e.deathTimer = 3 → e ∈ (reapDeadEnemies s).enemies) ∧
      (∀ e ∈ s.enemies, e.state ≠ STATE_DYING → e ∈ (reapDeadEnemies s).enemies) := by
  have h : (reapDeadEnemies s).enemies =
      s.enemies.filter (fun e => ¬(e.state = STATE_DYING ∧ e.deathTimer > 3)) := by
    simp only [reapDeadEnemies, reapLoop_fst]
  refine ⟨h, ?_, ?_, ?_, ?_⟩
  · rw [h]; exact List.filter_sublist _
  · intro e he
    rw [h, List.mem_filter, decide_eq_true_eq]
    exact ⟨fun x => x.2, fun x => ⟨he, x⟩⟩
  · intro e he h3
    rw [h, List.mem_filter, decide_eq_true_eq]
    exact ⟨he, fun x => absurd x.2 (by rw [h3]; exact lt_irrefl _)⟩
  · intro e he hd
    rw [h, List.mem_filter, decide_eq_true_eq]
    exact ⟨he, fun x => hd x.1⟩

/-- The element after a prefix sits at the index that is the prefix's length. -/
theorem getElem?_append_cons_length {α : Type} (init : List α) (a : α) (suf : List α) :
    (init ++ a :: suf)[init.length]? = some a := by
  induction init with
  | nil => simp
  | cons b init ih => simpa using ih

/-- Writing at the index that is the prefix's length replaces the element after the prefix. -/
theorem set_append_cons_length {α : Type} (init : List α) (a b : α) (suf : List α) :
    (init ++ a :: suf).set init.length b = init ++ b :: suf := by
  induction init with
  | nil => rfl
  | cons c init ih => simp [ih]

/-- Erasing at the index that is the prefix's length removes the element after the prefix. -/
theorem eraseIdx_append_cons_length {α : Type} (init : List α) (a : α) (suf : List α) :
    (init ++ a :: suf).eraseIdx init.length = init ++ suf := by
  induction init with
  | nil => rfl
  | cons c init ih => simpa using ih

/-- The loop over the first `n` effects of a list leaves the others as they are. -/
theorem vfxDecayLoop_append (dt : F) (pre : List (VisualEffect F)) :
    ∀ suf : List (VisualEffect F),
      vfxDecayLoop dt pre.length (pre ++ suf) =
        (pre.map fun e => { e with life := e.life - dt }).filter (fun e => 0 < e.life) ++ suf := by
  induction pre using List.reverseRecOn with
  | nil => intro suf; rfl
  | append_singleton init a ih =>
    intro suf
    rw [List.length_append, List.length_singleton, List.append_assoc, List.singleton_append]
    unfold vfxDecayLoop
    simp only [getElem?_append_cons_length, set_append_cons_length, eraseIdx_append_cons_length]
    by_cases hle : a.life - dt ≤ 0
    · rw [if_pos hle, ih suf]
      simp [List.filter_cons, not_lt.mpr hle]
    · rw [if_neg hle, ih]
      simp [List.filter_cons, not_le.mp hle]

/-- C4. For every effect list and every `dt` the decay pass (the backwards
index loop with the erase in place) yields exactly the effects whose life
minus `dt` is above 0, each with its life lowered by `dt` once, in their
order: no effect whose life is at most 0 after the decrement remains, and
every other effect remains. -/
theorem vfx_decay_keeps_exactly_live (dt : F) (vfx : List (VisualEffect F)) :
    vfxDecay dt vfx =
        (vfx.map fun e => { e with life := e.life - dt }).filter (fun e => 0 < e.life) ∧
      (∀ e ∈ vfxDecay dt vfx, 0 < e.life) ∧
      (∀ e ∈ vfxDecay dt vfx, ∃ e0 ∈ vfx, e = { e0 with life := e0.life - dt }) ∧
      (∀ e0 ∈ vfx, 0 < e0.life - dt → { e0 with life := e0.life - dt } ∈ vfxDecay dt vfx) := by
  have h : vfxDecay dt vfx =
      (vfx.map fun e => { e with life := e.life - dt }).filter (fun e => 0 < e.life) := by
    have := vfxDecayLoop_append dt vfx []
    simpa [vfxDecay] using this
  refine ⟨h, ?_, ?_, ?_⟩
  · intro e he
    rw [h, List.mem_filter, decide_eq_true_eq] at he
    exact he.2
  · intro e he
    rw [h, List.mem_filter, List.mem_map] at he
    obtain ⟨⟨e0, h0, rfl⟩, _⟩ := he
    exact ⟨e0, h0, rfl⟩
  · intro e0 h0 hpos
    rw [h, List.mem_filter, List.mem_map, decide_eq_true_eq]
    exact ⟨⟨e0, h0, rfl⟩, hpos⟩

/-! ### What each section of the frame leaves unchanged -/

@[simp]
theorem frameStart_settings (inp : FrameInput F) (s : Game F) :
    (frameStart inp s).settings = s.settings := by
  unfold frameStart stateSwitching
  repeat' split
  all_goals rfl

@[simp]
theorem frameStart_player (inp : FrameInput F) (s : Game F) :
    (frameStart inp s).player = s.player := by
  unfold frameStart stateSwitching
  repeat' split
  all_goals rfl

@[simp]
theorem frameStart_enemies (inp : FrameInput F) (s : Game F) :
    (frameStart inp s).enemies = s.enemies := by
  unfold frameStart stateSwitching
  repeat' split
  all_goals rfl

@[simp]
theorem frameStart_enemySpawnPoints (inp : FrameInput F) (s : Game F) :
    (frameStart inp s).enemySpawnPoints = s.enemySpawnPoints := by
  unfold frameStart stateSwitching
  repeat' split
  all_goals rfl

@[simp]
theorem frameStart_worldBlocks (inp : FrameInput F) (s : Game F) :
    (frameStart inp s).worldBlocks = s.worldBlocks := by
  unfold frameStart stateSwitching
  repeat' split
  all_goals rfl

@[simp]
theorem frameStart_enemyRespawnTimer (inp : FrameInput F) (s : Game F) :
    (frameStart inp s).enemyRespawnTimer = s.enemyRespawnTimer := by
  unfold frameStart stateSwitching
  repeat' split
  all_goals rfl

@[simp]
theorem frameStart_dynamicsWorld (inp : FrameInput F) (s : Game F) :
    (frameStart inp s).dynamicsWorld = s.dynamicsWorld := by
  unfold frameStart stateSwitching
  repeat' split
  all_goals rfl

@[simp]
theorem frameStart_playerDeathTimer (inp : FrameInput F) (s : Game F) :
    (frameStart inp s).playerDeathTimer = s.playerDeathTimer := by
  unfold frameStart stateSwitching
  repeat' split
  all_goals rfl

@[simp]
theorem frameStart_currentAmmo (inp : FrameInput F) (s : Game F) :
    (frameStart inp s).currentAmmo = s.currentAmmo := by
  unfold frameStart stateSwitching
  repeat' split
  all_goals rfl

@[simp]
theorem frameStart_fireTimer (inp : FrameInput F) (s : Game F) :
    (frameStart inp s).fireTimer = s.fireTimer := by
  unfold frameStart stateSwitching
  repeat' split
  all_goals rfl

@[simp]
theorem frameStart_reloadTimer (inp : FrameInput F) (s : Game F) :
    (frameStart inp s).reloadTimer = s.reloadTimer := by
  unfold frameStart stateSwitching
  repeat' split
  all_goals rfl

@[simp]
theorem frameStart_inDialogue (inp : FrameInput F) (s : Game F) :
    (frameStart inp s).inDialogue = s.inDialogue := by
  unfold frameStart stateSwitching
  repeat' split
  all_goals rfl

@[simp]
theorem frameStart_dialoguePartner (inp : FrameInput F) (s : Game F) :
    (frameStart inp s).dialoguePartner = s.dialoguePartner := by
  unfold frameStart stateSwitching
  repeat' split
  all_goals rfl

@[simp]
theorem frameStart_vfx (inp : FrameInput F) (s : Game F) :
    (frameStart inp s).vfx = s.vfx := by
  unfold frameStart stateSwitching
  repeat' split
  all_goals rfl

@[simp]
theorem playerCameraControl_gameState (m : LibM F) (inp : FrameInput F) (s : Game F) :
    (playerCameraControl m inp s).gameState = s.gameState := by
  unfold playerCameraControl
  split <;> rfl

@[simp]
theorem playerCameraControl_settings (m : LibM F) (inp : FrameInput F) (s : Game F) :
    (playerCameraControl m inp s).settings = s.settings := by
  unfold playerCameraControl
  split <;> rfl

@[simp]
theorem playerCameraControl_enemySpawnPoints (m : LibM F) (inp : FrameInput F) (s : Game F) :
    (playerCameraControl m inp s).enemySpawnPoints = s.enemySpawnPoints := by
  unfold playerCameraControl
  split <;> rfl

@[simp]
theorem playerCameraControl_worldBlocks (m : LibM F) (inp : FrameInput F) (s : Game F) :
    (playerCameraControl m inp s).worldBlocks = s.worldBlocks := by
  unfold playerCameraControl
  split <;> rfl

@[simp]
theorem playerCameraControl_enemyRespawnTimer (m : LibM F) (inp : FrameInput F) (s : Game F) :
    (playerCameraControl m inp s).enemyRespawnTimer = s.enemyRespawnTimer := by
  unfold playerCameraControl
  split <;> rfl

@[simp]
theorem playerCameraControl_dynamicsWorld (m : LibM F) (inp : FrameInput F) (s : Game F) :
    (playerCameraControl m inp s).dynamicsWorld = s.dynamicsWorld := by
  unfold playerCameraControl
  split <;> rfl

@[simp]
theorem playerCameraControl_player (m : LibM F) (inp : FrameInput F) (s : Game F) :
    (playerCameraControl m inp s).player = s.player := by
  unfold playerCameraControl
  split <;> rfl

@[simp]
theorem playerCameraControl_enemies (m : LibM F) (inp : FrameInput F) (s : Game F) :
    (playerCameraControl m inp s).enemies = s.enemies := by
  unfold playerCameraControl
  split <;> rfl

@[simp]
theorem playerCameraControl_playerDeathTimer (m : LibM F) (inp : FrameInput F) (s : Game F) :
    (playerCameraControl m inp s).playerDeathTimer = s.playerDeathTimer := by
  unfold playerCameraControl
  split <;> rfl

@[simp]
theorem playerCameraControl_currentAmmo (m : LibM F) (inp : FrameInput F) (s : Game F) :
    (playerCameraControl m inp s).currentAmmo = s.currentAmmo := by
  unfold playerCameraControl
  split <;> rfl

@[simp]
theorem playerCameraControl_fireTimer (m : LibM F) (inp : FrameInput F) (s : Game F) :
    (playerCameraControl m inp s).fireTimer = s.fireTimer := by
  unfold playerCameraControl
  split <;> rfl

@[simp]
theorem playerCameraControl_reloadTimer (m : LibM F) (inp : FrameInput F) (s : Game F) :
    (playerCameraControl m inp s).reloadTimer = s.reloadTimer := by
  unfold playerCameraControl
  split <;> rfl

@[simp]
theorem playerCameraControl_inDialogue (m : LibM F) (inp : FrameInput F) (s : Game F) :
    (playerCameraControl m inp s).inDialogue = s.inDialogue := by
  unfold playerCameraControl
  split <;> rfl

@[simp]
theorem playerCameraControl_dialoguePartner (m : LibM F) (inp : FrameInput F) (s : Game F) :
    (playerCameraControl m inp s).dialoguePartner = s.dialoguePartner := by
  unfold playerCameraControl
  split <;> rfl

@[simp]
theorem playerCameraControl_vfx (m : LibM F) (inp : FrameInput F) (s : Game F) :
    (playerCameraControl m inp s).vfx = s.vfx := by
  unfold playerCameraControl
  split <;> rfl

@[simp]
theorem groundCheck_gameState (inp : FrameInput F) (s : Game F) :
    (groundCheck inp s).gameState = s.gameState := by
  unfold groundCheck
  dsimp only
  split <;> rfl

@[simp]
theorem groundCheck_settings (inp : FrameInput F) (s : Game F) :
    (groundCheck inp s).settings = s.settings := by
  unfold groundCheck
  dsimp only
  split <;> rfl

@[simp]
theorem groundCheck_enemySpawnPoints (inp : FrameInput F) (s : Game F) :
    (groundCheck inp s).enemySpawnPoints = s.enemySpawnPoints := by
  unfold groundCheck
  dsimp only
  split <;> rfl

@[simp]
theorem groundCheck_worldBlocks (inp : FrameInput F) (s : Game F) :
    (groundCheck inp s).worldBlocks = s.worldBlocks := by
  unfold groundCheck
  dsimp only
  split <;> rfl

@[simp]
theorem groundCheck_enemyRespawnTimer (inp : FrameInput F) (s : Game F) :
    (groundCheck inp s).enemyRespawnTimer = s.enemyRespawnTimer := by
  unfold groundCheck
  dsimp only
  split <;> rfl

@[simp]
theorem groundCheck_dynamicsWorld (inp : FrameInput F) (s : Game F) :
    (groundCheck inp s).dynamicsWorld = s.dynamicsWorld := by
  unfold groundCheck
  dsimp only
  split <;> rfl

@[simp]
theorem groundCheck_enemies (inp : FrameInput F) (s : Game F) :
    (groundCheck inp s).enemies = s.enemies := by
  unfold groundCheck
  dsimp only
  split <;> rfl

@[simp]
theorem groundCheck_playerDeathTimer (inp : FrameInput F) (s : Game F) :
    (groundCheck inp s).playerDeathTimer = s.playerDeathTimer := by
  unfold groundCheck
  dsimp only
  split <;> rfl

@[simp]
theorem groundCheck_currentAmmo (inp : FrameInput F) (s : Game F) :
    (groundCheck inp s).currentAmmo = s.currentAmmo := by
  unfold groundCheck
  dsimp only
  split <;> rfl

@[simp]
theorem groundCheck_fireTimer (inp : FrameInput F) (s : Game F) :
    (groundCheck inp s).fireTimer = s.fireTimer := by
  unfold groundCheck
  dsimp only
  split <;> rfl

@[simp]
theorem groundCheck_reloadTimer (inp : FrameInput F) (s : Game F) :
    (groundCheck inp s).reloadTimer = s.reloadTimer := by
  unfold groundCheck
  dsimp only
  split <;> rfl

@[simp]
theorem groundCheck_inDialogue (inp : FrameInput F) (s : Game F) :
    (groundCheck inp s).inDialogue = s.inDialogue := by
  unfold groundCheck
  dsimp only
  split <;> rfl

@[simp]
theorem groundCheck_dialoguePartner (inp : FrameInput F) (s : Game F) :
    (groundCheck inp s).dialoguePartner = s.dialoguePartner := by
  unfold groundCheck
  dsimp only
  split <;> rfl

@[simp]
theorem groundCheck_vfx (inp : FrameInput F) (s : Game F) :
    (groundCheck inp s).vfx = s.vfx := by
  unfold groundCheck
  dsimp only
  split <;> rfl

@[simp]
theorem handleDialogue_gameState (m : LibM F) (inp : FrameInput F) (pos : Vector3 F) (s : Game F) :
    (handleDialogue m inp pos s).gameState = s.gameState := by
  unfold handleDialogue
  dsimp only
  repeat' split
  all_goals rfl

@[simp]
theorem handleDialogue_settings (m : LibM F) (inp : FrameInput F) (pos : Vector3 F) (s : Game F) :
    (handleDialogue m inp pos s).settings = s.settings := by
  unfold handleDialogue
  dsimp only
  repeat' split
  all_goals rfl

@[simp]
theorem handleDialogue_enemySpawnPoints (m : LibM F) (inp : FrameInput F) (pos : Vector3 F) (s : Game F) :
    (handleDialogue m inp pos s).enemySpawnPoints = s.enemySpawnPoints := by
  unfold handleDialogue
  dsimp only
  repeat' split
  all_goals rfl

@[simp]
theorem handleDialogue_worldBlocks (m : LibM F) (inp : FrameInput F) (pos : Vector3 F) (s : Game F) :
    (handleDialogue m inp pos s).worldBlocks = s.worldBlocks := by
  unfold handleDialogue
  dsimp only
  repeat' split
  all_goals rfl

@[simp]
theorem handleDialogue_enemyRespawnTimer (m : LibM F) (inp : FrameInput F) (pos : Vector3 F) (s : Game F) :
    (handleDialogue m inp pos s).enemyRespawnTimer = s.enemyRespawnTimer := by
  unfold handleDialogue
  dsimp only
  repeat' split
  all_goals rfl

@[simp]
theorem handleDialogue_dynamicsWorld (m : LibM F) (inp : FrameInput F) (pos : Vector3 F) (s : Game F) :
    (handleDialogue m inp pos s).dynamicsWorld = s.dynamicsWorld := by
  unfold handleDialogue
  dsimp only
  repeat' split
  all_goals rfl

@[simp]
theorem handleDialogue_playerDeathTimer (m : LibM F) (inp : FrameInput F) (pos : Vector3 F) (s : Game F) :
    (handleDialogue m inp pos s).playerDeathTimer = s.playerDeathTimer := by
  unfold handleDialogue
  dsimp only
  repeat' split
  all_goals rfl

@[simp]
theorem handleDialogue_currentAmmo (m : LibM F) (inp : FrameInput F) (pos : Vector3 F) (s : Game F) :
    (handleDialogue m inp pos s).currentAmmo = s.currentAmmo := by
  unfold handleDialogue
  dsimp only
  repeat' split
  all_goals rfl

@[simp]
theorem handleDialogue_fireTimer (m : LibM F) (inp : FrameInput F) (pos : Vector3 F) (s : Game F) :
    (handleDialogue m inp pos s).fireTimer = s.fireTimer := by
  unfold handleDialogue
  dsimp only
  repeat' split
  all_goals rfl

@[simp]
theorem handleDialogue_reloadTimer (m : LibM F) (inp : FrameInput F) (pos : Vector3 F) (s : Game F) :
    (handleDialogue m inp pos s).reloadTimer = s.reloadTimer := by
  unfold handleDialogue
  dsimp only
  repeat' split
  all_goals rfl

@[simp]
theorem handleDialogue_vfx (m : LibM F) (inp : FrameInput F) (pos : Vector3 F) (s : Game F) :
    (handleDialogue m inp pos s).vfx = s.vfx := by
  unfold handleDialogue
  dsimp only
  repeat' split
  all_goals rfl

@[simp]
theorem freezeParticipants_gameState (s : Game F) :
    (freezeParticipants s).gameState = s.gameState := by
  unfold freezeParticipants
  dsimp only
  repeat' split
  all_goals rfl

@[simp]
theorem freezeParticipants_settings (s : Game F) :
    (freezeParticipants s).settings = s.settings := by
  unfold freezeParticipants
  dsimp only
  repeat' split
  all_goals rfl

@[simp]
theorem freezeParticipants_enemySpawnPoints (s : Game F) :
    (freezeParticipants s).enemySpawnPoints = s.enemySpawnPoints := by
  unfold freezeParticipants
  dsimp only
  repeat' split
  all_goals rfl

@[simp]
theorem freezeParticipants_worldBlocks (s : Game F) :
    (freezeParticipants s).worldBlocks = s.worldBlocks := by
  unfold freezeParticipants
  dsimp only
  repeat' split
  all_goals rfl

@[simp]
theorem freezeParticipants_enemyRespawnTimer (s : Game F) :
    (freezeParticipants s).enemyRespawnTimer = s.enemyRespawnTimer := by
  unfold freezeParticipants
  dsimp only
  repeat' split
  all_goals rfl

@[simp]
theorem freezeParticipants_dynamicsWorld (s : Game F) :
    (freezeParticipants s).dynamicsWorld = s.dynamicsWorld := by
  unfold freezeParticipants
  dsimp only
  repeat' split
  all_goals rfl

@[simp]
theorem freezeParticipants_playerDeathTimer (s : Game F) :
    (freezeParticipants s).playerDeathTimer = s.playerDeathTimer := by
  unfold freezeParticipants
  dsimp only
  repeat' split
  all_goals rfl

@[simp]
theorem freezeParticipants_currentAmmo (s : Game F) :
    (freezeParticipants s).currentAmmo = s.currentAmmo := by
  unfold freezeParticipants
  dsimp only
  repeat' split
  all_goals rfl

@[simp]
theorem freezeParticipants_fireTimer (s : Game F) :
    (freezeParticipants s).fireTimer = s.fireTimer := by
  unfold freezeParticipants
  dsimp only
  repeat' split
  all_goals rfl

@[simp]
theorem freezeParticipants_reloadTimer (s : Game F) :
    (freezeParticipants s).reloadTimer = s.reloadTimer := by
  unfold freezeParticipants
  dsimp only
  repeat' split
  all_goals rfl

@[simp]
theorem freezeParticipants_inDialogue (s : Game F) :
    (freezeParticipants s).inDialogue = s.inDialogue := by
  unfold freezeParticipants
  dsimp only
  repeat' split
  all_goals rfl

@[simp]
theorem freezeParticipants_dialoguePartner (s : Game F) :
    (freezeParticipants s).dialoguePartner = s.dialoguePartner := by
  unfold freezeParticipants
  dsimp only
  repeat' split
  all_goals rfl

@[simp]
theorem freezeParticipants_vfx (s : Game F) :
    (freezeParticipants s).vfx = s.vfx := by
  unfold freezeParticipants
  dsimp only
  repeat' split
  all_goals rfl

@[simp]
theorem playerMovement_gameState (m : LibM F) (inp : FrameInput F) (s : Game F) :
    (playerMovement m inp s).gameState = s.gameState := rfl

@[simp]
theorem playerMovement_settings (m : LibM F) (inp : FrameInput F) (s : Game F) :
    (playerMovement m inp s).settings = s.settings := rfl

@[simp]
theorem playerMovement_enemySpawnPoints (m : LibM F) (inp : FrameInput F) (s : Game F) :
    (playerMovement m inp s).enemySpawnPoints = s.enemySpawnPoints := rfl

@[simp]
theorem playerMovement_worldBlocks (m : LibM F) (inp : FrameInput F) (s : Game F) :
    (playerMovement m inp s).worldBlocks = s.worldBlocks := rfl

@[simp]
theorem playerMovement_enemyRespawnTimer (m : LibM F) (inp : FrameInput F) (s : Game F) :
    (playerMovement m inp s).enemyRespawnTimer = s.enemyRespawnTimer := rfl

@[simp]
theorem playerMovement_dynamicsWorld (m : LibM F) (inp : FrameInput F) (s : Game F) :
    (playerMovement m inp s).dynamicsWorld = s.dynamicsWorld := rfl

@[simp]
theorem playerMovement_inDialogue (m : LibM F) (inp : FrameInput F) (s : Game F) :
    (playerMovement m inp s).inDialogue = s.inDialogue := rfl

@[simp]
theorem playerMovement_dialoguePartner (m : LibM F) (inp : FrameInput F) (s : Game F) :
    (playerMovement m inp s).dialoguePartner = s.dialoguePartner := rfl

@[simp]
theorem playerMovement_enemies (m : LibM F) (inp : FrameInput F) (s : Game F) :
    (playerMovement m inp s).enemies = s.enemies := rfl

@[simp]
theorem playerMovement_playerDeathTimer (m : LibM F) (inp : FrameInput F) (s : Game F) :
    (playerMovement m inp s).playerDeathTimer = s.playerDeathTimer := rfl

@[simp]
theorem playerMovement_currentAmmo (m : LibM F) (inp : FrameInput F) (s : Game F) :
    (playerMovement m inp s).currentAmmo = s.currentAmmo := rfl

@[simp]
theorem playerMovement_fireTimer (m : LibM F) (inp : FrameInput F) (s : Game F) :
    (playerMovement m inp s).fireTimer = s.fireTimer := rfl

@[simp]
theorem playerMovement_reloadTimer (m : LibM F) (inp : FrameInput F) (s : Game F) :
    (playerMovement m inp s).reloadTimer = s.reloadTimer := rfl

@[simp]
theorem playerMovement_vfx (m : LibM F) (inp : FrameInput F) (s : Game F) :
    (playerMovement m inp s).vfx = s.vfx := rfl

@[simp]
theorem tickWeaponTimers_gameState (inp : FrameInput F) (s : Game F) :
    (tickWeaponTimers inp s).gameState = s.gameState := by
  unfold tickWeaponTimers
  dsimp only
  repeat' split
  all_goals rfl

@[simp]
theorem tickWeaponTimers_settings (inp : FrameInput F) (s : Game F) :
    (tickWeaponTimers inp s).settings = s.settings := by
  unfold tickWeaponTimers
  dsimp only
  repeat' split
  all_goals rfl

@[simp]
theorem tickWeaponTimers_enemySpawnPoints (inp : FrameInput F) (s : Game F) :
    (tickWeaponTimers inp s).enemySpawnPoints = s.enemySpawnPoints := by
  unfold tickWeaponTimers
  dsimp only
  repeat' split
  all_goals rfl

@[simp]
theorem tickWeaponTimers_worldBlocks (inp : FrameInput F) (s : Game F) :
    (tickWeaponTimers inp s).worldBlocks = s.worldBlocks := by
  unfold tickWeaponTimers
  dsimp only
  repeat' split
  all_goals rfl

@[simp]
theorem tickWeaponTimers_enemyRespawnTimer (inp : FrameInput F) (s : Game F) :
    (tickWeaponTimers inp s).enemyRespawnTimer = s.enemyRespawnTimer := by
  unfold tickWeaponTimers
  dsimp only
  repeat' split
  all_goals rfl

@[simp]
theorem tickWeaponTimers_dynamicsWorld (inp : FrameInput F) (s : Game F) :
    (tickWeaponTimers inp s).dynamicsWorld = s.dynamicsWorld := by
  unfold tickWeaponTimers
  dsimp only
  repeat' split
  all_goals rfl

@[simp]
theorem tickWeaponTimers_inDialogue (inp : FrameInput F) (s : Game F) :
    (tickWeaponTimers inp s).inDialogue = s.inDialogue := by
  unfold tickWeaponTimers
  dsimp only
  repeat' split
  all_goals rfl

@[simp]
theorem tickWeaponTimers_dialoguePartner (inp : FrameInput F) (s : Game F) :
    (tickWeaponTimers inp s).dialoguePartner = s.dialoguePartner := by
  unfold tickWeaponTimers
  dsimp only
  repeat' split
  all_goals rfl

@[simp]
theorem tickWeaponTimers_enemies (inp : FrameInput F) (s : Game F) :
    (tickWeaponTimers inp s).enemies = s.enemies := by
  unfold tickWeaponTimers
  dsimp only
  repeat' split
  all_goals rfl

@[simp]
theorem tickWeaponTimers_playerDeathTimer (inp : FrameInput F) (s : Game F) :
    (tickWeaponTimers inp s).playerDeathTimer = s.playerDeathTimer := by
  unfold tickWeaponTimers
  dsimp only
  repeat' split
  all_goals rfl

@[simp]
theorem tickWeaponTimers_player (inp : FrameInput F) (s : Game F) :
    (tickWeaponTimers inp s).player = s.player := by
  unfold tickWeaponTimers
  dsimp only
  repeat' split
  all_goals rfl

@[simp]
theorem tickWeaponTimers_vfx (inp : FrameInput F) (s : Game F) :
    (tickWeaponTimers inp s).vfx = s.vfx := by
  unfold tickWeaponTimers
  dsimp only
  repeat' split
  all_goals rfl

@[simp]
theorem fireWeapon_gameState (m : LibM F) (inp : FrameInput F) (pos : Vector3 F) (s : Game F) :
    (fireWeapon m inp pos s).gameState = s.gameState := by
  unfold fireWeapon
  dsimp only
  repeat' split
  all_goals rfl

@[simp]
theorem fireWeapon_settings (m : LibM F) (inp : FrameInput F) (pos : Vector3 F) (s : Game F) :
    (fireWeapon m inp pos s).settings = s.settings := by
  unfold fireWeapon
  dsimp only
  repeat' split
  all_goals rfl

@[simp]
theorem fireWeapon_enemySpawnPoints (m : LibM F) (inp : FrameInput F) (pos : Vector3 F) (s : Game F) :
    (fireWeapon m inp pos s).enemySpawnPoints = s.enemySpawnPoints := by
  unfold fireWeapon
  dsimp only
  repeat' split
  all_goals rfl

@[simp]
theorem fireWeapon_worldBlocks (m : LibM F) (inp : FrameInput F) (pos : Vector3 F) (s : Game F) :
    (fireWeapon m inp pos s).worldBlocks = s.worldBlocks := by
  unfold fireWeapon
  dsimp only
  repeat' split
  all_goals rfl

@[simp]
theorem fireWeapon_enemyRespawnTimer (m : LibM F) (inp : FrameInput F) (pos : Vector3 F) (s : Game F) :
    (fireWeapon m inp pos s).enemyRespawnTimer = s.enemyRespawnTimer := by
  unfold fireWeapon
  dsimp only
  repeat' split
  all_goals rfl

@[simp]
theorem fireWeapon_dynamicsWorld (m : LibM F) (inp : FrameInput F) (pos : Vector3 F) (s : Game F) :
    (fireWeapon m inp pos s).dynamicsWorld = s.dynamicsWorld := by
  unfold fireWeapon
  dsimp only
  repeat' split
  all_goals rfl

@[simp]
theorem fireWeapon_inDialogue (m : LibM F) (inp : FrameInput F) (pos : Vector3 F) (s : Game F) :
    (fireWeapon m inp pos s).inDialogue = s.inDialogue := by
  unfold fireWeapon
  dsimp only
  repeat' split
  all_goals rfl

@[simp]
theorem fireWeapon_dialoguePartner (m : LibM F) (inp : FrameInput F) (pos : Vector3 F) (s : Game F) :
    (fireWeapon m inp pos s).dialoguePartner = s.dialoguePartner := by
  unfold fireWeapon
  dsimp only
  repeat' split
  all_goals rfl

@[simp]
theorem fireWeapon_playerDeathTimer (m : LibM F) (inp : FrameInput F) (pos : Vector3 F) (s : Game F) :
    (fireWeapon m inp pos s).playerDeathTimer = s.playerDeathTimer := by
  unfold fireWeapon
  dsimp only
  repeat' split
  all_goals rfl

@[simp]
theorem fireWeapon_player (m : LibM F) (inp : FrameInput F) (pos : Vector3 F) (s : Game F) :
    (fireWeapon m inp pos s).player = s.player := by
  unfold fireWeapon
  dsimp only
  repeat' split
  all_goals rfl

@[simp]
theorem manualReload_gameState (inp : FrameInput F) (s : Game F) :
    (manualReload inp s).gameState = s.gameState := by
  unfold manualReload
  split <;> rfl

@[simp]
theorem manualReload_settings (inp : FrameInput F) (s : Game F) :
    (manualReload inp s).settings = s.settings := by
  unfold manualReload
  split <;> rfl

@[simp]
theorem manualReload_enemySpawnPoints (inp : FrameInput F) (s : Game F) :
    (manualReload inp s).enemySpawnPoints = s.enemySpawnPoints := by
  unfold manualReload
  split <;> rfl

@[simp]
theorem manualReload_worldBlocks (inp : FrameInput F) (s : Game F) :
    (manualReload inp s).worldBlocks = s.worldBlocks := by
  unfold manualReload
  split <;> rfl

@[simp]
theorem manualReload_enemyRespawnTimer (inp : FrameInput F) (s : Game F) :
    (manualReload inp s).enemyRespawnTimer = s.enemyRespawnTimer := by
  unfold manualReload
  split <;> rfl

@[simp]
theorem manualReload_dynamicsWorld (inp : FrameInput F) (s : Game F) :
    (manualReload inp s).dynamicsWorld = s.dynamicsWorld := by
  unfold manualReload
  split <;> rfl

@[simp]
theorem manualReload_inDialogue (inp : FrameInput F) (s : Game F) :
    (manualReload inp s).inDialogue = s.inDialogue := by
  unfold manualReload
  split <;> rfl

@[simp]
theorem manualReload_dialoguePartner (inp : FrameInput F) (s : Game F) :
    (manualReload inp s).dialoguePartner = s.dialoguePartner := by
  unfold manualReload
  split <;> rfl

@[simp]
theorem manualReload_playerDeathTimer (inp : FrameInput F) (s : Game F) :
    (manualReload inp s).playerDeathTimer = s.playerDeathTimer := by
  unfold manualReload
  split <;> rfl

@[simp]
theorem manualReload_player (inp : FrameInput F) (s : Game F) :
    (manualReload inp s).player = s.player := by
  unfold manualReload
  split <;> rfl

@[simp]
theorem manualReload_enemies (inp : FrameInput F) (s : Game F) :
    (manualReload inp s).enemies = s.enemies := by
  unfold manualReload
  split <;> rfl

@[simp]
theorem manualReload_currentAmmo (inp : FrameInput F) (s : Game F) :
    (manualReload inp s).currentAmmo = s.currentAmmo := by
  unfold manualReload
  split <;> rfl

@[simp]
theorem manualReload_fireTimer (inp : FrameInput F) (s : Game F) :
    (manualReload inp s).fireTimer = s.fireTimer := by
  unfold manualReload
  split <;> rfl

@[simp]
theorem manualReload_vfx (inp : FrameInput F) (s : Game F) :
    (manualReload inp s).vfx = s.vfx := by
  unfold manualReload
  split <;> rfl

@[simp]
theorem playerDying_gameState (inp : FrameInput F) (s : Game F) :
    (playerDying inp s).gameState = s.gameState := by
  unfold playerDying
  dsimp only
  split <;> rfl

@[simp]
theorem playerDying_settings (inp : FrameInput F) (s : Game F) :
    (playerDying inp s).settings = s.settings := by
  unfold playerDying
  dsimp only
  split <;> rfl

@[simp]
theorem playerDying_enemySpawnPoints (inp : FrameInput F) (s : Game F) :
    (playerDying inp s).enemySpawnPoints = s.enemySpawnPoints := by
  unfold playerDying
  dsimp only
  split <;> rfl

@[simp]
theorem playerDying_worldBlocks (inp : FrameInput F) (s : Game F) :
    (playerDying inp s).worldBlocks = s.worldBlocks := by
  unfold playerDying
  dsimp only
  split <;> rfl

@[simp]
theorem playerDying_enemyRespawnTimer (inp : FrameInput F) (s : Game F) :
    (playerDying inp s).enemyRespawnTimer = s.enemyRespawnTimer := by
  unfold playerDying
  dsimp only
  split <;> rfl

@[simp]
theorem playerDying_dynamicsWorld (inp : FrameInput F) (s : Game F) :
    (playerDying inp s).dynamicsWorld = s.dynamicsWorld := by
  unfold playerDying
  dsimp only
  split <;> rfl

@[simp]
theorem playerDying_inDialogue (inp : FrameInput F) (s : Game F) :
    (playerDying inp s).inDialogue = s.inDialogue := by
  unfold playerDying
  dsimp only
  split <;> rfl

@[simp]
theorem playerDying_dialoguePartner (inp : FrameInput F) (s : Game F) :
    (playerDying inp s).dialoguePartner = s.dialoguePartner := by
  unfold playerDying
  dsimp only
  split <;> rfl

@[simp]
theorem playerDying_enemies (inp : FrameInput F) (s : Game F) :
    (playerDying inp s).enemies = s.enemies := by
  unfold playerDying
  dsimp only
  split <;> rfl

@[simp]
theorem playerDying_fireTimer (inp : FrameInput F) (s : Game F) :
    (playerDying inp s).fireTimer = s.fireTimer := by
  unfold playerDying
  dsimp only
  split <;> rfl

@[simp]
theorem playerDying_reloadTimer (inp : FrameInput F) (s : Game F) :
    (playerDying inp s).reloadTimer = s.reloadTimer := by
  unfold playerDying
  dsimp only
  split <;> rfl

@[simp]
theorem playerDying_vfx (inp : FrameInput F) (s : Game F) :
    (playerDying inp s).vfx = s.vfx := by
  unfold playerDying
  dsimp only
  split <;> rfl

@[simp]
theorem enemyUpdate_gameState (m : LibM F) (inp : FrameInput F) (pos : Vector3 F) (s : Game F) :
    ((enemyUpdate m inp pos s).1).gameState = s.gameState := rfl

@[simp]
theorem enemyUpdate_settings (m : LibM F) (inp : FrameInput F) (pos : Vector3 F) (s : Game F) :
    ((enemyUpdate m inp pos s).1).settings = s.settings := rfl

@[simp]
theorem enemyUpdate_currentAmmo (m : LibM F) (inp : FrameInput F) (pos : Vector3 F) (s : Game F) :
    ((enemyUpdate m inp pos s).1).currentAmmo = s.currentAmmo := rfl

@[simp]
theorem enemyUpdate_fireTimer (m : LibM F) (inp : FrameInput F) (pos : Vector3 F) (s : Game F) :
    ((enemyUpdate m inp pos s).1).fireTimer = s.fireTimer := rfl

@[simp]
theorem enemyUpdate_reloadTimer (m : LibM F) (inp : FrameInput F) (pos : Vector3 F) (s : Game F) :
    ((enemyUpdate m inp pos s).1).reloadTimer = s.reloadTimer := rfl

@[simp]
theorem enemyUpdate_inDialogue (m : LibM F) (inp : FrameInput F) (pos : Vector3 F) (s : Game F) :
    ((enemyUpdate m inp pos s).1).inDialogue = s.inDialogue := rfl

@[simp]
theorem enemyUpdate_dialoguePartner (m : LibM F) (inp : FrameInput F) (pos : Vector3 F) (s : Game F) :
    ((enemyUpdate m inp pos s).1).dialoguePartner = s.dialoguePartner := rfl

@[simp]
theorem enemyUpdate_enemySpawnPoints (m : LibM F) (inp : FrameInput F) (pos : Vector3 F) (s : Game F) :
    ((enemyUpdate m inp pos s).1).enemySpawnPoints = s.enemySpawnPoints := rfl

@[simp]
theorem enemyUpdate_worldBlocks (m : LibM F) (inp : FrameInput F) (pos : Vector3 F) (s : Game F) :
    ((enemyUpdate m inp pos s).1).worldBlocks = s.worldBlocks := rfl

@[simp]
theorem enemyUpdate_isAiming (m : LibM F) (inp : FrameInput F) (pos : Vector3 F) (s : Game F) :
    ((enemyUpdate m inp pos s).1).isAiming = s.isAiming := rfl

@[simp]
theorem enemyUpdate_enemyRespawnTimer (m : LibM F) (inp : FrameInput F) (pos : Vector3 F) (s : Game F) :
    ((enemyUpdate m inp pos s).1).enemyRespawnTimer = s.enemyRespawnTimer := rfl

@[simp]
theorem enemyUpdate_playerDeathTimer (m : LibM F) (inp : FrameInput F) (pos : Vector3 F) (s : Game F) :
    ((enemyUpdate m inp pos s).1).playerDeathTimer = s.playerDeathTimer := rfl

@[simp]
theorem enemyUpdate_vfx (m : LibM F) (inp : FrameInput F) (pos : Vector3 F) (s : Game F) :
    ((enemyUpdate m inp pos s).1).vfx = s.vfx := rfl

@[simp]
theorem enemyUpdate_dynamicsWorld (m : LibM F) (inp : FrameInput F) (pos : Vector3 F) (s : Game F) :
    ((enemyUpdate m inp pos s).1).dynamicsWorld = s.dynamicsWorld := rfl

@[simp]
theorem playerDeath_gameState (s : Game F) :
    (playerDeath s).gameState = s.gameState := by
  unfold playerDeath
  split <;> rfl

@[simp]
theorem playerDeath_settings (s : Game F) :
    (playerDeath s).settings = s.settings := by
  unfold playerDeath
  split <;> rfl

@[simp]
theorem playerDeath_currentAmmo (s : Game F) :
    (playerDeath s).currentAmmo = s.currentAmmo := by
  unfold playerDeath
  split <;> rfl

@[simp]
theorem playerDeath_fireTimer (s : Game F) :
    (playerDeath s).fireTimer = s.fireTimer := by
  unfold playerDeath
  split <;> rfl

@[simp]
theorem playerDeath_reloadTimer (s : Game F) :
    (playerDeath s).reloadTimer = s.reloadTimer := by
  unfold playerDeath
  split <;> rfl

@[simp]
theorem playerDeath_inDialogue (s : Game F) :
    (playerDeath s).inDialogue = s.inDialogue := by
  unfold playerDeath
  split <;> rfl

@[simp]
theorem playerDeath_dialoguePartner (s : Game F) :
    (playerDeath s).dialoguePartner = s.dialoguePartner := by
  unfold playerDeath
  split <;> rfl

@[simp]
theorem playerDeath_enemySpawnPoints (s : Game F) :
    (playerDeath s).enemySpawnPoints = s.enemySpawnPoints := by
  unfold playerDeath
  split <;> rfl

@[simp]
theorem playerDeath_worldBlocks (s : Game F) :
    (playerDeath s).worldBlocks = s.worldBlocks := by
  unfold playerDeath
  split <;> rfl

@[simp]
theorem playerDeath_isAiming (s : Game F) :
    (playerDeath s).isAiming = s.isAiming := by
  unfold playerDeath
  split <;> rfl

@[simp]
theorem playerDeath_enemyRespawnTimer (s : Game F) :
    (playerDeath s).enemyRespawnTimer = s.enemyRespawnTimer := by
  unfold playerDeath
  split <;> rfl

@[simp]
theorem playerDeath_enemies (s : Game F) :
    (playerDeath s).enemies = s.enemies := by
  unfold playerDeath
  split <;> rfl

@[simp]
theorem playerDeath_vfx (s : Game F) :
    (playerDeath s).vfx = s.vfx := by
  unfold playerDeath
  split <;> rfl

@[simp]
theorem playerDeath_dynamicsWorld (s : Game F) :
    (playerDeath s).dynamicsWorld = s.dynamicsWorld := by
  unfold playerDeath
  split <;> rfl

@[simp]
theorem stepSimulation_gameState (inp : FrameInput F) (s : Game F) :
    (stepSimulation inp s).gameState = s.gameState := rfl

@[simp]
theorem stepSimulation_settings (inp : FrameInput F) (s : Game F) :
    (stepSimulation inp s).settings = s.settings := rfl

@[simp]
theorem stepSimulation_currentAmmo (inp : FrameInput F) (s : Game F) :
    (stepSimulation inp s).currentAmmo = s.currentAmmo := rfl

@[simp]
theorem stepSimulation_fireTimer (inp : FrameInput F) (s : Game F) :
    (stepSimulation inp s).fireTimer = s.fireTimer := rfl

@[simp]
theorem stepSimulation_reloadTimer (inp : FrameInput F) (s : Game F) :
    (stepSimulation inp s).reloadTimer = s.reloadTimer := rfl

@[simp]
theorem stepSimulation_inDialogue (inp : FrameInput F) (s : Game F) :
    (stepSimulation inp s).inDialogue = s.inDialogue := rfl

@[simp]
theorem stepSimulation_dialoguePartner (inp : FrameInput F) (s : Game F) :
    (stepSimulation inp s).dialoguePartner = s.dialoguePartner := rfl

@[simp]
theorem stepSimulation_enemySpawnPoints (inp : FrameInput F) (s : Game F) :
    (stepSimulation inp s).enemySpawnPoints = s.enemySpawnPoints := rfl

@[simp]
theorem stepSimulation_worldBlocks (inp : FrameInput F) (s : Game F) :
    (stepSimulation inp s).worldBlocks = s.worldBlocks := rfl

@[simp]
theorem stepSimulation_isAiming (inp : FrameInput F) (s : Game F) :
    (stepSimulation inp s).isAiming = s.isAiming := rfl

@[simp]
theorem stepSimulation_enemyRespawnTimer (inp : FrameInput F) (s : Game F) :
    (stepSimulation inp s).enemyRespawnTimer = s.enemyRespawnTimer := rfl

@[simp]
theorem stepSimulation_playerDeathTimer (inp : FrameInput F) (s : Game F) :
    (stepSimulation inp s).playerDeathTimer = s.playerDeathTimer := rfl

@[simp]
theorem stepSimulation_vfx (inp : FrameInput F) (s : Game F) :
    (stepSimulation inp s).vfx = s.vfx := rfl

@[simp]
theorem stepSimulation_dynamicsWorld (inp : FrameInput F) (s : Game F) :
    (stepSimulation inp s).dynamicsWorld = s.dynamicsWorld := rfl

@[simp]
theorem enemyRespawn_gameState (inp : FrameInput F) (d : Int) (s : Game F) :
    (enemyRespawn inp d s).gameState = s.gameState := by
  unfold enemyRespawn
  dsimp only
  repeat' split
  all_goals rfl

@[simp]
theorem enemyRespawn_settings (inp : FrameInput F) (d : Int) (s : Game F) :
    (enemyRespawn inp d s).settings = s.settings := by
  unfold enemyRespawn
  dsimp only
  repeat' split
  all_goals rfl

@[simp]
theorem enemyRespawn_currentAmmo (inp : FrameInput F) (d : Int) (s : Game F) :
    (enemyRespawn inp d s).currentAmmo = s.currentAmmo := by
  unfold enemyRespawn
  dsimp only
  repeat' split
  all_goals rfl

@[simp]
theorem enemyRespawn_fireTimer (inp : FrameInput F) (d : Int) (s : Game F) :
    (enemyRespawn inp d s).fireTimer = s.fireTimer := by
  unfold enemyRespawn
  dsimp only
  repeat' split
  all_goals rfl

@[simp]
theorem enemyRespawn_reloadTimer (inp : FrameInput F) (d : Int) (s : Game F) :
    (enemyRespawn inp d s).reloadTimer = s.reloadTimer := by
  unfold enemyRespawn
  dsimp only
  repeat' split
  all_goals rfl

@[simp]
theorem enemyRespawn_inDialogue (inp : FrameInput F) (d : Int) (s : Game F) :
    (enemyRespawn inp d s).inDialogue = s.inDialogue := by
  unfold enemyRespawn
  dsimp only
  repeat' split
  all_goals rfl

@[simp]
theorem enemyRespawn_dialoguePartner (inp : FrameInput F) (d : Int) (s : Game F) :
    (enemyRespawn inp d s).dialoguePartner = s.dialoguePartner := by
  unfold enemyRespawn
  dsimp only
  repeat' split
  all_goals rfl

@[simp]
theorem enemyRespawn_enemySpawnPoints (inp : FrameInput F) (d : Int) (s : Game F) :
    (enemyRespawn inp d s).enemySpawnPoints = s.enemySpawnPoints := by
  unfold enemyRespawn
  dsimp only
  repeat' split
  all_goals rfl

@[simp]
theorem enemyRespawn_worldBlocks (inp : FrameInput F) (d : Int) (s : Game F) :
    (enemyRespawn inp d s).worldBlocks = s.worldBlocks := by
  unfold enemyRespawn
  dsimp only
  repeat' split
  all_goals rfl

@[simp]
theorem enemyRespawn_isAiming (inp : FrameInput F) (d : Int) (s : Game F) :
    (enemyRespawn inp d s).isAiming = s.isAiming := by
  unfold enemyRespawn
  dsimp only
  repeat' split
  all_goals rfl

@[simp]
theorem enemyRespawn_playerDeathTimer (inp : FrameInput F) (d : Int) (s : Game F) :
    (enemyRespawn inp d s).playerDeathTimer = s.playerDeathTimer := by
  unfold enemyRespawn
  dsimp only
  repeat' split
  all_goals rfl

@[simp]
theorem enemyRespawn_player (inp : FrameInput F) (d : Int) (s : Game F) :
    (enemyRespawn inp d s).player = s.player := by
  unfold enemyRespawn
  dsimp only
  repeat' split
  all_goals rfl

@[simp]
theorem enemyRespawn_vfx (inp : FrameInput F) (d : Int) (s : Game F) :
    (enemyRespawn inp d s).vfx = s.vfx := by
  unfold enemyRespawn
  dsimp only
  repeat' split
  all_goals rfl

@[simp]
theorem reapDeadEnemies_gameState (s : Game F) :
    (reapDeadEnemies s).gameState = s.gameState := rfl

@[simp]
theorem reapDeadEnemies_settings (s : Game F) :
    (reapDeadEnemies s).settings = s.settings := rfl

@[simp]
theorem reapDeadEnemies_currentAmmo (s : Game F) :
    (reapDeadEnemies s).currentAmmo = s.currentAmmo := rfl

@[simp]
theorem reapDeadEnemies_fireTimer (s : Game F) :
    (reapDeadEnemies s).fireTimer = s.fireTimer := rfl

@[simp]
theorem reapDeadEnemies_reloadTimer (s : Game F) :
    (reapDeadEnemies s).reloadTimer = s.reloadTimer := rfl

@[simp]
theorem reapDeadEnemies_inDialogue (s : Game F) :
    (reapDeadEnemies s).inDialogue = s.inDialogue := rfl

@[simp]
theorem reapDeadEnemies_dialoguePartner (s : Game F) :
    (reapDeadEnemies s).dialoguePartner = s.dialoguePartner := rfl

@[simp]
theorem reapDeadEnemies_enemySpawnPoints (s : Game F) :
    (reapDeadEnemies s).enemySpawnPoints = s.enemySpawnPoints := rfl

@[simp]
theorem reapDeadEnemies_worldBlocks (s : Game F) :
    (reapDeadEnemies s).worldBlocks = s.worldBlocks := rfl

@[simp]
theorem reapDeadEnemies_isAiming (s : Game F) :
    (reapDeadEnemies s).isAiming = s.isAiming := rfl

@[simp]
theorem reapDeadEnemies_enemyRespawnTimer (s : Game F) :
    (reapDeadEnemies s).enemyRespawnTimer = s.enemyRespawnTimer := rfl

@[simp]
theorem reapDeadEnemies_playerDeathTimer (s : Game F) :
    (reapDeadEnemies s).playerDeathTimer = s.playerDeathTimer := rfl

@[simp]
theorem reapDeadEnemies_player (s : Game F) :
    (reapDeadEnemies s).player = s.player := rfl

@[simp]
theorem reapDeadEnemies_vfx (s : Game F) :
    (reapDeadEnemies s).vfx = s.vfx := rfl

@[simp]
theorem cameraRig_gameState (m : LibM F) (inp : FrameInput F) (pos : Vector3 F) (s : Game F) :
    (cameraRig m inp pos s).gameState = s.gameState := rfl

@[simp]
theorem cameraRig_settings (m : LibM F) (inp : FrameInput F) (pos : Vector3 F) (s : Game F) :
    (cameraRig m inp pos s).settings = s.settings := rfl

@[simp]
theorem cameraRig_currentAmmo (m : LibM F) (inp : FrameInput F) (pos : Vector3 F) (s : Game F) :
    (cameraRig m inp pos s).currentAmmo = s.currentAmmo := rfl

@[simp]
theorem cameraRig_fireTimer (m : LibM F) (inp : FrameInput F) (pos : Vector3 F) (s : Game F) :
    (cameraRig m inp pos s).fireTimer = s.fireTimer := rfl

@[simp]
theorem cameraRig_reloadTimer (m : LibM F) (inp : FrameInput F) (pos : Vector3 F) (s : Game F) :
    (cameraRig m inp pos s).reloadTimer = s.reloadTimer := rfl

@[simp]
theorem cameraRig_inDialogue (m : LibM F) (inp : FrameInput F) (pos : Vector3 F) (s : Game F) :
    (cameraRig m inp pos s).inDialogue = s.inDialogue := rfl

@[simp]
theorem cameraRig_dialoguePartner (m : LibM F) (inp : FrameInput F) (pos : Vector3 F) (s : Game F) :
    (cameraRig m inp pos s).dialoguePartner = s.dialoguePartner := rfl

@[simp]
theorem cameraRig_enemySpawnPoints (m : LibM F) (inp : FrameInput F) (pos : Vector3 F) (s : Game F) :
    (cameraRig m inp pos s).enemySpawnPoints = s.enemySpawnPoints := rfl

@[simp]
theorem cameraRig_worldBlocks (m : LibM F) (inp : FrameInput F) (pos : Vector3 F) (s : Game F) :
    (cameraRig m inp pos s).worldBlocks = s.worldBlocks := rfl

@[simp]
theorem cameraRig_isAiming (m : LibM F) (inp : FrameInput F) (pos : Vector3 F) (s : Game F) :
    (cameraRig m inp pos s).isAiming = s.isAiming := rfl

@[simp]
theorem cameraRig_enemyRespawnTimer (m : LibM F) (inp : FrameInput F) (pos : Vector3 F) (s : Game F) :
    (cameraRig m inp pos s).enemyRespawnTimer = s.enemyRespawnTimer := rfl

@[simp]
theorem cameraRig_playerDeathTimer (m : LibM F) (inp : FrameInput F) (pos : Vector3 F) (s : Game F) :
    (cameraRig m inp pos s).playerDeathTimer = s.playerDeathTimer := rfl

@[simp]
theorem cameraRig_player (m : LibM F) (inp : FrameInput F) (pos : Vector3 F) (s : Game F) :
    (cameraRig m inp pos s).player = s.player := rfl

@[simp]
theorem cameraRig_enemies (m : LibM F) (inp : FrameInput F) (pos : Vector3 F) (s : Game F) :
    (cameraRig m inp pos s).enemies = s.enemies := rfl

@[simp]
theorem cameraRig_vfx (m : LibM F) (inp : FrameInput F) (pos : Vector3 F) (s : Game F) :
    (cameraRig m inp pos s).vfx = s.vfx := rfl

@[simp]
theorem cameraRig_dynamicsWorld (m : LibM F) (inp : FrameInput F) (pos : Vector3 F) (s : Game F) :
    (cameraRig m inp pos s).dynamicsWorld = s.dynamicsWorld := rfl

/-! ### The sections of the gameplay frame -/

@[simp]
theorem playerUpdate_gameState (m : LibM F) (inp : FrameInput F) (pos : Vector3 F) (s : Game F) :
    (playerUpdate m inp pos s).gameState = s.gameState := by
  unfold playerUpdate atFireGate
  repeat' split
  all_goals simp

@[simp]
theorem playerUpdate_inDialogue (m : LibM F) (inp : FrameInput F) (pos : Vector3 F) (s : Game F) :
    (playerUpdate m inp pos s).inDialogue = s.inDialogue := by
  unfold playerUpdate atFireGate
  repeat' split
  all_goals simp

@[simp]
theorem playerUpdate_dialoguePartner (m : LibM F) (inp : FrameInput F) (pos : Vector3 F)
    (s : Game F) : (playerUpdate m inp pos s).dialoguePartner = s.dialoguePartner := by
  unfold playerUpdate atFireGate
  repeat' split
  all_goals simp

@[simp]
theorem beforePlayerUpdate_gameState (m : LibM F) (inp : FrameInput F) (pos : Vector3 F)
    (s : Game F) : (beforePlayerUpdate m inp pos s).gameState = s.gameState := by
  simp [beforePlayerUpdate]

@[simp]
theorem gameplayState_gameState (m : LibM F) (inp : FrameInput F) (pos : Vector3 F) (s : Game F) :
    (gameplayState m inp pos s).gameState = s.gameState := by
  simp [gameplayState, gameplayCommands]

/-- A frame in the gameplay state: the gameplay update, the decay of the
effects, the camera rig. -/
theorem mainLoopBody_gameplay (m : LibM F) (inp : FrameInput F) (s : Game F)
    (hg : (frameStart inp s).gameState = STATE_GAMEPLAY) :
    mainLoopBody m inp s =
      cameraRig m inp (frameStart inp s).player.body.origin
        { gameplayState m inp (frameStart inp s).player.body.origin (frameStart inp s) with
          vfx := vfxDecay inp.dt
            (gameplayState m inp (frameStart inp s).player.body.origin (frameStart inp s)).vfx } := by
  unfold mainLoopBody
  simp [hg]

/-- The search of the dialogue loop succeeds exactly when some enemy that is
not dying is nearer than 4. -/
theorem findDialoguePartner_isSome_iff (pos : Vector3 F) (enemies : List (Enemy F)) :
    (∃ e, findDialoguePartner pos enemies = some e) ↔
      ∃ e ∈ enemies, e.state ≠ STATE_DYING ∧ Vector3DistanceSqr pos (GetEnemyPosition e) < 16 := by
  induction enemies with
  | nil => simp [findDialoguePartner]
  | cons a rest ih =>
    unfold findDialoguePartner
    by_cases hd : a.state = STATE_DYING
    · rw [if_pos hd, ih]
      simp [hd]
    · rw [if_neg hd]
      by_cases hn : Vector3DistanceSqr pos (GetEnemyPosition a) < 16
      · rw [if_pos hn]
        simp [hd, hn]
      · rw [if_neg hn, ih]
        simp [hn]

/-- The dialogue state at the end of a gameplay frame is the one the toggle leaves. -/
theorem mainLoopBody_dialogue (m : LibM F) (inp : FrameInput F) (s : Game F)
    (hg : (frameStart inp s).gameState = STATE_GAMEPLAY) :
    (mainLoopBody m inp s).inDialogue =
        (handleDialogue m inp s.player.body.origin
          (groundCheck inp (playerCameraControl m inp (frameStart inp s)))).inDialogue ∧
      (mainLoopBody m inp s).dialoguePartner =
        (handleDialogue m inp s.player.body.origin
          (groundCheck inp (playerCameraControl m inp (frameStart inp s)))).dialoguePartner := by
  rw [mainLoopBody_gameplay m inp s hg]
  simp [gameplayState, gameplayCommands, beforePlayerUpdate]

/-- The player state that the dialogue toggle sees is the one the ground check leaves. -/
theorem toggle_player_state (m : LibM F) (inp : FrameInput F) (s : Game F) :
    (groundCheck inp (playerCameraControl m inp (frameStart inp s))).player.state =
      (groundCheck inp s).player.state := by
  unfold groundCheck
  dsimp only
  split <;> simp


/-- A melee tick never raises the health when the frame time is not negative. -/
theorem meleeDamage_le (dt : F) (hdt : 0 ≤ dt) (health : Int) : meleeDamage dt health ≤ health := by
  unfold meleeDamage floatToInt
  have h : ((health : F) - 20 * dt) ≤ (health : F) := by linarith
  split
  · exact Int.cast_le.mp (le_trans (Int.floor_le _) h)
  · exact Int.ceil_le.mpr h

/-- The wander behavior touches neither the player's health nor the counter of
dying enemies. -/
theorem enemyWander_acc (m : LibM F) (inp : FrameInput F) (enemySpeed animationTimer : F)
    (acc : EnemyLoop) (enemy : Enemy F) :
    (enemyWander m inp enemySpeed animationTimer acc enemy).2.playerHealth = acc.playerHealth ∧
      (enemyWander m inp enemySpeed animationTimer acc enemy).2.deadEnemies = acc.deadEnemies := by
  unfold enemyWander
  dsimp only
  split_ifs <;> exact ⟨rfl, rfl⟩

/-- The attack behavior leaves the counter of dying enemies alone, and changes
the player's health by a melee tick or not at all. -/
theorem enemyAttack_acc (m : LibM F) (inp : FrameInput F) (settings : GameSettings F)
    (playerPos : Vector3 F) (enemySpeed animationTimer : F) (acc : EnemyLoop) (enemy : Enemy F) :
    (enemyAttack m inp settings playerPos enemySpeed animationTimer acc enemy).2.deadEnemies =
        acc.deadEnemies ∧
      (enemyAttack m inp settings playerPos enemySpeed animationTimer acc enemy).2.playerHealth =
        if Vector3Length m (Vector3Subtract playerPos (GetEnemyPosition enemy)) < 3 / 2 ∧
            settings.playerInfiniteHealth = false then
          meleeDamage inp.dt acc.playerHealth
        else acc.playerHealth := by
  unfold enemyAttack
  dsimp only
  split_ifs <;> simp_all

/-- The counter of dying enemies and the player's health after one pass of the
enemy loop. -/
theorem updateEnemy_acc (m : LibM F) (inp : FrameInput F)
    (settings : GameSettings F) (playerState : CharacterState) (playerPos : Vector3 F)
    (inDialogue : Bool) (dialoguePartner : Option Nat) (acc : EnemyLoop) (enemy : Enemy F) :
    (updateEnemy m inp settings playerState playerPos inDialogue dialoguePartner acc
        enemy).2.deadEnemies =
        acc.deadEnemies + (if enemy.state = STATE_DYING then 1 else 0) ∧
      ((updateEnemy m inp settings playerState playerPos inDialogue dialoguePartner acc
          enemy).2.playerHealth = acc.playerHealth ∨
        (settings.enemiesAttack = true ∧ settings.playerInfiniteHealth = false ∧
          settings.enemiesFrozen = false ∧ playerState ≠ STATE_DYING ∧
          enemy.state ≠ STATE_DYING ∧ 0 < enemy.health ∧
          Vector3Length m (Vector3Subtract playerPos (GetEnemyPosition enemy)) < 3 / 2 ∧
          (updateEnemy m inp settings playerState playerPos inDialogue dialoguePartner acc
            enemy).2.playerHealth = meleeDamage inp.dt acc.playerHealth)) := by
  unfold updateEnemy
  dsimp only
  by_cases h1 : enemy.state = STATE_DYING
  · rw [if_pos h1]; simp [h1]
  rw [if_neg h1]
  by_cases h2 : enemy.health ≤ 0
  · rw [if_pos h2]; simp [h1]
  rw [if_neg h2]
  by_cases h3 : inDialogue = true ∧ dialoguePartner = some enemy.body.handle
  · rw [if_pos h3]; simp [h1]
  rw [if_neg h3]
  by_cases h4 : settings.enemiesFrozen = false
  · rw [if_pos h4]
    by_cases h5 : settings.enemiesAttack = true ∧ playerState ≠ STATE_DYING
    · rw [if_pos h5]
      obtain ⟨a1, a2⟩ := enemyAttack_acc m inp settings playerPos
        (if settings.enemiesSuperSpeed = true then 8 else 4) (enemy.animationTimer + inp.dt)
        acc enemy
      rw [a1, a2]
      refine ⟨by simp [h1], ?_⟩
      by_cases h6 : Vector3Length m (Vector3Subtract playerPos (GetEnemyPosition enemy)) < 3 / 2 ∧
          settings.playerInfiniteHealth = false
      · rw [if_pos h6]
        exact Or.inr ⟨h5.1, h6.2, h4, h5.2, h1, not_le.mp h2, h6.1, rfl⟩
      · rw [if_neg h6]
        exact Or.inl rfl
    · rw [if_neg h5]
      obtain ⟨a1, a2⟩ := enemyWander_acc m inp
        (if settings.enemiesSuperSpeed = true then 8 else 4) (enemy.animationTimer + inp.dt)
        acc enemy
      rw [a1, a2]
      simp [h1]
  · rw [if_neg h4]; simp [h1]

/-- The counter of the enemy loop grows by the number of dying enemies. -/
theorem enemyLoop_deadEnemies (m : LibM F) (inp : FrameInput F)
    (settings : GameSettings F) (playerState : CharacterState) (playerPos : Vector3 F)
    (inDialogue : Bool) (dialoguePartner : Option Nat) (enemies : List (Enemy F)) :
    ∀ acc : EnemyLoop,
      (enemyLoop m inp settings playerState playerPos inDialogue dialoguePartner enemies
        acc).2.deadEnemies =
      acc.deadEnemies + ((enemies.filter fun e => e.state = STATE_DYING).length : Int) := by
  induction enemies with
  | nil => intro acc; simp [enemyLoop]
  | cons e rest ih =>
    intro acc
    unfold enemyLoop
    dsimp only
    rw [ih, (updateEnemy_acc m inp settings playerState playerPos inDialogue dialoguePartner
      acc e).1, List.filter_cons]
    by_cases h : e.state = STATE_DYING
    · simp [h]; ring
    · simp [h]

/-- The enemy loop never raises the player's health when the frame time is not
negative. -/
theorem enemyLoop_playerHealth_le (m : LibM F) (inp : FrameInput F) (hdt : 0 ≤ inp.dt)
    (settings : GameSettings F) (playerState : CharacterState) (playerPos : Vector3 F)
    (inDialogue : Bool) (dialoguePartner : Option Nat) (enemies : List (Enemy F)) :
    ∀ acc : EnemyLoop,
      (enemyLoop m inp settings playerState playerPos inDialogue dialoguePartner enemies
        acc).2.playerHealth ≤ acc.playerHealth := by
  induction enemies with
  | nil => intro acc; exact le_refl _
  | cons e rest ih =>
    intro acc
    unfold enemyLoop
    dsimp only
    refine le_trans (ih _) ?_
    rcases (updateEnemy_acc m inp settings playerState playerPos inDialogue dialoguePartner
      acc e).2 with h | h
    · exact le_of_eq h
    · rw [h.2.2.2.2.2.2.2]
      exact meleeDamage_le inp.dt hdt _

/-- The enemy loop leaves the player's health alone when no melee tick applies. -/
theorem enemyLoop_playerHealth_eq (m : LibM F) (inp : FrameInput F)
    (settings : GameSettings F) (playerState : CharacterState) (playerPos : Vector3 F)
    (inDialogue : Bool) (dialoguePartner : Option Nat) (enemies : List (Enemy F))
    (h : settings.enemiesAttack = false ∨ settings.playerInfiniteHealth = true ∨
      settings.enemiesFrozen = true ∨
      ∀ e ∈ enemies, ¬Vector3Length m (Vector3Subtract playerPos (GetEnemyPosition e)) < 3 / 2) :
    ∀ acc : EnemyLoop,
      (enemyLoop m inp settings playerState playerPos inDialogue dialoguePartner enemies
        acc).2.playerHealth = acc.playerHealth := by
  induction enemies with
  | nil => intro acc; rfl
  | cons e rest ih =>
    intro acc
    unfold enemyLoop
    dsimp only
    have hrest : settings.enemiesAttack = false ∨ settings.playerInfiniteHealth = true ∨
        settings.enemiesFrozen = true ∨ ∀ e ∈ rest,
          ¬Vector3Length m (Vector3Subtract playerPos (GetEnemyPosition e)) < 3 / 2 := by
      rcases h with h | h | h | h
      · exact Or.inl h
      · exact Or.inr (Or.inl h)
      · exact Or.inr (Or.inr (Or.inl h))
      · exact Or.inr (Or.inr (Or.inr fun e' he' => h e' (List.mem_cons_of_mem _ he')))
    rw [ih hrest]
    rcases (updateEnemy_acc m inp settings playerState playerPos inDialogue dialoguePartner
      acc e).2 with h' | h'
    · exact h'
    · exfalso
      rcases h with h | h | h | h
      · rw [h'.1] at h; exact Bool.noConfusion h
      · rw [h'.2.1] at h; exact Bool.noConfusion h
      · rw [h'.2.2.1] at h; exact Bool.noConfusion h
      · exact h e (List.mem_cons_self _ _) h'.2.2.2.2.2.2.1

/-- A write through an enemy pointer keeps what the written value keeps. -/
theorem modifyEnemy_map {α : Type} (g : Enemy F → α) (f : Enemy F → Enemy F) (h : Nat)
    (enemies : List (Enemy F)) (hf : ∀ e, g (f e) = g e) :
    (modifyEnemy h f enemies).map g = enemies.map g := by
  unfold modifyEnemy
  rw [List.map_map]
  apply List.map_congr_left
  intro e _
  simp only [Function.comp]
  split
  · exact hf e
  · rfl

/-- The dialogue toggle changes neither the state nor the place of an enemy. -/
theorem handleDialogue_enemies_map {α : Type} (g : Enemy F → α)
    (hg : ∀ e e' : Enemy F, e'.state = e.state → e'.body.origin = e.body.origin → g e' = g e)
    (m : LibM F) (inp : FrameInput F) (pos : Vector3 F) (s : Game F) :
    (handleDialogue m inp pos s).enemies.map g = s.enemies.map g := by
  unfold handleDialogue
  repeat' split
  all_goals first
    | rfl
    | exact modifyEnemy_map g _ _ _ fun e => hg _ _ rfl rfl

/-- The freeze of the dialogue changes neither the state nor the place of an enemy. -/
theorem freezeParticipants_enemies_map {α : Type} (g : Enemy F → α)
    (hg : ∀ e e' : Enemy F, e'.state = e.state → e'.body.origin = e.body.origin → g e' = g e)
    (s : Game F) :
    (freezeParticipants s).enemies.map g = s.enemies.map g := by
  unfold freezeParticipants
  repeat' split
  all_goals first
    | rfl
    | exact modifyEnemy_map g _ _ _ fun e => hg _ _ rfl rfl

/-- A shot changes neither the state nor the place of an enemy. -/
theorem fireWeapon_enemies_map {α : Type} (g : Enemy F → α)
    (hg : ∀ e e' : Enemy F, e'.state = e.state → e'.body.origin = e.body.origin → g e' = g e)
    (m : LibM F) (inp : FrameInput F) (pos : Vector3 F) (s : Game F) :
    (fireWeapon m inp pos s).enemies.map g = s.enemies.map g := by
  unfold fireWeapon
  dsimp only
  repeat' split
  all_goals first
    | rfl
    | exact modifyEnemy_map g _ _ _ fun e => by
        unfold bulletDamage
        split
        · exact hg _ _ rfl rfl
        · rfl

/-- The frame up to the player update changes neither the state nor the place
of an enemy. -/
theorem beforePlayerUpdate_enemies_map {α : Type} (g : Enemy F → α)
    (hg : ∀ e e' : Enemy F, e'.state = e.state → e'.body.origin = e.body.origin → g e' = g e)
    (m : LibM F) (inp : FrameInput F) (pos : Vector3 F) (s : Game F) :
    (beforePlayerUpdate m inp pos s).enemies.map g = s.enemies.map g := by
  unfold beforePlayerUpdate
  dsimp only
  rw [freezeParticipants_enemies_map g hg, handleDialogue_enemies_map g hg]
  simp

/-- The player update changes neither the state nor the place of an enemy. -/
theorem playerUpdate_enemies_map {α : Type} (g : Enemy F → α)
    (hg : ∀ e e' : Enemy F, e'.state = e.state → e'.body.origin = e.body.origin → g e' = g e)
    (m : LibM F) (inp : FrameInput F) (pos : Vector3 F) (s : Game F) :
    (playerUpdate m inp pos s).enemies.map g = s.enemies.map g := by
  unfold playerUpdate atFireGate
  repeat' split
  · rw [manualReload_enemies, fireWeapon_enemies_map g hg]
    simp
  · simp
  · rfl

/-- The dialogue toggle changes only the facing of the player. -/
theorem handleDialogue_player (m : LibM F) (inp : FrameInput F) (pos : Vector3 F) (s : Game F) :
    (handleDialogue m inp pos s).player.state = s.player.state ∧
      (handleDialogue m inp pos s).player.health = s.player.health ∧
      (handleDialogue m inp pos s).player.maxHealth = s.player.maxHealth ∧
      (handleDialogue m inp pos s).player.body = s.player.body := by
  unfold handleDialogue
  repeat' split
  all_goals exact ⟨rfl, rfl, rfl, rfl⟩

/-- The freeze of the dialogue changes neither the state, the health nor the
place of the player. -/
theorem freezeParticipants_player (s : Game F) :
    (freezeParticipants s).player.state = s.player.state ∧
      (freezeParticipants s).player.health = s.player.health ∧
      (freezeParticipants s).player.maxHealth = s.player.maxHealth ∧
      (freezeParticipants s).player.body.origin = s.player.body.origin := by
  unfold freezeParticipants
  repeat' split
  all_goals exact ⟨rfl, rfl, rfl, rfl⟩

/-- The ground check changes only the state of the player. -/
theorem groundCheck_player (inp : FrameInput F) (s : Game F) :
    (groundCheck inp s).player.state =
        (if inp.groundRay = true then STATE_ON_GROUND else s.player.state) ∧
      (groundCheck inp s).player.health = s.player.health ∧
      (groundCheck inp s).player.maxHealth = s.player.maxHealth ∧
      (groundCheck inp s).player.body = s.player.body := by
  unfold groundCheck
  dsimp only
  split <;> exact ⟨rfl, rfl, rfl, rfl⟩

/-- The player in the state in which a frame reaches the test of line 525. -/
theorem atPlayerUpdate_player (m : LibM F) (inp : FrameInput F) (s : Game F) :
    (atPlayerUpdate m inp s).player.state =
        (if inp.groundRay = true then STATE_ON_GROUND else s.player.state) ∧
      (atPlayerUpdate m inp s).player.health = s.player.health ∧
      (atPlayerUpdate m inp s).player.maxHealth = s.player.maxHealth ∧
      (atPlayerUpdate m inp s).player.body.origin = s.player.body.origin := by
  unfold atPlayerUpdate beforePlayerUpdate
  dsimp only
  obtain ⟨f1, f2, f3, f4⟩ := freezeParticipants_player
    (handleDialogue m inp (frameStart inp s).player.body.origin
      (groundCheck inp (playerCameraControl m inp (frameStart inp s))))
  obtain ⟨h1, h2, h3, h4⟩ := handleDialogue_player m inp (frameStart inp s).player.body.origin
    (groundCheck inp (playerCameraControl m inp (frameStart inp s)))
  obtain ⟨g1, g2, g3, g4⟩ := groundCheck_player inp (playerCameraControl m inp (frameStart inp s))
  rw [f1, f2, f3, f4, h1, h2, h3, h4, g1, g2, g3, g4]
  simp

/-- The player update of a player who is not dying leaves the player not
dying, with the same health. -/
theorem playerUpdate_alive (m : LibM F) (inp : FrameInput F) (pos : Vector3 F) (s : Game F)
    (h : s.player.state ≠ STATE_DYING) :
    (playerUpdate m inp pos s).player.state ≠ STATE_DYING ∧
      (playerUpdate m inp pos s).player.health = s.player.health ∧
      (playerUpdate m inp pos s).player.maxHealth = s.player.maxHealth := by
  unfold playerUpdate
  split
  · simp only [manualReload_player, fireWeapon_player, atFireGate, tickWeaponTimers_player]
    refine ⟨?_, rfl, rfl⟩
    unfold playerMovement
    dsimp only
    split
    · decide
    · exact h
  · exact ⟨h, rfl, rfl⟩

/-- The player, the death timer and the ammo at the end of a gameplay frame are
those of the state handed to the physics step, but for the body. -/
theorem mainLoopBody_player (m : LibM F) (inp : FrameInput F) (s : Game F)
    (hg : (frameStart inp s).gameState = STATE_GAMEPLAY) :
    (mainLoopBody m inp s).player.state =
        (gameplayCommands m inp (frameStart inp s).player.body.origin
          (frameStart inp s)).1.player.state ∧
      (mainLoopBody m inp s).player.health =
        (gameplayCommands m inp (frameStart inp s).player.body.origin
          (frameStart inp s)).1.player.health ∧
      (mainLoopBody m inp s).player.maxHealth =
        (gameplayCommands m inp (frameStart inp s).player.body.origin
          (frameStart inp s)).1.player.maxHealth ∧
      (mainLoopBody m inp s).playerDeathTimer =
        (gameplayCommands m inp (frameStart inp s).player.body.origin
          (frameStart inp s)).1.playerDeathTimer ∧
      (mainLoopBody m inp s).currentAmmo =
        (gameplayCommands m inp (frameStart inp s).player.body.origin
          (frameStart inp s)).1.currentAmmo := by
  rw [mainLoopBody_gameplay m inp s hg]
  refine ⟨?_, ?_, ?_, ?_, ?_⟩
  all_goals
    simp only [cameraRig_player, cameraRig_playerDeathTimer, cameraRig_currentAmmo, gameplayState,
      reapDeadEnemies_player, reapDeadEnemies_playerDeathTimer, reapDeadEnemies_currentAmmo,
      enemyRespawn_player, enemyRespawn_playerDeathTimer, enemyRespawn_currentAmmo,
      stepSimulation_playerDeathTimer, stepSimulation_currentAmmo]
  all_goals rfl

/-- The state handed to the physics step, by section. -/
theorem gameplayCommands_fst (m : LibM F) (inp : FrameInput F) (s : Game F) :
    (gameplayCommands m inp (frameStart inp s).player.body.origin (frameStart inp s)).1 =
      playerDeath (enemyUpdate m inp (frameStart inp s).player.body.origin
        (playerUpdate m inp (frameStart inp s).player.body.origin (atPlayerUpdate m inp s))).1 :=
  rfl

/-- The state in which a frame reaches the test of line 525 has the death
timer, the settings and the enemies' places of the state the frame starts from. -/
theorem atPlayerUpdate_rest (m : LibM F) (inp : FrameInput F) (s : Game F) :
    (atPlayerUpdate m inp s).playerDeathTimer = s.playerDeathTimer ∧
      (atPlayerUpdate m inp s).settings = s.settings ∧
      (atPlayerUpdate m inp s).enemyRespawnTimer = s.enemyRespawnTimer ∧
      (atPlayerUpdate m inp s).enemySpawnPoints = s.enemySpawnPoints ∧
      (atPlayerUpdate m inp s).enemies.map (fun e => e.body.origin) =
        s.enemies.map (fun e => e.body.origin) ∧
      (atPlayerUpdate m inp s).enemies.map (fun e => e.state) =
        s.enemies.map (fun e => e.state) := by
  unfold atPlayerUpdate
  refine ⟨?_, ?_, ?_, ?_, ?_, ?_⟩
  · simp [beforePlayerUpdate]
  · simp [beforePlayerUpdate]
  · simp [beforePlayerUpdate]
  · simp [beforePlayerUpdate]
  · rw [beforePlayerUpdate_enemies_map _ (fun _ _ _ h => h), frameStart_enemies]
  · rw [beforePlayerUpdate_enemies_map _ (fun _ _ h _ => h), frameStart_enemies]

/-- The index that the respawn draws lies in the list of spawn points. -/
theorem spawn_index_valid {α : Type} (raw : Nat) (xs : List α) (h : xs ≠ []) :
    ∃ p, xs[(GetRandomValue raw 0 ((xs.length : Int) - 1)).toNat]? = some p ∧ p ∈ xs := by
  have hlen : 0 < xs.length := List.length_pos.mpr h
  have hpos : (0 : Int) < (xs.length : Int) := by exact_mod_cast hlen
  have hidx : GetRandomValue raw 0 ((xs.length : Int) - 1) = (raw : Int) % (xs.length : Int) := by
    unfold GetRandomValue
    rw [sub_zero, sub_add_cancel, add_zero]
  have h0 : 0 ≤ (raw : Int) % (xs.length : Int) := Int.emod_nonneg _ (ne_of_gt hpos)
  have h1 : (raw : Int) % (xs.length : Int) < (xs.length : Int) := Int.emod_lt_of_pos _ hpos
  have hlt : ((raw : Int) % (xs.length : Int)).toNat < xs.length := by
    have := (Int.toNat_lt h0).mpr h1
    exact this
  rw [hidx]
  exact ⟨xs[((raw : Int) % (xs.length : Int)).toNat], List.getElem?_eq_getElem hlt,
    List.getElem_mem _⟩

/-- The counter of dying enemies that a gameplay frame hands to the respawn
timer is the number of dying enemies in the state the frame starts from. -/
theorem gameplayCommands_snd (m : LibM F) (inp : FrameInput F) (s : Game F) :
    (gameplayCommands m inp (frameStart inp s).player.body.origin (frameStart inp s)).2 =
      ((s.enemies.filter fun e => e.state = STATE_DYING).length : Int) := by
  have h : (gameplayCommands m inp (frameStart inp s).player.body.origin (frameStart inp s)).2 =
      (enemyUpdate m inp (frameStart inp s).player.body.origin
        (playerUpdate m inp (frameStart inp s).player.body.origin
          (atPlayerUpdate m inp s))).2 := rfl
  rw [h]
  unfold enemyUpdate
  dsimp only
  rw [enemyLoop_deadEnemies]
  dsimp only
  rw [zero_add]
  have hmap := playerUpdate_enemies_map (fun e : Enemy F => e.state) (fun _ _ h _ => h) m inp
    (frameStart inp s).player.body.origin (atPlayerUpdate m inp s)
  rw [(atPlayerUpdate_rest m inp s).2.2.2.2.2] at hmap
  have hcount : ∀ l : List (Enemy F),
      (l.filter fun e => e.state = STATE_DYING).length =
        ((l.map fun e => e.state).filter fun c => c = STATE_DYING).length := by
    intro l
    rw [List.filter_map, List.length_map]
    rfl
  rw [hcount, hcount s.enemies, hmap]

/-- The state after the physics step has the respawn timer and the spawn points
of the state the frame starts from. -/
theorem afterStep_rest (m : LibM F) (inp : FrameInput F) (s : Game F) :
    (stepSimulation inp (gameplayCommands m inp (frameStart inp s).player.body.origin
        (frameStart inp s)).1).enemyRespawnTimer = s.enemyRespawnTimer ∧
      (stepSimulation inp (gameplayCommands m inp (frameStart inp s).player.body.origin
        (frameStart inp s)).1).enemySpawnPoints = s.enemySpawnPoints := by
  rw [gameplayCommands_fst]
  have h1 : ∀ (pos : Vector3 F) (t : Game F),
      (playerUpdate m inp pos t).enemyRespawnTimer = t.enemyRespawnTimer := by
    intro pos t
    unfold playerUpdate atFireGate
    repeat' split
    all_goals simp
  have h2 : ∀ (pos : Vector3 F) (t : Game F),
      (playerUpdate m inp pos t).enemySpawnPoints = t.enemySpawnPoints := by
    intro pos t
    unfold playerUpdate atFireGate
    repeat' split
    all_goals simp
  obtain ⟨_, _, b3, b4, _, _⟩ := atPlayerUpdate_rest m inp s
  simp [h1, h2, b3, b4]

/-! ### C1: the dying player and the ground check -/

/-- C1 (the code's behaviour at the failing input). In a gameplay frame whose
ground ray hits, a player with health at most 0 (so also a player who is
already dying) is put on the ground by the ground check, and the death
transition of line 699 fires again at the end of the frame: the state is dying
and the death countdown is back at 0, the health still at most 0.  The
countdown therefore never passes 3 while the ray hits. -/
theorem dying_player_on_ground_dies_again (m : LibM F) (inp : FrameInput F) (s : Game F)
    (hg : (frameStart inp s).gameState = STATE_GAMEPLAY)
    (hhealth : s.player.health ≤ 0)
    (hground : inp.groundRay = true)
    (hdt : 0 ≤ inp.dt) :
    (groundCheck inp (playerCameraControl m inp (frameStart inp s))).player.state =
        STATE_ON_GROUND ∧
      (mainLoopBody m inp s).player.state = STATE_DYING ∧
      (mainLoopBody m inp s).playerDeathTimer = 0 ∧
      (mainLoopBody m inp s).player.health ≤ 0 := by
  obtain ⟨e1, e2, _, e4, _⟩ := mainLoopBody_player m inp s hg
  rw [e1, e2, e4, gameplayCommands_fst]
  obtain ⟨b1, b2, _, _⟩ := atPlayerUpdate_player m inp s
  rw [if_pos hground] at b1
  have balive : (atPlayerUpdate m inp s).player.state ≠ STATE_DYING := by rw [b1]; decide
  obtain ⟨u1, u2, _⟩ := playerUpdate_alive m inp (frameStart inp s).player.body.origin
    (atPlayerUpdate m inp s) balive
  have hle : (enemyUpdate m inp (frameStart inp s).player.body.origin
      (playerUpdate m inp (frameStart inp s).player.body.origin
        (atPlayerUpdate m inp s))).1.player.health ≤ 0 := by
    unfold enemyUpdate
    dsimp only
    refine le_trans (enemyLoop_playerHealth_le m inp hdt _ _ _ _ _ _ _) ?_
    dsimp only
    rw [u2, b2]
    exact hhealth
  have hst : (enemyUpdate m inp (frameStart inp s).player.body.origin
      (playerUpdate m inp (frameStart inp s).player.body.origin
        (atPlayerUpdate m inp s))).1.player.state ≠ STATE_DYING := u1
  refine ⟨?_, ?_, ?_, ?_⟩
  · rw [(groundCheck_player inp _).1, if_pos hground]
  · unfold playerDeath
    rw [if_pos ⟨hle, hst⟩]
  · unfold playerDeath
    rw [if_pos ⟨hle, hst⟩]
  · unfold playerDeath
    rw [if_pos ⟨hle, hst⟩]
    exact hle

/-- C1, witness: the player is dying with health 0, 2.9 seconds into the
countdown; after a frame of half a second whose ground ray hits, the state is
dying and the countdown is 0 instead of the respawn having fired. -/
theorem dying_player_on_ground_dies_again_witness :
    (deadPlayerGame.player.state = STATE_DYING ∧ deadPlayerGame.player.health ≤ 0 ∧
        deadPlayerGame.playerDeathTimer + groundedInput.dt > 3) ∧
      ((groundCheck groundedInput
          (playerCameraControl exampleLibM groundedInput
            (frameStart groundedInput deadPlayerGame))).player.state = STATE_ON_GROUND ∧
        (mainLoopBody exampleLibM groundedInput deadPlayerGame).player.state = STATE_DYING ∧
        (mainLoopBody exampleLibM groundedInput deadPlayerGame).playerDeathTimer = 0 ∧
        (mainLoopBody exampleLibM groundedInput deadPlayerGame).player.health ≤ 0) :=
  ⟨by decide!,
    dying_player_on_ground_dies_again exampleLibM groundedInput deadPlayerGame
      (by decide!) (by decide!) (by decide!) (by decide!)⟩

/-! ### C2: the respawn -/

/-- C2 (amended). In a gameplay frame in which the respawn fires (the ground
ray misses, the player is dying, the death countdown plus `dt` is above 3),
for every velocity, settings and enemies: right after the respawn branch the
health is `maxHealth` (100), the state is on the ground, the ammo is 30 and the
countdown is 0; the body handed to the physics step is at (0, 5, 0) with
velocity zero; at the end of the frame the ammo is 30 and the countdown is 0;
and the health is 100 and the state on the ground at the end of the frame when
no melee tick applies in it (attack mode off, or infinite health on, or
enemies frozen, or no enemy nearer than 1.5 to the place the player had when
the frame began). -/
theorem respawn_resets_player (m : LibM F) (inp : FrameInput F) (s : Game F)
    (hg : (frameStart inp s).gameState = STATE_GAMEPLAY)
    (hdying : s.player.state = STATE_DYING)
    (hair : inp.groundRay = false)
    (htimer : s.playerDeathTimer + inp.dt > 3)
    (hmax : s.player.maxHealth = 100) :
    ((playerUpdate m inp s.player.body.origin (atPlayerUpdate m inp s)).player.health = 100 ∧
        (playerUpdate m inp s.player.body.origin (atPlayerUpdate m inp s)).player.state =
          STATE_ON_GROUND ∧
        (playerUpdate m inp s.player.body.origin (atPlayerUpdate m inp s)).currentAmmo = 30 ∧
        (playerUpdate m inp s.player.body.origin (atPlayerUpdate m inp s)).playerDeathTimer = 0) ∧
      ((gameplayCommands m inp s.player.body.origin (frameStart inp s)).1.player.body.origin =
          ⟨0, 5, 0⟩ ∧
        (gameplayCommands m inp s.player.body.origin
          (frameStart inp s)).1.player.body.linearVelocity = ⟨0, 0, 0⟩) ∧
      ((mainLoopBody m inp s).currentAmmo = 30 ∧ (mainLoopBody m inp s).playerDeathTimer = 0) ∧
      ((s.settings.enemiesAttack = false ∨ s.settings.playerInfiniteHealth = true ∨
          s.settings.enemiesFrozen = true ∨
          ∀ e ∈ s.enemies,
            ¬Vector3Length m (Vector3Subtract s.player.body.origin (GetEnemyPosition e)) < 3 / 2) →
        (mainLoopBody m inp s).player.health = 100 ∧
          (mainLoopBody m inp s).player.state = STATE_ON_GROUND) := by
  obtain ⟨e1, e2, _, e4, e5⟩ := mainLoopBody_player m inp s hg
  have hpos : (frameStart inp s).player.body.origin = s.player.body.origin := by simp
  rw [e1, e2, e4, e5, gameplayCommands_fst, hpos]
  have hcmd : (gameplayCommands m inp s.player.body.origin (frameStart inp s)).1 =
      playerDeath (enemyUpdate m inp s.player.body.origin
        (playerUpdate m inp s.player.body.origin (atPlayerUpdate m inp s))).1 := by
    rw [← hpos]; rfl
  rw [hcmd]
  obtain ⟨b1, _, b3, _⟩ := atPlayerUpdate_player m inp s
  obtain ⟨b5, b6, _, _, b7, _⟩ := atPlayerUpdate_rest m inp s
  have hb : (atPlayerUpdate m inp s).player.state = STATE_DYING := by
    rw [b1, hair]; simpa using hdying
  have hr : playerUpdate m inp s.player.body.origin (atPlayerUpdate m inp s) =
      { atPlayerUpdate m inp s with
        playerDeathTimer := 0
        currentAmmo := magazineSize
        player := { (atPlayerUpdate m inp s).player with
          health := (atPlayerUpdate m inp s).player.maxHealth
          state := STATE_ON_GROUND
          body := { (atPlayerUpdate m inp s).player.body with
            origin := ⟨0, 5, 0⟩, linearVelocity := ⟨0, 0, 0⟩ } } } := by
    unfold playerUpdate
    rw [if_neg (by simp [hb]), if_pos hb]
    unfold playerDying
    dsimp only
    rw [if_pos (by rw [b5]; exact htimer)]
  rw [hr]
  refine ⟨⟨?_, rfl, rfl, rfl⟩, ⟨?_, ?_⟩, ⟨?_, ?_⟩, ?_⟩
  · dsimp only
    rw [b3, hmax]
  · unfold playerDeath
    split <;> rfl
  · unfold playerDeath
    split <;> rfl
  · rw [playerDeath_currentAmmo]
    rfl
  · unfold playerDeath
    split <;> rfl
  · intro hno
    have hloop : (enemyUpdate m inp s.player.body.origin
        { atPlayerUpdate m inp s with
          playerDeathTimer := 0
          currentAmmo := magazineSize
          player := { (atPlayerUpdate m inp s).player with
            health := (atPlayerUpdate m inp s).player.maxHealth
            state := STATE_ON_GROUND
            body := { (atPlayerUpdate m inp s).player.body with
              origin := ⟨0, 5, 0⟩, linearVelocity := ⟨0, 0, 0⟩ } } }).1.player.health = 100 := by
      unfold enemyUpdate
      dsimp only
      rw [enemyLoop_playerHealth_eq]
      · dsimp only
        rw [b3, hmax]
      · rw [b6]
        rcases hno with h | h | h | h
        · exact Or.inl h
        · exact Or.inr (Or.inl h)
        · exact Or.inr (Or.inr (Or.inl h))
        · refine Or.inr (Or.inr (Or.inr ?_))
          intro e' he'
          have hmem : e'.body.origin ∈ (atPlayerUpdate m inp s).enemies.map
              (fun e => e.body.origin) := List.mem_map.mpr ⟨e', he', rfl⟩
          rw [b7] at hmem
          obtain ⟨e, he, heq⟩ := List.mem_map.mp hmem
          have := h e he
          unfold GetEnemyPosition at this ⊢
          rw [← heq]
          exact this
    have hnodeath : playerDeath (enemyUpdate m inp s.player.body.origin
        { atPlayerUpdate m inp s with
          playerDeathTimer := 0
          currentAmmo := magazineSize
          player := { (atPlayerUpdate m inp s).player with
            health := (atPlayerUpdate m inp s).player.maxHealth
            state := STATE_ON_GROUND
            body := { (atPlayerUpdate m inp s).player.body with
              origin := ⟨0, 5, 0⟩, linearVelocity := ⟨0, 0, 0⟩ } } }).1 =
        (enemyUpdate m inp s.player.body.origin
        { atPlayerUpdate m inp s with
          playerDeathTimer := 0
          currentAmmo := magazineSize
          player := { (atPlayerUpdate m inp s).player with
            health := (atPlayerUpdate m inp s).player.maxHealth
            state := STATE_ON_GROUND
            body := { (atPlayerUpdate m inp s).player.body with
              origin := ⟨0, 5, 0⟩, linearVelocity := ⟨0, 0, 0⟩ } } }).1 := by
      unfold playerDeath
      rw [if_neg]
      rw [hloop]
      simp
    rw [hnodeath]
    exact ⟨hloop, rfl⟩

/-- C2, counterexample: the respawn fires in a frame in which an enemy in attack
mode stands within 1.5 of the place the player had at the start of the frame;
the health is 100 right after the respawn branch and 90 at the end of the
frame, not `maxHealth`. -/
theorem respawn_melee_counterexample :
    (frameStart (idleInput (1 / 2)) meleeRespawnGame).gameState = STATE_GAMEPLAY ∧
      meleeRespawnGame.player.state = STATE_DYING ∧
      meleeRespawnGame.playerDeathTimer + (idleInput (1 / 2)).dt > 3 ∧
      (playerUpdate exampleLibM (idleInput (1 / 2)) meleeRespawnGame.player.body.origin
        (atPlayerUpdate exampleLibM (idleInput (1 / 2)) meleeRespawnGame)).player.health = 100 ∧
      (mainLoopBody exampleLibM (idleInput (1 / 2)) meleeRespawnGame).player.maxHealth = 100 ∧
      (mainLoopBody exampleLibM (idleInput (1 / 2)) meleeRespawnGame).player.health = 90 ∧
      ¬((mainLoopBody exampleLibM (idleInput (1 / 2)) meleeRespawnGame).player.health =
        (mainLoopBody exampleLibM (idleInput (1 / 2)) meleeRespawnGame).player.maxHealth) := by
  decide!

/-- C2, witness: the respawn with attack mode off. -/
theorem respawn_resets_player_witness :
    ((frameStart (idleInput (1 / 2)) respawnGame).gameState = STATE_GAMEPLAY ∧
        respawnGame.player.state = STATE_DYING ∧
        respawnGame.playerDeathTimer + (idleInput (1 / 2)).dt > 3) ∧
      (mainLoopBody exampleLibM (idleInput (1 / 2)) respawnGame).currentAmmo = 30 ∧
      (mainLoopBody exampleLibM (idleInput (1 / 2)) respawnGame).playerDeathTimer = 0 ∧
      (mainLoopBody exampleLibM (idleInput (1 / 2)) respawnGame).player.health = 100 ∧
      (mainLoopBody exampleLibM (idleInput (1 / 2)) respawnGame).player.state = STATE_ON_GROUND :=
  have h := respawn_resets_player exampleLibM (idleInput (1 / 2)) respawnGame
    (by decide!) (by decide!) (by decide!) (by decide!) (by decide!)
  ⟨by decide!, h.2.2.1.1, h.2.2.1.2, (h.2.2.2 (Or.inl (by decide!))).1,
    (h.2.2.2 (Or.inl (by decide!))).2⟩

/-! ### C5: the last round -/

/-- The weapon state at the end of a gameplay frame is the one the player update leaves. -/
theorem mainLoopBody_weapon (m : LibM F) (inp : FrameInput F) (s : Game F)
    (hg : (frameStart inp s).gameState = STATE_GAMEPLAY) :
    (mainLoopBody m inp s).currentAmmo =
        (playerUpdate m inp (frameStart inp s).player.body.origin
          (atPlayerUpdate m inp s)).currentAmmo ∧
      (mainLoopBody m inp s).fireTimer =
        (playerUpdate m inp (frameStart inp s).player.body.origin
          (atPlayerUpdate m inp s)).fireTimer ∧
      (mainLoopBody m inp s).reloadTimer =
        (playerUpdate m inp (frameStart inp s).player.body.origin
          (atPlayerUpdate m inp s)).reloadTimer := by
  rw [mainLoopBody_gameplay m inp s hg]
  simp [gameplayState, gameplayCommands, atPlayerUpdate]

/-- C5. Scenario A. In a gameplay frame in which the player update runs (the
player is not dying and not in dialogue at line 525) and the fire gates of
line 574 pass, with infinite ammo off and the reload key not pressed: if the
ammo is 1 at the gates, then at the end of the frame the ammo is 0, the fire
cooldown is 0.1 and the reload countdown is still at most 0; if the ammo is 0
at the gates, the frame starts the reload (countdown 2) and the ammo stays 0. -/
theorem fire_last_round (m : LibM F) (inp : FrameInput F) (s : Game F)
    (hg : (frameStart inp s).gameState = STATE_GAMEPLAY)
    (halive : (atPlayerUpdate m inp s).player.state ≠ STATE_DYING)
    (hdialogue : (atPlayerUpdate m inp s).inDialogue = false)
    (hgates : fireGates inp (atFireGate m inp (atPlayerUpdate m inp s)))
    (hinf : s.settings.playerInfiniteAmmo = false)
    (hR : inp.keyRPressed = false) :
    ((atFireGate m inp (atPlayerUpdate m inp s)).currentAmmo = 1 →
        (mainLoopBody m inp s).currentAmmo = 0 ∧
        (mainLoopBody m inp s).fireTimer = 1 / 10 ∧
        (mainLoopBody m inp s).reloadTimer ≤ 0) ∧
      ((atFireGate m inp (atPlayerUpdate m inp s)).currentAmmo = 0 →
        (mainLoopBody m inp s).currentAmmo = 0 ∧
        (mainLoopBody m inp s).reloadTimer = 2) := by
  obtain ⟨h1, h2, h3⟩ := mainLoopBody_weapon m inp s hg
  rw [h1, h2, h3]
  have hinf2 : (atFireGate m inp (atPlayerUpdate m inp s)).settings.playerInfiniteAmmo = false := by
    simpa [atFireGate, atPlayerUpdate, beforePlayerUpdate] using hinf
  have hupd : playerUpdate m inp (frameStart inp s).player.body.origin (atPlayerUpdate m inp s) =
      manualReload inp (fireWeapon m inp (frameStart inp s).player.body.origin
        (atFireGate m inp (atPlayerUpdate m inp s))) := by
    unfold playerUpdate
    rw [if_pos ⟨halive, hdialogue⟩]
  have hman : ∀ t : Game F, manualReload inp t = t := by
    intro t
    unfold manualReload
    simp [hR]
  rw [hupd, hman]
  have hreload := hgates.2.2.1
  constructor
  · intro hammo
    unfold fireWeapon
    rw [if_pos hgates, if_pos (by rw [hammo]; decide)]
    dsimp only
    split <;> simp [hinf2, hammo, fireRate, hreload]
  · intro hammo
    unfold fireWeapon
    rw [if_pos hgates, if_neg (by rw [hammo]; decide), if_pos hreload]
    simp [hammo, reloadTime]

/-- C5, witness: one round left, fire button down. -/
theorem fire_last_round_witness :
    ((frameStart fireInput lastRoundGame).gameState = STATE_GAMEPLAY ∧
        fireGates fireInput (atFireGate exampleLibM fireInput
          (atPlayerUpdate exampleLibM fireInput lastRoundGame)) ∧
        (atFireGate exampleLibM fireInput
          (atPlayerUpdate exampleLibM fireInput lastRoundGame)).currentAmmo = 1) ∧
      (mainLoopBody exampleLibM fireInput lastRoundGame).currentAmmo = 0 ∧
      (mainLoopBody exampleLibM fireInput lastRoundGame).fireTimer = 1 / 10 ∧
      (mainLoopBody exampleLibM fireInput lastRoundGame).reloadTimer ≤ 0 :=
  ⟨by decide!,
    (fire_last_round exampleLibM fireInput lastRoundGame (by decide!) (by decide!) (by decide!)
      (by decide!) (by decide!) (by decide!)).1 (by decide!)⟩

/-! ### C6: the chase -/

/-- C6 (amended). For an enemy that is not dying, has health above 0 and is not
the dialogue partner, with enemies not frozen, attack mode on, super speed off
and the player not dying, whenever the distance `d` to the player is in
[1.5, 20) and `sqrtf` is exact there: the commanded velocity is
`(4 * dx / d, vy, 4 * dz / d)`, four times the x and z components of the
vector to the player normalised in three dimensions, the vertical component
as it was.  Its horizontal magnitude `h` has `h² * d² = 16 * (dx² + dz²)`, and
is exactly 4 when the player and the enemy are at the same height. -/
theorem chase_velocity (m : LibM F) (inp : FrameInput F) (settings : GameSettings F)
    (playerState : CharacterState) (playerPos : Vector3 F) (inDialogue : Bool)
    (dialoguePartner : Option Nat) (acc : EnemyLoop) (enemy : Enemy F)
    (hstate : enemy.state ≠ STATE_DYING)
    (hhealth : 0 < enemy.health)
    (hpartner : ¬(inDialogue = true ∧ dialoguePartner = some enemy.body.handle))
    (hfrozen : settings.enemiesFrozen = false)
    (hattack : settings.enemiesAttack = true)
    (hsuper : settings.enemiesSuperSpeed = false)
    (hplayer : playerState ≠ STATE_DYING)
    (hlo : 3 / 2 ≤ Vector3Length m (Vector3Subtract playerPos (GetEnemyPosition enemy)))
    (hhi : Vector3Length m (Vector3Subtract playerPos (GetEnemyPosition enemy)) < 20)
    (hsqrt : Vector3Length m (Vector3Subtract playerPos (GetEnemyPosition enemy)) *
        Vector3Length m (Vector3Subtract playerPos (GetEnemyPosition enemy)) =
      Vector3LengthSqr (Vector3Subtract playerPos (GetEnemyPosition enemy))) :
    (updateEnemy m inp settings playerState playerPos inDialogue dialoguePartner acc
        enemy).1.body.linearVelocity =
        ⟨(playerPos.x - enemy.body.origin.x) /
            Vector3Length m (Vector3Subtract playerPos (GetEnemyPosition enemy)) * 4,
          enemy.body.linearVelocity.y,
          (playerPos.z - enemy.body.origin.z) /
            Vector3Length m (Vector3Subtract playerPos (GetEnemyPosition enemy)) * 4⟩ ∧
      ((updateEnemy m inp settings playerState playerPos inDialogue dialoguePartner acc
            enemy).1.body.linearVelocity.x ^ 2 +
          (updateEnemy m inp settings playerState playerPos inDialogue dialoguePartner acc
            enemy).1.body.linearVelocity.z ^ 2) *
          Vector3LengthSqr (Vector3Subtract playerPos (GetEnemyPosition enemy)) =
        4 ^ 2 * ((playerPos.x - enemy.body.origin.x) ^ 2 +
          (playerPos.z - enemy.body.origin.z) ^ 2) ∧
      (playerPos.y = enemy.body.origin.y →
        (updateEnemy m inp settings playerState playerPos inDialogue dialoguePartner acc
            enemy).1.body.linearVelocity.x ^ 2 +
          (updateEnemy m inp settings playerState playerPos inDialogue dialoguePartner acc
            enemy).1.body.linearVelocity.z ^ 2 = 4 ^ 2) := by
  have hd : (0 : F) < Vector3Length m (Vector3Subtract playerPos (GetEnemyPosition enemy)) :=
    lt_of_lt_of_le (by norm_num) hlo
  have hne : Vector3Length m (Vector3Subtract playerPos (GetEnemyPosition enemy)) ≠ 0 :=
    ne_of_gt hd
  have hv : (updateEnemy m inp settings playerState playerPos inDialogue dialoguePartner acc
        enemy).1.body.linearVelocity =
        ⟨(playerPos.x - enemy.body.origin.x) /
            Vector3Length m (Vector3Subtract playerPos (GetEnemyPosition enemy)) * 4,
          enemy.body.linearVelocity.y,
          (playerPos.z - enemy.body.origin.z) /
            Vector3Length m (Vector3Subtract playerPos (GetEnemyPosition enemy)) * 4⟩ := by
    unfold updateEnemy
    rw [if_neg hstate, if_neg (not_le.mpr hhealth), if_neg hpartner, if_pos hfrozen]
    dsimp only
    rw [if_pos ⟨hattack, hplayer⟩]
    unfold enemyAttack
    dsimp only
    rw [if_neg (not_lt.mpr hlo), if_pos hhi]
    dsimp only
    have hn : Vector3Normalize m (Vector3Subtract playerPos (GetEnemyPosition enemy)) =
        Vector3Scale (Vector3Subtract playerPos (GetEnemyPosition enemy))
          (1 / Vector3Length m (Vector3Subtract playerPos (GetEnemyPosition enemy))) := by
      unfold Vector3Normalize Vector3Length at *
      dsimp only
      rw [if_pos hne]
      rfl
    rw [hn]
    simp [Vector3Scale, Vector3Subtract, GetEnemyPosition, hsuper, div_eq_mul_inv]
  rw [hv]
  dsimp only
  have hlen : Vector3LengthSqr (Vector3Subtract playerPos (GetEnemyPosition enemy)) =
      (playerPos.x - enemy.body.origin.x) ^ 2 + (playerPos.y - enemy.body.origin.y) ^ 2 +
        (playerPos.z - enemy.body.origin.z) ^ 2 := by
    simp [Vector3LengthSqr, Vector3Subtract, GetEnemyPosition]
    ring
  refine ⟨rfl, ?_, ?_⟩
  · rw [← hsqrt]
    field_simp
    ring
  · intro hy
    have h2 : Vector3Length m (Vector3Subtract playerPos (GetEnemyPosition enemy)) ^ 2 =
        (playerPos.x - enemy.body.origin.x) ^ 2 + (playerPos.z - enemy.body.origin.z) ^ 2 := by
      rw [pow_two, hsqrt, hlen, hy]
      ring
    have h3 : ((playerPos.x - enemy.body.origin.x) ^ 2 +
        (playerPos.z - enemy.body.origin.z) ^ 2) ≠ 0 := by
      rw [← h2]
      exact pow_ne_zero 2 hne
    rw [div_mul_eq_mul_div, div_mul_eq_mul_div, div_pow, div_pow, ← add_div, h2]
    field_simp
    ring

/-- C6, counterexample: the player is 6 away and 8 above the enemy, at distance
10; the commanded velocity is (2.4, 0, 0), of horizontal magnitude 2.4, not 4. -/
theorem chase_speed_counterexample :
    chaseEnemy.state ≠ STATE_DYING ∧
      attackSettings.enemiesFrozen = false ∧ attackSettings.enemiesAttack = true ∧
      attackSettings.enemiesSuperSpeed = false ∧
      Vector3Length exampleLibM (Vector3Subtract ⟨6, 8, 0⟩ (GetEnemyPosition chaseEnemy)) = 10 ∧
      (updateEnemy exampleLibM (idleInput (1 / 60)) attackSettings STATE_ON_GROUND ⟨6, 8, 0⟩
        false none ⟨100, 0, 0⟩ chaseEnemy).1.body.linearVelocity = ⟨12 / 5, 0, 0⟩ ∧
      ¬((updateEnemy exampleLibM (idleInput (1 / 60)) attackSettings STATE_ON_GROUND ⟨6, 8, 0⟩
            false none ⟨100, 0, 0⟩ chaseEnemy).1.body.linearVelocity.x ^ 2 +
          (updateEnemy exampleLibM (idleInput (1 / 60)) attackSettings STATE_ON_GROUND ⟨6, 8, 0⟩
            false none ⟨100, 0, 0⟩ chaseEnemy).1.body.linearVelocity.z ^ 2 = 4 ^ 2) := by
  decide!

/-- C6, witness: the player at the enemy's height, at distance 10. -/
theorem chase_velocity_witness :
    Vector3Length exampleLibM (Vector3Subtract ⟨6, 0, 8⟩ (GetEnemyPosition chaseEnemy)) = 10 ∧
      (updateEnemy exampleLibM (idleInput (1 / 60)) attackSettings STATE_ON_GROUND ⟨6, 0, 8⟩
        false none ⟨100, 0, 0⟩ chaseEnemy).1.body.linearVelocity.x ^ 2 +
          (updateEnemy exampleLibM (idleInput (1 / 60)) attackSettings STATE_ON_GROUND ⟨6, 0, 8⟩
            false none ⟨100, 0, 0⟩ chaseEnemy).1.body.linearVelocity.z ^ 2 = 4 ^ 2 :=
  ⟨by decide!,
    (chase_velocity exampleLibM (idleInput (1 / 60)) attackSettings STATE_ON_GROUND ⟨6, 0, 8⟩
      false none ⟨100, 0, 0⟩ chaseEnemy (by decide!) (by decide!) (by decide!) (by decide!)
      (by decide!) (by decide!) (by decide!) (by decide!) (by decide!) (by decide!)).2.2
      (by decide!)⟩

/-! ### C7: the erase tool -/

@[simp]
theorem editorState_gameState (m : LibM F) (inp : FrameInput F) (s : Game F) :
    (editorState m inp s).gameState = s.gameState := by
  unfold editorState editorPicking editorTool
  dsimp only
  repeat' split
  all_goals rfl

/-- A frame in the editor state: the editor update and the decay of the effects. -/
theorem mainLoopBody_editor (m : LibM F) (inp : FrameInput F) (s : Game F)
    (hg : (frameStart inp s).gameState = STATE_EDITOR) :
    mainLoopBody m inp s =
      { editorState m inp (frameStart inp s) with
        vfx := vfxDecay inp.dt (editorState m inp (frameStart inp s)).vfx } := by
  unfold mainLoopBody
  simp [hg]

/-- The erase loop over the spawn points, started behind a prefix it has passed:
the first point near the cursor goes, the others stay in their order. -/
theorem eraseSpawnPointLoop_spec (c : Vector3 F) :
    ∀ (rest pre : List (Vector3 F)), (∃ p ∈ rest, Vector3DistanceSqr c p < 2) →
      ∃ a p b, rest = a ++ p :: b ∧ (∀ q ∈ a, ¬Vector3DistanceSqr c q < 2) ∧
        Vector3DistanceSqr c p < 2 ∧
        eraseSpawnPointLoop c (pre ++ rest) pre.length rest.length = pre ++ (a ++ b)
  | [], _, h => by simp at h
  | x :: xs, pre, h => by
    unfold eraseSpawnPointLoop
    simp only [List.length_cons, getElem?_append_cons_length]
    by_cases hx : Vector3DistanceSqr c x < 2
    · refine ⟨[], x, xs, rfl, by simp, hx, ?_⟩
      rw [if_pos hx, eraseIdx_append_cons_length]
      rfl
    · have h' : ∃ p ∈ xs, Vector3DistanceSqr c p < 2 := by
        obtain ⟨p, hp, hnear⟩ := h
        rcases List.mem_cons.mp hp with rfl | hp
        · exact absurd hnear hx
        · exact ⟨p, hp, hnear⟩
      obtain ⟨a, p, b, hxs, ha, hp, hloop⟩ := eraseSpawnPointLoop_spec c xs (pre ++ [x]) h'
      refine ⟨x :: a, p, b, by rw [hxs]; rfl, ?_, hp, ?_⟩
      · intro q hq
        rcases List.mem_cons.mp hq with rfl | hq
        · exact hx
        · exact ha q hq
      · rw [if_neg hx]
        have e1 : pre ++ x :: xs = (pre ++ [x]) ++ xs := by simp
        have e2 : pre.length + 1 = (pre ++ [x]).length := by simp
        rw [e1, e2, hloop]
        simp

/-- C7. Scenario C. In an editor frame with the erase tool, a click and a ray
hit whose object is not a static block (tag other than -1), when some spawn
point has squared distance below 2 to the cursor: the spawn points split as
`a ++ p :: b` with no point of `a` in range and `p` in range, the list at the
end of the frame is `a ++ b` (exactly the first point in range is removed, the
others keep their order), and the list of static blocks is unchanged. -/
theorem editor_erase_spawn_point (m : LibM F) (inp : FrameInput F) (s : Game F) (hit : RayHit F)
    (hg : (frameStart inp s).gameState = STATE_EDITOR)
    (hmode : s.settings.editorMode = MODE_ERASE)
    (hclick : inp.mouseLeftPressed = true)
    (hray : inp.editorRay (editorCameraControl m inp (frameStart inp s)).editorCamera.position
      (editorRayTo m (editorCameraControl m inp (frameStart inp s))) = some hit)
    (htag : hit.userIndex ≠ -1)
    (hnear : ∃ p ∈ s.enemySpawnPoints, Vector3DistanceSqr (editorCursor hit) p < 2) :
    (∃ a p b, s.enemySpawnPoints = a ++ p :: b ∧
        (∀ q ∈ a, ¬Vector3DistanceSqr (editorCursor hit) q < 2) ∧
        Vector3DistanceSqr (editorCursor hit) p < 2 ∧
        (mainLoopBody m inp s).enemySpawnPoints = a ++ b) ∧
      (mainLoopBody m inp s).worldBlocks = s.worldBlocks := by
  rw [mainLoopBody_editor m inp s hg]
  have hmode' : (editorCameraControl m inp (frameStart inp s)).settings.editorMode = MODE_ERASE := by
    simpa [editorCameraControl] using hmode
  have hsp : (editorCameraControl m inp (frameStart inp s)).enemySpawnPoints =
      s.enemySpawnPoints := by
    simp [editorCameraControl]
  have hwb : (editorCameraControl m inp (frameStart inp s)).worldBlocks = s.worldBlocks := by
    simp [editorCameraControl]
  have hst : editorState m inp (frameStart inp s) =
      editorErase hit (editorCursor hit)
        { editorCameraControl m inp (frameStart inp s) with
          editorCursorValid := true, editorCursorPos := editorCursor hit } := by
    unfold editorState editorPicking
    simp only [hray, hclick, if_true]
    unfold editorTool
    simp only [hmode']
  rw [hst]
  constructor
  · obtain ⟨a, p, b, h1, h2, h3, h4⟩ :=
      eraseSpawnPointLoop_spec (editorCursor hit) s.enemySpawnPoints [] hnear
    refine ⟨a, p, b, h1, h2, h3, ?_⟩
    simp only [editorErase, eraseSpawnPoint, hsp]
    simpa using h4
  · simp only [editorErase, if_neg htag, hwb]

/-- C7, witness: the erase tool clicked on the enemy that stands on the first
spawn point. -/
theorem editor_erase_spawn_point_witness :
    ((frameStart eraseInput eraseGame).gameState = STATE_EDITOR ∧
        eraseGame.enemySpawnPoints =
          [⟨0, 2, 25⟩, ⟨20, 2, -25⟩, ⟨-25, 2, 0⟩, ⟨15, 2, 10⟩, ⟨-15, 2, -20⟩]) ∧
      (∃ a p b, eraseGame.enemySpawnPoints = a ++ p :: b ∧
        (∀ q ∈ a, ¬Vector3DistanceSqr (editorCursor spawnPointHit) q < 2) ∧
        Vector3DistanceSqr (editorCursor spawnPointHit) p < 2 ∧
        (mainLoopBody exampleLibM eraseInput eraseGame).enemySpawnPoints = a ++ b) ∧
      (mainLoopBody exampleLibM eraseInput eraseGame).worldBlocks = eraseGame.worldBlocks :=
  ⟨by decide!,
    editor_erase_spawn_point exampleLibM eraseInput eraseGame spawnPointHit (by decide!)
      (by decide!) (by decide!) rfl (by decide!)
      ⟨⟨0, 2, 25⟩, by decide!, by decide!⟩⟩

/-! ### C8: the dialogue toggle -/

/-- C8 (the code's behaviour). Scenario D. In a gameplay frame with the interact
key pressed and no dialogue active at its start: with attack mode off and the
player not dying at the start of the frame, dialogue is active at the end of the
frame if and only if some enemy that is not dying has squared distance strictly
below 16 to the player; with attack mode on, dialogue is not entered; with the
player dying and the ground ray missing, dialogue is not entered.  But with the
player dying, attack mode off and the ground ray hitting, the ground check has
put the player on the ground before the toggle tests the state, and dialogue is
entered exactly as for a living player: if and only if some enemy that is not
dying is nearer than 4.  With dialogue active at the start of the frame, the
press ends it and clears the partner. -/
theorem dialogue_toggle (m : LibM F) (inp : FrameInput F) (s : Game F)
    (hg : (frameStart inp s).gameState = STATE_GAMEPLAY)
    (hE : inp.keyEPressed = true) :
    (s.inDialogue = false → s.settings.enemiesAttack = false →
        s.player.state ≠ STATE_DYING →
        ((mainLoopBody m inp s).inDialogue = true ↔
          ∃ e ∈ s.enemies, e.state ≠ STATE_DYING ∧
            Vector3DistanceSqr s.player.body.origin (GetEnemyPosition e) < 16)) ∧
      (s.inDialogue = false → s.settings.enemiesAttack = true →
        (mainLoopBody m inp s).inDialogue = false) ∧
      (s.inDialogue = false → s.player.state = STATE_DYING → inp.groundRay = false →
        (mainLoopBody m inp s).inDialogue = false) ∧
      (s.inDialogue = false → s.settings.enemiesAttack = false →
        s.player.state = STATE_DYING → inp.groundRay = true →
        ((mainLoopBody m inp s).inDialogue = true ↔
          ∃ e ∈ s.enemies, e.state ≠ STATE_DYING ∧
            Vector3DistanceSqr s.player.body.origin (GetEnemyPosition e) < 16)) ∧
      (s.inDialogue = true →
        (mainLoopBody m inp s).inDialogue = false ∧
          (mainLoopBody m inp s).dialoguePartner = none) := by
  obtain ⟨h1, h2⟩ := mainLoopBody_dialogue m inp s hg
  rw [h1, h2]
  have hst := toggle_player_state m inp s
  have hgc := (groundCheck_player inp s).1
  have hcore : s.inDialogue = false → s.settings.enemiesAttack = false →
      (groundCheck inp s).player.state ≠ STATE_DYING →
      ((handleDialogue m inp s.player.body.origin
          (groundCheck inp (playerCameraControl m inp (frameStart inp s)))).inDialogue = true ↔
        ∃ e ∈ s.enemies, e.state ≠ STATE_DYING ∧
          Vector3DistanceSqr s.player.body.origin (GetEnemyPosition e) < 16) := by
    intro hnd hatt halive
    rw [← findDialoguePartner_isSome_iff]
    unfold handleDialogue
    rw [if_pos hE, if_neg (by simp [hnd]), if_pos (by simp [hatt, hst, halive])]
    simp only [groundCheck_enemies, playerCameraControl_enemies, frameStart_enemies]
    cases hf : findDialoguePartner s.player.body.origin s.enemies with
    | none => simp [hnd]
    | some e => simp
  have hnot : s.inDialogue = false →
      s.settings.enemiesAttack = true ∨ (groundCheck inp s).player.state = STATE_DYING →
      (handleDialogue m inp s.player.body.origin
        (groundCheck inp (playerCameraControl m inp (frameStart inp s)))).inDialogue = false := by
    intro hnd hor
    unfold handleDialogue
    rw [if_pos hE, if_neg (by simp [hnd]), if_neg (by
      rcases hor with h | h
      · simp [h]
      · simp [hst, h])]
    simp [hnd]
  refine ⟨?_, ?_, ?_, ?_, ?_⟩
  · intro hnd hatt halive
    refine hcore hnd hatt ?_
    rw [hgc]
    split
    · decide
    · exact halive
  · intro hnd hatt
    exact hnot hnd (Or.inl hatt)
  · intro hnd hdying hair
    refine hnot hnd (Or.inr ?_)
    rw [hgc, if_neg (by simp [hair])]
    exact hdying
  · intro hnd hatt _ hground
    refine hcore hnd hatt ?_
    rw [hgc, if_pos hground]
    decide
  · intro hin
    unfold handleDialogue
    rw [if_pos hE, if_pos (by simp [hin])]
    simp

/-- C8, the failing input.  The player is dying, with health 0, and lies three
units from an enemy that is not dying; attack mode is off, no dialogue is
active, the ground ray hits and the interact key is pressed.  At the end of the
frame the dialogue is active with that enemy as the partner, and the player is
dying as before. -/
theorem dialogue_toggle_witness :
    ((frameStart talkInput dyingTalkGame).gameState = STATE_GAMEPLAY ∧
        talkInput.keyEPressed = true ∧ talkInput.groundRay = true ∧
        dyingTalkGame.inDialogue = false ∧ dyingTalkGame.settings.enemiesAttack = false ∧
        dyingTalkGame.player.state = STATE_DYING ∧
        (∃ e ∈ dyingTalkGame.enemies, e.state ≠ STATE_DYING ∧
          Vector3DistanceSqr dyingTalkGame.player.body.origin (GetEnemyPosition e) = 9)) ∧
      ((mainLoopBody exampleLibM talkInput dyingTalkGame).inDialogue = true ↔
        ∃ e ∈ dyingTalkGame.enemies, e.state ≠ STATE_DYING ∧
          Vector3DistanceSqr dyingTalkGame.player.body.origin (GetEnemyPosition e) < 16) ∧
      (mainLoopBody exampleLibM talkInput dyingTalkGame).inDialogue = true ∧
      (mainLoopBody exampleLibM talkInput dyingTalkGame).dialoguePartner = some 15 ∧
      (mainLoopBody exampleLibM talkInput dyingTalkGame).player.state = STATE_DYING :=
  ⟨by decide!,
    (dialogue_toggle exampleLibM talkInput dyingTalkGame (by decide!) (by decide!)).2.2.2.1
      (by decide!) (by decide!) (by decide!) (by decide!),
    by decide!, by decide!, by decide!⟩

/-! ### C9: the respawn timer of the enemies -/

/-- C9. Scenario E. In a gameplay frame that starts with `n > 0` dying enemies,
with `t` the respawn timer plus `n * dt`: if `t < 5` the timer ends the frame
at `t` and no enemy is created (the enemies are those the reap pass keeps); if
`t ≥ 5` the timer ends at 0 and, when the list of spawn points is empty, no
enemy is created, and otherwise exactly one enemy is created, at one of the
spawn points, with full health, in front of the enemies the reap pass keeps. -/
theorem enemy_respawn_timer (m : LibM F) (inp : FrameInput F) (s : Game F)
    (hg : (frameStart inp s).gameState = STATE_GAMEPLAY)
    (hdead : 0 < (s.enemies.filter fun e => e.state = STATE_DYING).length) :
    (s.enemyRespawnTimer +
          inp.dt * ((s.enemies.filter fun e => e.state = STATE_DYING).length : F) < 5 →
        (mainLoopBody m inp s).enemyRespawnTimer = s.enemyRespawnTimer +
            inp.dt * ((s.enemies.filter fun e => e.state = STATE_DYING).length : F) ∧
          (mainLoopBody m inp s).enemies =
            (reapDeadEnemies (stepSimulation inp (gameplayCommands m inp
              (frameStart inp s).player.body.origin (frameStart inp s)).1)).enemies) ∧
      (5 ≤ s.enemyRespawnTimer +
          inp.dt * ((s.enemies.filter fun e => e.state = STATE_DYING).length : F) →
        (mainLoopBody m inp s).enemyRespawnTimer = 0 ∧
          (s.enemySpawnPoints = [] →
            (mainLoopBody m inp s).enemies =
              (reapDeadEnemies (stepSimulation inp (gameplayCommands m inp
                (frameStart inp s).player.body.origin (frameStart inp s)).1)).enemies) ∧
          (s.enemySpawnPoints ≠ [] →
            ∃ p ∈ s.enemySpawnPoints, ∃ newEnemy : Enemy F,
              newEnemy.body.origin = p ∧ newEnemy.health = 100 ∧
              newEnemy.state = STATE_ON_GROUND ∧ newEnemy.deathTimer = 0 ∧
              (mainLoopBody m inp s).enemies =
                newEnemy :: (reapDeadEnemies (stepSimulation inp (gameplayCommands m inp
                  (frameStart inp s).player.body.origin (frameStart inp s)).1)).enemies)) := by
  rw [mainLoopBody_gameplay m inp s hg]
  simp only [cameraRig_enemyRespawnTimer, cameraRig_enemies, gameplayState]
  rw [gameplayCommands_snd]
  obtain ⟨t1, t2⟩ := afterStep_rest m inp s
  generalize stepSimulation inp (gameplayCommands m inp (frameStart inp s).player.body.origin
    (frameStart inp s)).1 = pre at t1 t2 ⊢
  have hd : ((s.enemies.filter fun e => e.state = STATE_DYING).length : Int) > 0 := by
    exact_mod_cast hdead
  have hcast : (((s.enemies.filter fun e => e.state = STATE_DYING).length : Int) : F) =
      ((s.enemies.filter fun e => e.state = STATE_DYING).length : F) := Int.cast_natCast _
  constructor
  · intro hlt
    have hres : enemyRespawn inp ((s.enemies.filter fun e => e.state = STATE_DYING).length : Int)
        pre = { pre with enemyRespawnTimer := s.enemyRespawnTimer +
          inp.dt * ((s.enemies.filter fun e => e.state = STATE_DYING).length : F) } := by
      unfold enemyRespawn
      rw [if_pos hd]
      dsimp only
      rw [t1, hcast, if_neg (by unfold ENEMY_RESPAWN_TIME; exact not_le.mpr hlt)]
    rw [hres]
    exact ⟨rfl, rfl⟩
  · intro hge
    refine ⟨?_, ?_, ?_⟩
    · rw [reapDeadEnemies_enemyRespawnTimer]
      unfold enemyRespawn
      rw [if_pos hd]
      dsimp only
      rw [t1, hcast, if_pos (by unfold ENEMY_RESPAWN_TIME; exact hge)]
      repeat' split
      all_goals rfl
    · intro hempty
      have hres : enemyRespawn inp
          ((s.enemies.filter fun e => e.state = STATE_DYING).length : Int) pre =
          { pre with enemyRespawnTimer := 0 } := by
        unfold enemyRespawn
        rw [if_pos hd]
        dsimp only
        rw [t1, hcast, if_pos (by unfold ENEMY_RESPAWN_TIME; exact hge),
          if_neg (by rw [t2, hempty]; simp)]
      rw [hres]
      rfl
    · intro hne
      obtain ⟨p, hp, hmem⟩ := spawn_index_valid (inp.rand pre.randCalls) s.enemySpawnPoints hne
      have hres : enemyRespawn inp
          ((s.enemies.filter fun e => e.state = STATE_DYING).length : Int) pre =
          CreateEnemy inp.rand p
            { pre with enemyRespawnTimer := 0, randCalls := pre.randCalls + 1 } := by
        unfold enemyRespawn
        rw [if_pos hd]
        dsimp only
        rw [t1, hcast, if_pos (by unfold ENEMY_RESPAWN_TIME; exact hge),
          if_pos (by rw [t2]; exact hne), t2, hp]
      rw [hres]
      refine ⟨p, hmem,
          { body := ⟨pre.nextHandle, p, ⟨0, 0, 0⟩, false, 2⟩
            maxHealth := 100
            health := 100
            state := STATE_ON_GROUND
            animationTimer :=
              ((GetRandomValue (inp.rand (pre.randCalls + 1)) 0 100 : Int) : F) / 10
            isMoving := false
            modelRotationAngle := 0
            deathTimer := 0
            aiStateTimer := ((GetRandomValue (inp.rand (pre.randCalls + 1 + 1)) 1 3 : Int) : F)
            wanderDirection := ⟨0, 0, 0⟩ }, rfl, rfl, rfl, rfl, ?_⟩
      · unfold reapDeadEnemies CreateEnemy
        dsimp only
        rw [reapLoop_fst, reapLoop_fst, List.filter_cons, if_pos]
        simp

/-- C9, witness: two dying enemies and five frames of half a second from timer
0: the timer reads 1, 2, 3, 4, 0 after the frames, the number of enemies
stays 5 for four frames and is 6 after the fifth, whose one new enemy stands
on a spawn point. -/
theorem enemy_respawn_timer_witness :
    ((twoDeadGame.enemies.filter fun e => e.state = STATE_DYING).length = 2 ∧
        twoDeadGame.enemyRespawnTimer = 0 ∧
        (List.range 6).map (fun k =>
            (runFrames exampleLibM (List.replicate k (idleInput (1 / 2)))
              twoDeadGame).enemyRespawnTimer) = [0, 1, 2, 3, 4, 0] ∧
        (List.range 6).map (fun k =>
            (runFrames exampleLibM (List.replicate k (idleInput (1 / 2)))
              twoDeadGame).enemies.length) = [5, 5, 5, 5, 5, 6]) ∧
      ((mainLoopBody exampleLibM (idleInput (1 / 2))
          (runFrames exampleLibM (List.replicate 4 (idleInput (1 / 2)))
            twoDeadGame)).enemyRespawnTimer = 0 ∧
        ∃ p ∈ (runFrames exampleLibM (List.replicate 4 (idleInput (1 / 2)))
            twoDeadGame).enemySpawnPoints,
          ∃ newEnemy : Enemy ℚ, newEnemy.body.origin = p ∧ newEnemy.health = 100 ∧
            newEnemy.state = STATE_ON_GROUND ∧ newEnemy.deathTimer = 0 ∧
            (mainLoopBody exampleLibM (idleInput (1 / 2))
              (runFrames exampleLibM (List.replicate 4 (idleInput (1 / 2)))
                twoDeadGame)).enemies =
              newEnemy :: (reapDeadEnemies (stepSimulation (idleInput (1 / 2))
                (gameplayCommands exampleLibM (idleInput (1 / 2))
                  (frameStart (idleInput (1 / 2))
                    (runFrames exampleLibM (List.replicate 4 (idleInput (1 / 2)))
                      twoDeadGame)).player.body.origin
                  (frameStart (idleInput (1 / 2))
                    (runFrames exampleLibM (List.replicate 4 (idleInput (1 / 2)))
                      twoDeadGame))).1)).enemies) :=
  have h := (enemy_respawn_timer exampleLibM (idleInput (1 / 2))
    (runFrames exampleLibM (List.replicate 4 (idleInput (1 / 2))) twoDeadGame)
    (by decide!) (by decide!)).2 (by decide!)
  ⟨by decide!, h.1, h.2.2 (by decide!)⟩

/-! ### C10: the melee tick -/

/-- C10 (the code's behaviour at the failing input). With attack mode on,
infinite health off and one enemy within 1.5, a frame of 1/64 second takes
the player's health from 100 to 99: the difference 100 - 20/64 = 99.6875 is
converted back to `int`.  Sixty-four such ticks, one second in all, take 64
health, not 20. -/
theorem melee_tick_truncates :
    (frameStart (idleInput (1 / 64)) meleeGame).gameState = STATE_GAMEPLAY ∧
      meleeGame.settings.enemiesAttack = true ∧
      meleeGame.settings.playerInfiniteHealth = false ∧
      meleeGame.player.health = 100 ∧
      (mainLoopBody exampleLibM (idleInput (1 / 64)) meleeGame).player.health = 99 ∧
      ((100 : ℚ) - 20 * (1 / 64) = 1595 / 16 ∧ ((99 : Int) : ℚ) ≠ 1595 / 16) ∧
      (meleeDamage (1 / 64 : ℚ))^[64] 100 = 36 := by
  decide!

/-! ### C18, C19, C20: the pose of the animated character -/

/-- The legs, the torso lift, the head pitch and the body pitch of the pose are
those of the base pose. -/
theorem pose_base_fields (m : LibM F) (state : CharacterState) (t r k : F)
    (isMoving isAiming isTalking : Bool) :
    (DrawAnimatedCharacter m state t isMoving isAiming isTalking r k).leftLegRot =
        (basePose m state t isMoving isTalking).leftLegRot ∧
      (DrawAnimatedCharacter m state t isMoving isAiming isTalking r k).rightLegRot =
        (basePose m state t isMoving isTalking).rightLegRot ∧
      (DrawAnimatedCharacter m state t isMoving isAiming isTalking r k).torsoYOffset =
        (basePose m state t isMoving isTalking).torsoYOffset ∧
      (DrawAnimatedCharacter m state t isMoving isAiming isTalking r k).headRotX =
        (basePose m state t isMoving isTalking).headRotX ∧
      (DrawAnimatedCharacter m state t isMoving isAiming isTalking r k).bodyRotX =
        (basePose m state t isMoving isTalking).bodyRotX := by
  unfold DrawAnimatedCharacter applyRecoil reloadOverride armPose
  refine ⟨?_, ?_, ?_, ?_, ?_⟩ <;> (dsimp only; split_ifs <;> rfl)

/-- The arm angles and the torso pitch of the pose, from those of the arm pose. -/
theorem pose_arm_fields (m : LibM F) (state : CharacterState) (t r k : F)
    (isMoving isAiming isTalking : Bool) :
    (DrawAnimatedCharacter m state t isMoving isAiming isTalking r k).rightArmRotX =
        (armPose m state t isAiming isTalking
          (basePose m state t isMoving isTalking)).rightArmRotX - k * 15 ∧
      (DrawAnimatedCharacter m state t isMoving isAiming isTalking r k).rightArmRotZ =
        (armPose m state t isAiming isTalking
          (basePose m state t isMoving isTalking)).rightArmRotZ + k * 5 ∧
      (DrawAnimatedCharacter m state t isMoving isAiming isTalking r k).leftArmRotX =
        (armPose m state t isAiming isTalking
          (basePose m state t isMoving isTalking)).leftArmRotX +
          (if r > 0 then m.sinf ((1 - r / 2) * m.PI * 2) * -15 else 0) - k * 10 ∧
      (DrawAnimatedCharacter m state t isMoving isAiming isTalking r k).leftArmRotZ =
        (armPose m state t isAiming isTalking
          (basePose m state t isMoving isTalking)).leftArmRotZ +
          (if r > 0 then m.sinf ((1 - r / 2) * m.PI * 2) * -15 else 0) ∧
      (DrawAnimatedCharacter m state t isMoving isAiming isTalking r k).torsoXRot =
        (armPose m state t isAiming isTalking
          (basePose m state t isMoving isTalking)).torsoXRot := by
  unfold DrawAnimatedCharacter applyRecoil reloadOverride
  refine ⟨?_, ?_, ?_, ?_, ?_⟩ <;> (dsimp only; split_ifs <;> simp)

/-- C18. The base pose, for every animation clock `t` (and every reload and
recoil input, in particular 0): on the ground and moving, the left leg is
`35 * sin (10 t)`, the right leg its negative, the torso lift and the head
pitch are 0, talking or not; on the ground, idle and talking, the torso lift
is `0.036 * sin (5 t)` and the head pitch `5 * cos (3 t)`; on the ground, idle
and not talking, the torso lift is `0.02 * sin (2 t)`; jumping, the legs are
45 and -20 and the torso lift 0; dying, the body pitch is 90, the torso lift
-1 and both legs 0, whatever `t` and the flags; the body pitch is 0 in every
state but dying. -/
theorem base_pose (m : LibM F) (t r k : F) (isMoving isAiming isTalking : Bool) :
    ((DrawAnimatedCharacter m STATE_ON_GROUND t true isAiming isTalking r k).leftLegRot =
          35 * m.sinf (10 * t) ∧
        (DrawAnimatedCharacter m STATE_ON_GROUND t true isAiming isTalking r k).rightLegRot =
          -(DrawAnimatedCharacter m STATE_ON_GROUND t true isAiming isTalking r k).leftLegRot ∧
        (DrawAnimatedCharacter m STATE_ON_GROUND t true isAiming isTalking r k).torsoYOffset = 0 ∧
        (DrawAnimatedCharacter m STATE_ON_GROUND t true isAiming isTalking r k).headRotX = 0) ∧
      ((DrawAnimatedCharacter m STATE_ON_GROUND t false isAiming true r k).torsoYOffset =
          36 / 1000 * m.sinf (5 * t) ∧
        (DrawAnimatedCharacter m STATE_ON_GROUND t false isAiming true r k).headRotX =
          5 * m.cosf (3 * t)) ∧
      (DrawAnimatedCharacter m STATE_ON_GROUND t false isAiming false r k).torsoYOffset =
        2 / 100 * m.sinf (2 * t) ∧
      ((DrawAnimatedCharacter m STATE_JUMPING t isMoving isAiming isTalking r k).leftLegRot = 45 ∧
        (DrawAnimatedCharacter m STATE_JUMPING t isMoving isAiming isTalking r k).rightLegRot =
          -20 ∧
        (DrawAnimatedCharacter m STATE_JUMPING t isMoving isAiming isTalking r k).torsoYOffset =
          0) ∧
      ((DrawAnimatedCharacter m STATE_DYING t isMoving isAiming isTalking r k).bodyRotX = 90 ∧
        (DrawAnimatedCharacter m STATE_DYING t isMoving isAiming isTalking r k).torsoYOffset =
          -1 ∧
        (DrawAnimatedCharacter m STATE_DYING t isMoving isAiming isTalking r k).leftLegRot = 0 ∧
        (DrawAnimatedCharacter m STATE_DYING t isMoving isAiming isTalking r k).rightLegRot = 0) ∧
      (DrawAnimatedCharacter m STATE_ON_GROUND t isMoving isAiming isTalking r k).bodyRotX = 0 ∧
      (DrawAnimatedCharacter m STATE_JUMPING t isMoving isAiming isTalking r k).bodyRotX = 0 := by
  have e10 : t * 10 = 10 * t := mul_comm _ _
  have e5 : t * 2 * (5 / 2) = 5 * t := by ring
  have e3 : t * 2 * (3 / 2) = 3 * t := by ring
  have e2 : t * 2 = 2 * t := mul_comm _ _
  simp only [pose_base_fields]
  refine ⟨⟨?_, ?_, ?_, ?_⟩, ⟨?_, ?_⟩, ?_, ⟨?_, ?_, ?_⟩, ⟨?_, ?_, ?_, ?_⟩, ?_, ?_⟩
  · simp only [basePose, if_true, e10]; ring
  · simp only [basePose, if_true]; ring
  · simp only [basePose, if_true]
  · simp only [basePose, if_true]
  · simp only [basePose, Bool.false_eq_true, if_false, if_true, e5]; ring
  · simp only [basePose, Bool.false_eq_true, if_false, if_true, e3]; ring
  · simp only [basePose, Bool.false_eq_true, if_false, e2]; ring
  · rfl
  · rfl
  · rfl
  · rfl
  · rfl
  · rfl
  · rfl
  · simp only [basePose]; split_ifs <;> rfl
  · rfl

/-- C19. The arm rule with reload and recoil inputs 0, in its order: dying,
the arms take the pose right (-45, roll 70), left (45, roll -70) and the torso
pitch is 0, whatever the flags; else talking (aiming or not), the right arm is
`(25 + 10 * sin (4 t), roll -45)`, the left arm `(35 + 10 * cos (3 t), roll 45)`
and the torso pitch 0; else aiming, the torso pitch is -10, both arm pitches
90, the rolls -20 (right) and 20 (left); else the carry pose right (75, -15),
left (80, 20) with torso pitch 0. -/
theorem arm_pose (m : LibM F) (t : F) (state : CharacterState)
    (isMoving isAiming isTalking : Bool) :
    ((DrawAnimatedCharacter m STATE_DYING t isMoving isAiming isTalking 0 0).rightArmRotX = -45 ∧
        (DrawAnimatedCharacter m STATE_DYING t isMoving isAiming isTalking 0 0).rightArmRotZ = 70 ∧
        (DrawAnimatedCharacter m STATE_DYING t isMoving isAiming isTalking 0 0).leftArmRotX = 45 ∧
        (DrawAnimatedCharacter m STATE_DYING t isMoving isAiming isTalking 0 0).leftArmRotZ = -70 ∧
        (DrawAnimatedCharacter m STATE_DYING t isMoving isAiming isTalking 0 0).torsoXRot = 0) ∧
      (state ≠ STATE_DYING →
        ((DrawAnimatedCharacter m state t isMoving isAiming true 0 0).rightArmRotX =
            25 + 10 * m.sinf (4 * t) ∧
          (DrawAnimatedCharacter m state t isMoving isAiming true 0 0).rightArmRotZ = -45 ∧
          (DrawAnimatedCharacter m state t isMoving isAiming true 0 0).leftArmRotX =
            35 + 10 * m.cosf (3 * t) ∧
          (DrawAnimatedCharacter m state t isMoving isAiming true 0 0).leftArmRotZ = 45 ∧
          (DrawAnimatedCharacter m state t isMoving isAiming true 0 0).torsoXRot = 0) ∧
        ((DrawAnimatedCharacter m state t isMoving true false 0 0).torsoXRot = -10 ∧
          (DrawAnimatedCharacter m state t isMoving true false 0 0).rightArmRotX = 90 ∧
          (DrawAnimatedCharacter m state t isMoving true false 0 0).leftArmRotX = 90 ∧
          (DrawAnimatedCharacter m state t isMoving true false 0 0).rightArmRotZ = -20 ∧
          (DrawAnimatedCharacter m state t isMoving true false 0 0).leftArmRotZ = 20) ∧
        ((DrawAnimatedCharacter m state t isMoving false false 0 0).rightArmRotX = 75 ∧
          (DrawAnimatedCharacter m state t isMoving false false 0 0).rightArmRotZ = -15 ∧
          (DrawAnimatedCharacter m state t isMoving false false 0 0).leftArmRotX = 80 ∧
          (DrawAnimatedCharacter m state t isMoving false false 0 0).leftArmRotZ = 20 ∧
          (DrawAnimatedCharacter m state t isMoving false false 0 0).torsoXRot = 0)) := by
  have e4 : t * 4 = 4 * t := mul_comm _ _
  have e3 : t * 3 = 3 * t := mul_comm _ _
  have hbase : ∀ (st : CharacterState) (mv tk : Bool), (basePose m st t mv tk).torsoXRot = 0 := by
    intro st mv tk
    unfold basePose
    cases st <;> dsimp only
    split_ifs <;> rfl
  simp only [pose_arm_fields, lt_irrefl, if_false, zero_mul, sub_zero, add_zero]
  refine ⟨⟨?_, ?_, ?_, ?_, ?_⟩, fun hs => ⟨⟨?_, ?_, ?_, ?_, ?_⟩, ⟨?_, ?_, ?_, ?_, ?_⟩,
    ⟨?_, ?_, ?_, ?_, ?_⟩⟩⟩
  · simp [armPose]
  · simp [armPose]
  · simp [armPose]
  · simp [armPose]
  · simp [armPose, hbase]
  · simp only [armPose, if_pos hs, if_true, e4]; ring
  · simp only [armPose, if_pos hs, if_true]
  · simp only [armPose, if_pos hs, if_true, e3]; ring
  · simp only [armPose, if_pos hs, if_true]
  · simp only [armPose, if_pos hs, if_true, hbase]
  · simp only [armPose, if_pos hs, if_true, Bool.false_eq_true, if_false]
  · simp only [armPose, if_pos hs, if_true, Bool.false_eq_true, if_false]
  · simp only [armPose, if_pos hs, if_true, Bool.false_eq_true, if_false]
  · simp only [armPose, if_pos hs, if_true, Bool.false_eq_true, if_false]
  · simp only [armPose, if_pos hs, if_true, Bool.false_eq_true, if_false]
  · simp only [armPose, if_pos hs, Bool.false_eq_true, if_false]
  · simp only [armPose, if_pos hs, Bool.false_eq_true, if_false]
  · simp only [armPose, if_pos hs, Bool.false_eq_true, if_false]
  · simp only [armPose, if_pos hs, Bool.false_eq_true, if_false]
  · simp only [armPose, if_pos hs, Bool.false_eq_true, if_false, hbase]

/-- C19, witness: the jumping state is not the dying state; then talking wins
over aiming. -/
theorem arm_pose_witness :
    (STATE_JUMPING ≠ STATE_DYING) ∧
      (DrawAnimatedCharacter exampleLibM STATE_JUMPING 1 false true true 0 0).rightArmRotZ = -45 :=
  ⟨by decide,
    ((arm_pose exampleLibM 1 STATE_JUMPING false true false).2 (by decide)).1.2.1⟩

/-- C20. The overlays are additive and touch only arm angles: for every state
and flags, the pose with reload input `r` and recoil input `k` differs from
the pose with inputs 0 only in that the right arm pitch is lower by `15 k`,
the left arm pitch lower by `10 k`, the right arm roll higher by `5 k`, and,
only if `r > 0`, the left arm pitch and roll each gain
`-15 * sin (2 π (1 - r / 2))`; legs, torso lift, torso pitch, head pitch and
body pitch are the same; for `r ≤ 0` and `k = 0` the pose is the same. -/
theorem pose_overlay (m : LibM F) (t r k : F) (state : CharacterState)
    (isMoving isAiming isTalking : Bool) :
    (DrawAnimatedCharacter m state t isMoving isAiming isTalking r k).rightArmRotX =
        (DrawAnimatedCharacter m state t isMoving isAiming isTalking 0 0).rightArmRotX - 15 * k ∧
      (DrawAnimatedCharacter m state t isMoving isAiming isTalking r k).rightArmRotZ =
        (DrawAnimatedCharacter m state t isMoving isAiming isTalking 0 0).rightArmRotZ + 5 * k ∧
      (DrawAnimatedCharacter m state t isMoving isAiming isTalking r k).leftArmRotX =
        (DrawAnimatedCharacter m state t isMoving isAiming isTalking 0 0).leftArmRotX - 10 * k +
          (if r > 0 then -15 * m.sinf (2 * m.PI * (1 - r / 2)) else 0) ∧
      (DrawAnimatedCharacter m state t isMoving isAiming isTalking r k).leftArmRotZ =
        (DrawAnimatedCharacter m state t isMoving isAiming isTalking 0 0).leftArmRotZ +
          (if r > 0 then -15 * m.sinf (2 * m.PI * (1 - r / 2)) else 0) ∧
      (DrawAnimatedCharacter m state t isMoving isAiming isTalking r k).leftLegRot =
        (DrawAnimatedCharacter m state t isMoving isAiming isTalking 0 0).leftLegRot ∧
      (DrawAnimatedCharacter m state t isMoving isAiming isTalking r k).rightLegRot =
        (DrawAnimatedCharacter m state t isMoving isAiming isTalking 0 0).rightLegRot ∧
      (DrawAnimatedCharacter m state t isMoving isAiming isTalking r k).torsoYOffset =
        (DrawAnimatedCharacter m state t isMoving isAiming isTalking 0 0).torsoYOffset ∧
      (DrawAnimatedCharacter m state t isMoving isAiming isTalking r k).torsoXRot =
        (DrawAnimatedCharacter m state t isMoving isAiming isTalking 0 0).torsoXRot ∧
      (DrawAnimatedCharacter m state t isMoving isAiming isTalking r k).headRotX =
        (DrawAnimatedCharacter m state t isMoving isAiming isTalking 0 0).headRotX ∧
      (DrawAnimatedCharacter m state t isMoving isAiming isTalking r k).bodyRotX =
        (DrawAnimatedCharacter m state t isMoving isAiming isTalking 0 0).bodyRotX ∧
      (r ≤ 0 → k = 0 →
        DrawAnimatedCharacter m state t isMoving isAiming isTalking r k =
          DrawAnimatedCharacter m state t isMoving isAiming isTalking 0 0) := by
  have ep : (1 - r / 2) * m.PI * 2 = 2 * m.PI * (1 - r / 2) := by ring
  simp only [pose_arm_fields, pose_base_fields, lt_irrefl, if_false, zero_mul, sub_zero, add_zero,
    ep]
  refine ⟨by ring, by ring, ?_, ?_, trivial, trivial, trivial, trivial, trivial, trivial, ?_⟩
  · split_ifs <;> ring
  · split_ifs <;> ring
  · intro hr hk
    subst hk
    unfold DrawAnimatedCharacter applyRecoil reloadOverride
    rw [if_neg (not_lt.mpr hr), if_neg (lt_irrefl _)]

/-- C20, witness: with reload input -1 and recoil input 0 the pose is the one
with inputs 0. -/
theorem pose_overlay_witness :
    ((-1 : ℚ) ≤ 0 ∧ (0 : ℚ) = 0) ∧
      DrawAnimatedCharacter exampleLibM STATE_ON_GROUND 1 true false false (-1) 0 =
        DrawAnimatedCharacter exampleLibM STATE_ON_GROUND 1 true false false 0 0 :=
  ⟨by decide!,
    (pose_overlay exampleLibM 1 (-1) 0 STATE_ON_GROUND true false false).2.2.2.2.2.2.2.2.2.2
      (by decide!) rfl⟩

/-! ### C15: the accepted shot -/

/-- C15. The postcondition of an accepted shot (the fire gates pass, the ammo is
above 0), with the result of the ray test as input.  The ray runs from the
camera position to the camera position plus 1000 times the camera forward.
If it hits, exactly two effects are appended: first the impact marker, with
start and end at the hit point and life 0.1, then the tracer, with life 0.05,
ending at the hit point; an enemy's health drops by exactly 25 if the hit body
is tagged 2, is this enemy's body and the enemy is not dying, and is unchanged
otherwise.  If it misses, exactly one tracer is appended, ending at the far
end of the ray, and no enemy changes.  The player's health is unchanged. -/
theorem accepted_shot (m : LibM F) (inp : FrameInput F) (pos : Vector3 F) (s : Game F)
    (hgates : fireGates inp s) (hammo : s.currentAmmo > 0) :
    (∀ hit : RayHit F,
        inp.bulletRay s.playerCamera.position
            (Vector3Add s.playerCamera.position (Vector3Scale (Vector3Normalize m
              (Vector3Subtract s.playerCamera.target s.playerCamera.position)) 1000)) =
          some hit →
        (fireWeapon m inp pos s).vfx =
            s.vfx ++
              [⟨hit.m_hitPointWorld, hit.m_hitPointWorld, 1 / 10, RED⟩,
                ⟨Vector3Add pos (Vector3TransformRotateY m ⟨0, 115 / 100, 7 / 10⟩
                    ((s.player.modelRotationAngle - 180) * DEG2RAD m)),
                  hit.m_hitPointWorld, 1 / 20, YELLOW⟩] ∧
          (fireWeapon m inp pos s).enemies.length = s.enemies.length ∧
          (fireWeapon m inp pos s).enemies.map (fun e => e.health) =
            s.enemies.map (fun e =>
              if hit.userIndex = 2 ∧ e.body.handle = hit.userPointer ∧ e.state ≠ STATE_DYING
              then e.health - 25 else e.health) ∧
          (fireWeapon m inp pos s).enemies.map (fun e => (e.body.handle, e.state)) =
            s.enemies.map (fun e => (e.body.handle, e.state))) ∧
      (inp.bulletRay s.playerCamera.position
            (Vector3Add s.playerCamera.position (Vector3Scale (Vector3Normalize m
              (Vector3Subtract s.playerCamera.target s.playerCamera.position)) 1000)) =
          none →
        (fireWeapon m inp pos s).vfx =
            s.vfx ++
              [⟨Vector3Add pos (Vector3TransformRotateY m ⟨0, 115 / 100, 7 / 10⟩
                    ((s.player.modelRotationAngle - 180) * DEG2RAD m)),
                  Vector3Add s.playerCamera.position (Vector3Scale (Vector3Normalize m
                    (Vector3Subtract s.playerCamera.target s.playerCamera.position)) 1000),
                  1 / 20, YELLOW⟩] ∧
          (fireWeapon m inp pos s).enemies = s.enemies) ∧
      (fireWeapon m inp pos s).player.health = s.player.health := by
  refine ⟨?_, ?_, ?_⟩
  · intro hit hray
    unfold fireWeapon
    rw [if_pos hgates, if_pos hammo]
    simp only [hray]
    refine ⟨trivial, ?_, ?_, ?_⟩
    · split
      · simp [modifyEnemy]
      · rfl
    · by_cases htag : hit.userIndex = 2
      · rw [if_pos htag]
        unfold modifyEnemy
        rw [List.map_map]
        apply List.map_congr_left
        intro e _
        simp only [Function.comp, htag, true_and]
        by_cases hh : e.body.handle = hit.userPointer
        · rw [if_pos hh]
          unfold bulletDamage
          by_cases hd : e.state = STATE_DYING
          · rw [if_neg (not_not_intro hd), if_neg (by simp [hd])]
          · rw [if_pos hd, if_pos ⟨hh, hd⟩]
        · rw [if_neg hh, if_neg (by simp [hh])]
      · rw [if_neg htag]
        apply List.map_congr_left
        intro e _
        simp [htag]
    · split
      · apply modifyEnemy_map
        intro e
        unfold bulletDamage
        split <;> rfl
      · rfl
  · intro hray
    unfold fireWeapon
    rw [if_pos hgates, if_pos hammo]
    simp only [hray]
    exact ⟨trivial, trivial⟩
  · simp

/-- C15, witness: a shot that hits the enemy whose body has handle 15. -/
theorem accepted_shot_witness :
    (fireGates shotInput exampleGame ∧ exampleGame.currentAmmo > 0) ∧
      (fireWeapon exampleLibM shotInput exampleGame.player.body.origin exampleGame).enemies.map
          (fun e => e.health) =
        exampleGame.enemies.map (fun e =>
          if exampleBulletHit.userIndex = 2 ∧ e.body.handle = exampleBulletHit.userPointer ∧
              e.state ≠ STATE_DYING
          then e.health - 25 else e.health) ∧
      (fireWeapon exampleLibM shotInput exampleGame.player.body.origin exampleGame).enemies.map
          (fun e => e.health) = [75, 100, 100, 100, 100] :=
  ⟨by decide!,
    ((accepted_shot exampleLibM shotInput exampleGame.player.body.origin exampleGame
      (by decide!) (by decide!)).1 exampleBulletHit rfl).2.2.1,
    by decide!⟩

/-! ### C16: the movement command of the player -/

/-- The body of the player handed to the physics step, when the player update
runs, is the one the movement section leaves. -/
theorem gameplayCommands_player_body (m : LibM F) (inp : FrameInput F) (s : Game F)
    (halive : (atPlayerUpdate m inp s).player.state ≠ STATE_DYING)
    (hdialogue : (atPlayerUpdate m inp s).inDialogue = false) :
    (gameplayCommands m inp (frameStart inp s).player.body.origin
        (frameStart inp s)).1.player.body =
      (playerMovement m inp (atPlayerUpdate m inp s)).player.body := by
  rw [gameplayCommands_fst]
  have hupd : playerUpdate m inp (frameStart inp s).player.body.origin (atPlayerUpdate m inp s) =
      manualReload inp (fireWeapon m inp (frameStart inp s).player.body.origin
        (atFireGate m inp (atPlayerUpdate m inp s))) := by
    unfold playerUpdate
    rw [if_pos ⟨halive, hdialogue⟩]
  rw [hupd]
  have h1 : ∀ t : Game F, (playerDeath t).player.body = t.player.body := by
    intro t
    unfold playerDeath
    split <;> rfl
  rw [h1]
  unfold enemyUpdate atFireGate
  simp

/-- The square of the length of the camera-relative input is that of the input
when sine and cosine of the yaw are on the unit circle. -/
theorem worldMove_lengthSqr (sn cs x z : F) (htrig : sn ^ 2 + cs ^ 2 = 1) :
    (sn * z + -cs * x) * (sn * z + -cs * x) + (0 * z + 0 * x) * (0 * z + 0 * x) +
        (cs * z + sn * x) * (cs * z + sn * x) = x ^ 2 + z ^ 2 := by
  linear_combination (x ^ 2 + z ^ 2) * htrig

/-- The velocity that the movement section leaves, for a player on the ground
or jumping: the command of line 559, and the jump impulse of line 563 on top. -/
theorem playerMovement_velocity (m : LibM F) (inp : FrameInput F) (b : Game F)
    (hst : b.player.state = STATE_ON_GROUND ∨ b.player.state = STATE_JUMPING) :
    (playerMovement m inp b).player.body.linearVelocity =
      ⟨(if (moveInput inp).x ≠ 0 ∨ (moveInput inp).z ≠ 0 then
          (Vector3Normalize m (Vector3Add
            (Vector3Scale ⟨m.sinf b.playerYaw, 0, m.cosf b.playerYaw⟩ (moveInput inp).z)
            (Vector3Scale ⟨-(m.cosf b.playerYaw), 0, m.sinf b.playerYaw⟩
              (moveInput inp).x))).x * 8
          else 0),
        b.player.body.linearVelocity.y +
          (if inp.keySpacePressed = true ∧ b.player.state = STATE_ON_GROUND then 12 else 0),
        (if (moveInput inp).x ≠ 0 ∨ (moveInput inp).z ≠ 0 then
          (Vector3Normalize m (Vector3Add
            (Vector3Scale ⟨m.sinf b.playerYaw, 0, m.cosf b.playerYaw⟩ (moveInput inp).z)
            (Vector3Scale ⟨-(m.cosf b.playerYaw), 0, m.sinf b.playerYaw⟩
              (moveInput inp).x))).z * 8
          else 0)⟩ := by
  unfold playerMovement
  dsimp only
  by_cases hmove : (moveInput inp).x ≠ 0 ∨ (moveInput inp).z ≠ 0 <;>
    by_cases hk : inp.keySpacePressed = true <;>
    by_cases hs : b.player.state = STATE_ON_GROUND <;>
    simp [hmove, hk, hs, hst, Vector3Add] <;>
    simp_all

/-- C16. In a gameplay frame in which the player update runs (the player on the
ground or jumping, not in dialogue), with sine and cosine of the yaw on the
unit circle and `sqrtf` exact at the squared length of the key input: for a
key input other than zero the velocity commanded has horizontal magnitude
exactly 8, along the normalised camera-relative input; for the zero input its
horizontal components are 0; the vertical component is the one the body had,
plus the 12 of the jump impulse when the jump fires in the same frame. -/
theorem player_move_command (m : LibM F) (inp : FrameInput F) (s : Game F)
    (halive : (atPlayerUpdate m inp s).player.state ≠ STATE_DYING)
    (hdialogue : (atPlayerUpdate m inp s).inDialogue = false)
    (htrig : m.sinf (atPlayerUpdate m inp s).playerYaw ^ 2 +
      m.cosf (atPlayerUpdate m inp s).playerYaw ^ 2 = 1)
    (hsqrt : m.sqrtf ((moveInput inp).x ^ 2 + (moveInput inp).z ^ 2) *
        m.sqrtf ((moveInput inp).x ^ 2 + (moveInput inp).z ^ 2) =
      (moveInput inp).x ^ 2 + (moveInput inp).z ^ 2) :
    ((moveInput inp).x ≠ 0 ∨ (moveInput inp).z ≠ 0 →
        (gameplayCommands m inp (frameStart inp s).player.body.origin
            (frameStart inp s)).1.player.body.linearVelocity.x ^ 2 +
          (gameplayCommands m inp (frameStart inp s).player.body.origin
            (frameStart inp s)).1.player.body.linearVelocity.z ^ 2 = 8 ^ 2 ∧
        (gameplayCommands m inp (frameStart inp s).player.body.origin
            (frameStart inp s)).1.player.body.linearVelocity.x =
          (m.sinf (atPlayerUpdate m inp s).playerYaw * (moveInput inp).z -
              m.cosf (atPlayerUpdate m inp s).playerYaw * (moveInput inp).x) /
            m.sqrtf ((moveInput inp).x ^ 2 + (moveInput inp).z ^ 2) * 8 ∧
        (gameplayCommands m inp (frameStart inp s).player.body.origin
            (frameStart inp s)).1.player.body.linearVelocity.z =
          (m.cosf (atPlayerUpdate m inp s).playerYaw * (moveInput inp).z +
              m.sinf (atPlayerUpdate m inp s).playerYaw * (moveInput inp).x) /
            m.sqrtf ((moveInput inp).x ^ 2 + (moveInput inp).z ^ 2) * 8) ∧
      ((moveInput inp).x = 0 ∧ (moveInput inp).z = 0 →
        (gameplayCommands m inp (frameStart inp s).player.body.origin
            (frameStart inp s)).1.player.body.linearVelocity.x = 0 ∧
        (gameplayCommands m inp (frameStart inp s).player.body.origin
            (frameStart inp s)).1.player.body.linearVelocity.z = 0) ∧
      (gameplayCommands m inp (frameStart inp s).player.body.origin
          (frameStart inp s)).1.player.body.linearVelocity.y =
        (atPlayerUpdate m inp s).player.body.linearVelocity.y +
          (if inp.keySpacePressed = true ∧ (atPlayerUpdate m inp s).player.state = STATE_ON_GROUND
            then 12 else 0) := by
  rw [gameplayCommands_player_body m inp s halive hdialogue]
  generalize atPlayerUpdate m inp s = b at halive hdialogue htrig ⊢
  have hst : b.player.state = STATE_ON_GROUND ∨ b.player.state = STATE_JUMPING := by
    cases hb : b.player.state
    · exact Or.inl rfl
    · exact Or.inr rfl
    · exact absurd hb halive
  have harg := worldMove_lengthSqr (m.sinf b.playerYaw) (m.cosf b.playerYaw) (moveInput inp).x
    (moveInput inp).z htrig
  rw [playerMovement_velocity m inp b hst]
  dsimp only
  refine ⟨?_, ?_, rfl⟩
  · intro hmove
    have hpos : (moveInput inp).x ^ 2 + (moveInput inp).z ^ 2 ≠ 0 := by
      rcases hmove with h | h
      · have := pow_pos (abs_pos.mpr h) 2
        rw [sq_abs] at this
        nlinarith [sq_nonneg (moveInput inp).z]
      · have := pow_pos (abs_pos.mpr h) 2
        rw [sq_abs] at this
        nlinarith [sq_nonneg (moveInput inp).x]
    have hL : m.sqrtf ((moveInput inp).x ^ 2 + (moveInput inp).z ^ 2) ≠ 0 := by
      intro h0
      rw [h0, mul_zero] at hsqrt
      exact hpos hsqrt.symm
    rw [if_pos hmove, if_pos hmove]
    unfold Vector3Normalize Vector3Add Vector3Scale
    dsimp only
    rw [harg, if_pos hL]
    dsimp only
    refine ⟨?_, ?_, ?_⟩
    · have e : ((m.sinf b.playerYaw * (moveInput inp).z + -m.cosf b.playerYaw * (moveInput inp).x) *
            (1 / m.sqrtf ((moveInput inp).x ^ 2 + (moveInput inp).z ^ 2)) * 8) ^ 2 +
          ((m.cosf b.playerYaw * (moveInput inp).z + m.sinf b.playerYaw * (moveInput inp).x) *
            (1 / m.sqrtf ((moveInput inp).x ^ 2 + (moveInput inp).z ^ 2)) * 8) ^ 2 =
          8 ^ 2 * (((m.sinf b.playerYaw * (moveInput inp).z +
              -m.cosf b.playerYaw * (moveInput inp).x) *
              (m.sinf b.playerYaw * (moveInput inp).z + -m.cosf b.playerYaw * (moveInput inp).x) +
              (0 * (moveInput inp).z + 0 * (moveInput inp).x) *
                (0 * (moveInput inp).z + 0 * (moveInput inp).x) +
              (m.cosf b.playerYaw * (moveInput inp).z + m.sinf b.playerYaw * (moveInput inp).x) *
                (m.cosf b.playerYaw * (moveInput inp).z +
                  m.sinf b.playerYaw * (moveInput inp).x)) /
            (m.sqrtf ((moveInput inp).x ^ 2 + (moveInput inp).z ^ 2) *
              m.sqrtf ((moveInput inp).x ^ 2 + (moveInput inp).z ^ 2))) := by
        field_simp
        ring
      rw [e, harg, hsqrt, div_self hpos, mul_one]
    · field_simp
      ring
    · field_simp
  · intro hzero
    have hnm : ¬((moveInput inp).x ≠ 0 ∨ (moveInput inp).z ≠ 0) := by
      rw [hzero.1, hzero.2]; simp
    rw [if_neg hnm, if_neg hnm]
    exact ⟨rfl, rfl⟩

/-- C16, witness: the forward key alone, from the initial state. -/
theorem player_move_command_witness :
    ((atPlayerUpdate exampleLibM walkInput exampleGame).player.state = STATE_ON_GROUND ∧
        (atPlayerUpdate exampleLibM walkInput exampleGame).inDialogue = false ∧
        moveInput walkInput = ⟨0, 0, 1⟩) ∧
      (gameplayCommands exampleLibM walkInput (frameStart walkInput exampleGame).player.body.origin
          (frameStart walkInput exampleGame)).1.player.body.linearVelocity.x ^ 2 +
        (gameplayCommands exampleLibM walkInput
          (frameStart walkInput exampleGame).player.body.origin
          (frameStart walkInput exampleGame)).1.player.body.linearVelocity.z ^ 2 = 8 ^ 2 :=
  ⟨by decide!,
    ((player_move_command exampleLibM walkInput exampleGame (by decide!) (by decide!)
      (by decide!) (by decide!)).1 (by decide!)).1⟩

/-! ### C17: the camera behind an occluder -/

/-- C17 (the code's behaviour at the failing input). The camera target is
(0, 2.5, -14), the desired camera position (0, 2.5, -22), and the ray between
them hits the block at `p = (0, 2.5, -18)` with normal `n = (0, 0, 1)`.  The
frame puts the camera at (0, 2.5, -18.2), that is at `p` moved by 0.2 toward
the desired position, inside the block; not at `p + 0.2 n = (0, 2.5, -17.8)`,
and farther from the target than the hit point. -/
theorem camera_placed_behind_hit :
    (frameStart occludedInput occludedGame).gameState = STATE_GAMEPLAY ∧
      (mainLoopBody exampleLibM occludedInput occludedGame).playerCamera.target =
        ⟨0, 5 / 2, -14⟩ ∧
      (mainLoopBody exampleLibM occludedInput occludedGame).playerCamera.position =
        ⟨0, 5 / 2, -(91 / 5)⟩ ∧
      (mainLoopBody exampleLibM occludedInput occludedGame).playerCamera.position ≠
        Vector3Add occluderHit.m_hitPointWorld (Vector3Scale occluderHit.m_hitNormalWorld (2 / 10)) ∧
      Vector3DistanceSqr (mainLoopBody exampleLibM occludedInput occludedGame).playerCamera.target
          occluderHit.m_hitPointWorld <
        Vector3DistanceSqr
          (mainLoopBody exampleLibM occludedInput occludedGame).playerCamera.target
          (mainLoopBody exampleLibM occludedInput occludedGame).playerCamera.position := by
  decide!

/-! ### C14: the ammo -/

/-- A frame in the settings state: the decay of the effects and the menu. -/
theorem mainLoopBody_settings (m : LibM F) (inp : FrameInput F) (s : Game F)
    (hg : (frameStart inp s).gameState = STATE_SETTINGS) :
    mainLoopBody m inp s =
      { frameStart inp s with
        vfx := vfxDecay inp.dt (frameStart inp s).vfx
        settings := inp.settingsMenu (frameStart inp s).settings } := by
  unfold mainLoopBody
  simp [hg]

/-- The editor state leaves the ammo alone. -/
theorem editorState_currentAmmo (m : LibM F) (inp : FrameInput F) (s : Game F) :
    (editorState m inp s).currentAmmo = s.currentAmmo := by
  unfold editorState editorPicking editorTool
  dsimp only
  repeat' split
  all_goals rfl

/-- The ammo after the weapon-fire section: one less after an accepted shot
with infinite ammo off, the same otherwise. -/
theorem fireWeapon_currentAmmo (m : LibM F) (inp : FrameInput F) (pos : Vector3 F) (s : Game F) :
    (fireWeapon m inp pos s).currentAmmo =
      if fireGates inp s ∧ s.currentAmmo > 0 ∧ s.settings.playerInfiniteAmmo = false then
        s.currentAmmo - 1
      else s.currentAmmo := by
  unfold fireWeapon
  by_cases hg : fireGates inp s <;> by_cases ha : s.currentAmmo > 0 <;>
    by_cases hi : s.settings.playerInfiniteAmmo = false <;>
    simp only [hg, ha, hi, if_true, if_false, true_and, and_true, and_false, false_and,
      and_self] <;>
    repeat' split
  all_goals rfl

/-- The ammo after the countdown of the timers: the magazine size or the same. -/
theorem tickWeaponTimers_currentAmmo (inp : FrameInput F) (s : Game F) :
    (tickWeaponTimers inp s).currentAmmo = 30 ∨
      (tickWeaponTimers inp s).currentAmmo = s.currentAmmo := by
  unfold tickWeaponTimers
  dsimp only
  repeat' split
  all_goals first
    | exact Or.inr rfl
    | exact Or.inl rfl

/-- The ammo after the dying branch: the magazine size or the same. -/
theorem playerDying_currentAmmo (inp : FrameInput F) (s : Game F) :
    (playerDying inp s).currentAmmo = 30 ∨ (playerDying inp s).currentAmmo = s.currentAmmo := by
  unfold playerDying
  dsimp only
  split
  · exact Or.inl rfl
  · exact Or.inr rfl

/-- The ammo after the player update: set to the magazine size or not, and then
lowered by one or not, the latter only with infinite ammo off and ammo left. -/
theorem playerUpdate_currentAmmo (m : LibM F) (inp : FrameInput F) (pos : Vector3 F)
    (s : Game F) :
    ∃ a : Int, (a = s.currentAmmo ∨ a = 30) ∧
      ((playerUpdate m inp pos s).currentAmmo = a ∨
        ((playerUpdate m inp pos s).currentAmmo = a - 1 ∧ 0 < a ∧
          s.settings.playerInfiniteAmmo = false)) := by
  unfold playerUpdate
  split
  · rw [manualReload_currentAmmo, fireWeapon_currentAmmo]
    refine ⟨(atFireGate m inp s).currentAmmo, ?_, ?_⟩
    · unfold atFireGate
      rcases tickWeaponTimers_currentAmmo inp (playerMovement m inp s) with h | h
      · exact Or.inr h
      · rw [h]; exact Or.inl rfl
    · split
      · rename_i h
        refine Or.inr ⟨rfl, h.2.1, ?_⟩
        have := h.2.2
        simpa [atFireGate] using this
      · exact Or.inl rfl
  · split
    · rcases playerDying_currentAmmo inp s with h | h
      · exact ⟨30, Or.inr rfl, Or.inl h⟩
      · exact ⟨s.currentAmmo, Or.inl rfl, Or.inl h⟩
    · exact ⟨s.currentAmmo, Or.inl rfl, Or.inl rfl⟩

/-- The ammo over one frame, in any state of the game: set to the magazine
size or not, and then lowered by one or not, the latter only with infinite
ammo off and ammo left. -/
theorem mainLoopBody_currentAmmo (m : LibM F) (inp : FrameInput F) (s : Game F) :
    ∃ a : Int, (a = s.currentAmmo ∨ a = 30) ∧
      ((mainLoopBody m inp s).currentAmmo = a ∨
        ((mainLoopBody m inp s).currentAmmo = a - 1 ∧ 0 < a ∧
          s.settings.playerInfiniteAmmo = false)) := by
  cases hg : (frameStart inp s).gameState
  · obtain ⟨h1, _, _⟩ := mainLoopBody_weapon m inp s hg
    rw [h1]
    obtain ⟨a, ha, hb⟩ := playerUpdate_currentAmmo m inp (frameStart inp s).player.body.origin
      (atPlayerUpdate m inp s)
    have e1 : (atPlayerUpdate m inp s).currentAmmo = s.currentAmmo := by
      simp [atPlayerUpdate, beforePlayerUpdate]
    have e2 : (atPlayerUpdate m inp s).settings = s.settings := (atPlayerUpdate_rest m inp s).2.1
    rw [e1] at ha
    rw [e2] at hb
    exact ⟨a, ha, hb⟩
  · rw [mainLoopBody_settings m inp s hg]
    exact ⟨s.currentAmmo, Or.inl rfl, Or.inl (by simp)⟩
  · rw [mainLoopBody_editor m inp s hg]
    exact ⟨s.currentAmmo, Or.inl rfl, Or.inl (by simp [editorState_currentAmmo])⟩

/-- The ammo after the countdown of the timers: the magazine size exactly when
a running reload reaches 0 in this frame. -/
theorem tickWeaponTimers_currentAmmo_eq (inp : FrameInput F) (s : Game F) :
    (tickWeaponTimers inp s).currentAmmo =
      if 0 < s.reloadTimer ∧ s.reloadTimer - inp.dt ≤ 0 then 30 else s.currentAmmo := by
  unfold tickWeaponTimers
  dsimp only
  by_cases h1 : 0 < s.reloadTimer
  · by_cases h2 : s.reloadTimer - inp.dt ≤ 0
    · simp only [gt_iff_lt, h1, h2, if_true, and_self]
      rfl
    · simp only [gt_iff_lt, h1, h2, if_true, if_false, and_false]
  · simp only [gt_iff_lt, h1, if_false, false_and]

/-- The ammo after the dying branch: the magazine size exactly when the death
timer passes 3 in this frame. -/
theorem playerDying_currentAmmo_eq (inp : FrameInput F) (s : Game F) :
    (playerDying inp s).currentAmmo =
      if 3 < s.playerDeathTimer + inp.dt then 30 else s.currentAmmo := by
  unfold playerDying
  dsimp only
  by_cases h : 3 < s.playerDeathTimer + inp.dt
  · simp only [gt_iff_lt, h, if_true]
    rfl
  · simp only [gt_iff_lt, h, if_false]

/-- The ammo after the player update. -/
theorem playerUpdate_currentAmmo_eq (m : LibM F) (inp : FrameInput F) (pos : Vector3 F)
    (s : Game F) :
    (playerUpdate m inp pos s).currentAmmo =
      if s.player.state ≠ STATE_DYING ∧ s.inDialogue = false then
        if fireGates inp (atFireGate m inp s) ∧
            0 < (if 0 < s.reloadTimer ∧ s.reloadTimer - inp.dt ≤ 0 then 30 else s.currentAmmo) ∧
            s.settings.playerInfiniteAmmo = false then
          (if 0 < s.reloadTimer ∧ s.reloadTimer - inp.dt ≤ 0 then 30 else s.currentAmmo) - 1
        else (if 0 < s.reloadTimer ∧ s.reloadTimer - inp.dt ≤ 0 then 30 else s.currentAmmo)
      else if s.player.state = STATE_DYING ∧ 3 < s.playerDeathTimer + inp.dt then 30
      else s.currentAmmo := by
  have ha : (atFireGate m inp s).currentAmmo =
      if 0 < s.reloadTimer ∧ s.reloadTimer - inp.dt ≤ 0 then 30 else s.currentAmmo := by
    unfold atFireGate
    rw [tickWeaponTimers_currentAmmo_eq]
    rfl
  have hs : (atFireGate m inp s).settings = s.settings := by
    simp [atFireGate]
  unfold playerUpdate
  by_cases h1 : s.player.state ≠ STATE_DYING ∧ s.inDialogue = false
  · rw [if_pos h1, if_pos h1, manualReload_currentAmmo, fireWeapon_currentAmmo, ha, hs]
  · rw [if_neg h1, if_neg h1]
    by_cases h2 : s.player.state = STATE_DYING
    · rw [if_pos h2, playerDying_currentAmmo_eq]
      by_cases h3 : 3 < s.playerDeathTimer + inp.dt
      · rw [if_pos h3, if_pos ⟨h2, h3⟩]
      · rw [if_neg h3, if_neg (fun h => h3 h.2)]
    · rw [if_neg h2, if_neg (fun h => h2 h.1)]

/-- The ammo at the end of a frame, exactly. -/
theorem mainLoopBody_currentAmmo_eq (m : LibM F) (inp : FrameInput F) (s : Game F) :
    (mainLoopBody m inp s).currentAmmo =
      if (frameStart inp s).gameState = STATE_GAMEPLAY then
        if (atPlayerUpdate m inp s).player.state ≠ STATE_DYING ∧
            (atPlayerUpdate m inp s).inDialogue = false then
          if fireGates inp (atFireGate m inp (atPlayerUpdate m inp s)) ∧
              0 < (if 0 < s.reloadTimer ∧ s.reloadTimer - inp.dt ≤ 0 then 30
                else s.currentAmmo) ∧
              s.settings.playerInfiniteAmmo = false then
            (if 0 < s.reloadTimer ∧ s.reloadTimer - inp.dt ≤ 0 then 30 else s.currentAmmo) - 1
          else (if 0 < s.reloadTimer ∧ s.reloadTimer - inp.dt ≤ 0 then 30 else s.currentAmmo)
        else if (atPlayerUpdate m inp s).player.state = STATE_DYING ∧
            3 < s.playerDeathTimer + inp.dt then 30
        else s.currentAmmo
      else s.currentAmmo := by
  have e1 : (atPlayerUpdate m inp s).currentAmmo = s.currentAmmo := by
    simp [atPlayerUpdate, beforePlayerUpdate]
  have e2 : (atPlayerUpdate m inp s).settings = s.settings := (atPlayerUpdate_rest m inp s).2.1
  have e3 : (atPlayerUpdate m inp s).reloadTimer = s.reloadTimer := by
    simp [atPlayerUpdate, beforePlayerUpdate]
  have e4 : (atPlayerUpdate m inp s).playerDeathTimer = s.playerDeathTimer :=
    (atPlayerUpdate_rest m inp s).1
  cases hg : (frameStart inp s).gameState
  · rw [if_pos rfl, (mainLoopBody_weapon m inp s hg).1, playerUpdate_currentAmmo_eq, e1, e2, e3,
      e4]
  · rw [if_neg (by decide), mainLoopBody_settings m inp s hg]
    simp
  · rw [if_neg (by decide), mainLoopBody_editor m inp s hg]
    simp [editorState_currentAmmo]

/-- C14. The ammo range: the ammo is 30 in the initial state; every frame keeps
it in [0, 30]; so it is in [0, 30] after every sequence of frames from the
initial state.  The weapon-fire section lowers it by exactly 1 on an accepted
shot (gates passed, ammo above 0) with infinite ammo off and leaves it alone
otherwise, also on a shot with infinite ammo on.  The countdown of the timers
sets it to 30 exactly when a running reload reaches 0 in the frame, and the
dying branch exactly when the death timer passes 3 (the respawn); both leave it
alone otherwise.  And the ammo at the end of a frame is exactly this: outside
the gameplay state, what it was; for a player who is dying at line 525, 30 on
the respawn and what it was otherwise; for a living player in dialogue, what it
was; else 30 if the reload completes in the frame and what it was if not, less
one round if the shot of the frame is accepted with infinite ammo off. -/
theorem ammo_range (m : LibM F) :
    (∀ rand : Nat → Nat, (initialGame m rand).currentAmmo = 30) ∧
      (∀ (inp : FrameInput F) (s : Game F), 0 ≤ s.currentAmmo ∧ s.currentAmmo ≤ 30 →
        0 ≤ (mainLoopBody m inp s).currentAmmo ∧ (mainLoopBody m inp s).currentAmmo ≤ 30) ∧
      (∀ (rand : Nat → Nat) (inputs : List (FrameInput F)),
        0 ≤ (runFrames m inputs (initialGame m rand)).currentAmmo ∧
          (runFrames m inputs (initialGame m rand)).currentAmmo ≤ 30) ∧
      (∀ (inp : FrameInput F) (pos : Vector3 F) (s : Game F),
        (fireWeapon m inp pos s).currentAmmo =
          if fireGates inp s ∧ s.currentAmmo > 0 ∧ s.settings.playerInfiniteAmmo = false then
            s.currentAmmo - 1
          else s.currentAmmo) ∧
      (∀ (inp : FrameInput F) (s : Game F),
        (tickWeaponTimers inp s).currentAmmo =
          if 0 < s.reloadTimer ∧ s.reloadTimer - inp.dt ≤ 0 then 30 else s.currentAmmo) ∧
      (∀ (inp : FrameInput F) (s : Game F),
        (playerDying inp s).currentAmmo =
          if 3 < s.playerDeathTimer + inp.dt then 30 else s.currentAmmo) ∧
      (∀ (inp : FrameInput F) (s : Game F),
        (mainLoopBody m inp s).currentAmmo =
          if (frameStart inp s).gameState = STATE_GAMEPLAY then
            if (atPlayerUpdate m inp s).player.state ≠ STATE_DYING ∧
                (atPlayerUpdate m inp s).inDialogue = false then
              if fireGates inp (atFireGate m inp (atPlayerUpdate m inp s)) ∧
                  0 < (if 0 < s.reloadTimer ∧ s.reloadTimer - inp.dt ≤ 0 then 30
                    else s.currentAmmo) ∧
                  s.settings.playerInfiniteAmmo = false then
                (if 0 < s.reloadTimer ∧ s.reloadTimer - inp.dt ≤ 0 then 30
                  else s.currentAmmo) - 1
              else (if 0 < s.reloadTimer ∧ s.reloadTimer - inp.dt ≤ 0 then 30
                else s.currentAmmo)
            else if (atPlayerUpdate m inp s).player.state = STATE_DYING ∧
                3 < s.playerDeathTimer + inp.dt then 30
            else s.currentAmmo
          else s.currentAmmo) := by
  have hinit : ∀ rand : Nat → Nat, (initialGame m rand).currentAmmo = 30 := by
    intro rand
    simp [initialGame, CreateShooterArena, CreateStaticBox, CreateEnemy, magazineSize]
  have hstep : ∀ (inp : FrameInput F) (s : Game F), 0 ≤ s.currentAmmo ∧ s.currentAmmo ≤ 30 →
      0 ≤ (mainLoopBody m inp s).currentAmmo ∧ (mainLoopBody m inp s).currentAmmo ≤ 30 := by
    intro inp s hs
    obtain ⟨a, ha, hb⟩ := mainLoopBody_currentAmmo m inp s
    rcases ha with rfl | rfl <;> rcases hb with h | ⟨h, h0, _⟩ <;> rw [h] <;> omega
  refine ⟨hinit, hstep, ?_, fireWeapon_currentAmmo m, tickWeaponTimers_currentAmmo_eq,
    playerDying_currentAmmo_eq, mainLoopBody_currentAmmo_eq m⟩
  intro rand inputs
  have hrun : ∀ (inputs : List (FrameInput F)) (s : Game F),
      0 ≤ s.currentAmmo ∧ s.currentAmmo ≤ 30 →
      0 ≤ (runFrames m inputs s).currentAmmo ∧ (runFrames m inputs s).currentAmmo ≤ 30 := by
    intro inputs
    induction inputs with
    | nil => intro s hs; exact hs
    | cons inp rest ih => intro s hs; exact ih _ (hstep inp s hs)
  exact hrun inputs _ (by rw [hinit]; omega)

/-- C14, on examples.  From a full magazine the frame of the shot leaves 29
rounds, within [0, 30].  With infinite ammo on the shot leaves the 7 rounds
there were.  An empty magazine whose reload has 1/100 second left is full after
a frame of 1/60 second, and still empty when the reload has one second left.
A frame without a shot leaves the one round there was.  The respawn of the
player fills a magazine of 5 rounds. -/
theorem ammo_range_witness :
    ((0 ≤ exampleGame.currentAmmo ∧ exampleGame.currentAmmo ≤ 30) ∧
        0 ≤ (mainLoopBody exampleLibM shotInput exampleGame).currentAmmo ∧
        (mainLoopBody exampleLibM shotInput exampleGame).currentAmmo ≤ 30) ∧
      (mainLoopBody exampleLibM shotInput exampleGame).currentAmmo = 29 ∧
      (infiniteAmmoGame.currentAmmo = 7 ∧
        (mainLoopBody exampleLibM shotInput infiniteAmmoGame).currentAmmo = 7 ∧
        (mainLoopBody exampleLibM shotInput infiniteAmmoGame).fireTimer = 1 / 10) ∧
      (reloadingGame.currentAmmo = 0 ∧
        (mainLoopBody exampleLibM (idleInput (1 / 60)) reloadingGame).currentAmmo = 30) ∧
      (midReloadGame.currentAmmo = 0 ∧
        (mainLoopBody exampleLibM (idleInput (1 / 60)) midReloadGame).currentAmmo = 0) ∧
      (lastRoundGame.currentAmmo = 1 ∧
        (mainLoopBody exampleLibM (idleInput (1 / 60)) lastRoundGame).currentAmmo = 1) ∧
      (respawnAmmoGame.currentAmmo = 5 ∧
        (mainLoopBody exampleLibM (idleInput (1 / 60)) respawnAmmoGame).currentAmmo = 30) :=
  ⟨⟨by decide!, (ammo_range exampleLibM).2.1 shotInput exampleGame (by decide!)⟩,
    ((ammo_range exampleLibM).2.2.2.2.2.2 shotInput exampleGame).trans (by decide!),
    ⟨by decide!,
      ((ammo_range exampleLibM).2.2.2.2.2.2 shotInput infiniteAmmoGame).trans (by decide!),
      by decide!⟩,
    ⟨by decide!,
      ((ammo_range exampleLibM).2.2.2.2.2.2 (idleInput (1 / 60)) reloadingGame).trans
        (by decide!)⟩,
    ⟨by decide!,
      ((ammo_range exampleLibM).2.2.2.2.2.2 (idleInput (1 / 60)) midReloadGame).trans
        (by decide!)⟩,
    ⟨by decide!,
      ((ammo_range exampleLibM).2.2.2.2.2.2 (idleInput (1 / 60)) lastRoundGame).trans
        (by decide!)⟩,
    ⟨by decide!,
      ((ammo_range exampleLibM).2.2.2.2.2.2 (idleInput (1 / 60)) respawnAmmoGame).trans
        (by decide!)⟩⟩

/-! ### The enemies through a frame -/

/-- Two relations that hold along three lists compose. -/
theorem forall₂_comp {α : Type} {R1 R2 R3 : α → α → Prop}
    (h : ∀ x y z, R1 x y → R2 y z → R3 x z) :
    ∀ {a b c : List α}, List.Forall₂ R1 a b → List.Forall₂ R2 b c → List.Forall₂ R3 a c := by
  intro a b c h1
  induction h1 generalizing c with
  | nil => intro h2; cases h2; exact List.Forall₂.nil
  | cons hxy _ ih =>
    intro h2
    cases h2 with
    | cons hyz hrest => exact List.Forall₂.cons (h _ _ _ hxy hyz) (ih hrest)

/-- A write through an enemy pointer relates the lists by what it does to one enemy. -/
theorem forall₂_modifyEnemy (R : Enemy F → Enemy F → Prop) (h : Nat) (f : Enemy F → Enemy F)
    (enemies : List (Enemy F)) (hrefl : ∀ e, R e e) (hf : ∀ e, R e (f e)) :
    List.Forall₂ R enemies (modifyEnemy h f enemies) := by
  unfold modifyEnemy
  rw [List.forall₂_map_right_iff]
  apply List.forall₂_same.mpr
  intro e _
  split
  · exact hf e
  · exact hrefl e

theorem enemyKeeps_refl (e : Enemy F) : EnemyKeeps e e := ⟨rfl, rfl, rfl, rfl, rfl, rfl⟩

theorem enemyShot_refl (e : Enemy F) : EnemyShot e e := ⟨rfl, rfl, rfl, rfl, rfl, Or.inl rfl⟩

/-- A list is related to itself by a reflexive relation. -/
theorem forall₂_refl {α : Type} {R : α → α → Prop} (hrefl : ∀ x, R x x) (l : List α) :
    List.Forall₂ R l l :=
  List.forall₂_same.mpr fun x _ => hrefl x

/-- The dialogue toggle keeps the enemies but for the facing of the partner. -/
theorem handleDialogue_enemies_keep (m : LibM F) (inp : FrameInput F) (pos : Vector3 F)
    (s : Game F) : List.Forall₂ EnemyKeeps s.enemies (handleDialogue m inp pos s).enemies := by
  unfold handleDialogue
  repeat' split
  all_goals first
    | exact forall₂_refl enemyKeeps_refl _
    | exact forall₂_modifyEnemy _ _ _ _ enemyKeeps_refl fun e => ⟨rfl, rfl, rfl, rfl, rfl, rfl⟩

/-- The freeze of the dialogue keeps the enemies but for the motion of the partner. -/
theorem freezeParticipants_enemies_keep (s : Game F) :
    List.Forall₂ EnemyKeeps s.enemies (freezeParticipants s).enemies := by
  unfold freezeParticipants
  repeat' split
  all_goals first
    | exact forall₂_refl enemyKeeps_refl _
    | exact forall₂_modifyEnemy _ _ _ _ enemyKeeps_refl fun e => ⟨rfl, rfl, rfl, rfl, rfl, rfl⟩

/-- The frame up to the player update keeps the enemies. -/
theorem beforePlayerUpdate_enemies_keep (m : LibM F) (inp : FrameInput F) (pos : Vector3 F)
    (s : Game F) :
    List.Forall₂ EnemyKeeps s.enemies (beforePlayerUpdate m inp pos s).enemies := by
  unfold beforePlayerUpdate
  dsimp only
  have h1 := handleDialogue_enemies_keep m inp pos (groundCheck inp (playerCameraControl m inp s))
  have h2 := freezeParticipants_enemies_keep
    (handleDialogue m inp pos (groundCheck inp (playerCameraControl m inp s)))
  rw [groundCheck_enemies, playerCameraControl_enemies] at h1
  exact forall₂_comp (fun x y z hxy hyz =>
    ⟨hyz.1.trans hxy.1, hyz.2.1.trans hxy.2.1, hyz.2.2.1.trans hxy.2.2.1,
      hyz.2.2.2.1.trans hxy.2.2.2.1, hyz.2.2.2.2.1.trans hxy.2.2.2.2.1,
      hyz.2.2.2.2.2.trans hxy.2.2.2.2.2⟩) h1 h2

/-- The weapon-fire section keeps the enemies but for the one the shot hits. -/
theorem fireWeapon_enemies_shot (m : LibM F) (inp : FrameInput F) (pos : Vector3 F)
    (s : Game F) : List.Forall₂ EnemyShot s.enemies (fireWeapon m inp pos s).enemies := by
  unfold fireWeapon
  dsimp only
  repeat' split
  all_goals first
    | exact forall₂_refl enemyShot_refl _
    | exact forall₂_modifyEnemy _ _ _ _ enemyShot_refl fun e => by
        unfold bulletDamage
        split
        · rename_i h
          exact ⟨rfl, rfl, rfl, rfl, rfl, Or.inr ⟨h, rfl⟩⟩
        · exact enemyShot_refl e

/-- The player update keeps the enemies but for the one the shot hits. -/
theorem playerUpdate_enemies_shot (m : LibM F) (inp : FrameInput F) (pos : Vector3 F)
    (s : Game F) : List.Forall₂ EnemyShot s.enemies (playerUpdate m inp pos s).enemies := by
  unfold playerUpdate atFireGate
  repeat' split
  · rw [manualReload_enemies]
    have h := fireWeapon_enemies_shot m inp pos (tickWeaponTimers inp (playerMovement m inp s))
    rw [tickWeaponTimers_enemies, playerMovement_enemies] at h
    exact h
  · rw [playerDying_enemies]
    exact forall₂_refl enemyShot_refl _
  · exact forall₂_refl enemyShot_refl _

/-- The wander behavior keeps the health, the life state and the body's flags. -/
theorem enemyWander_enemy (m : LibM F) (inp : FrameInput F) (enemySpeed animationTimer : F)
    (acc : EnemyLoop) (enemy : Enemy F) :
    EnemyKeeps enemy (enemyWander m inp enemySpeed animationTimer acc enemy).1 := by
  unfold enemyWander
  dsimp only
  split_ifs <;> exact ⟨rfl, rfl, rfl, rfl, rfl, rfl⟩

/-- The attack behavior keeps the health, the life state and the body's flags. -/
theorem enemyAttack_enemy (m : LibM F) (inp : FrameInput F) (settings : GameSettings F)
    (playerPos : Vector3 F) (enemySpeed animationTimer : F) (acc : EnemyLoop) (enemy : Enemy F) :
    EnemyKeeps enemy
      (enemyAttack m inp settings playerPos enemySpeed animationTimer acc enemy).1 := by
  unfold enemyAttack
  dsimp only
  split_ifs <;> exact ⟨rfl, rfl, rfl, rfl, rfl, rfl⟩

/-- One pass of the enemy loop, on the enemy. -/
theorem updateEnemy_enemy (m : LibM F) (inp : FrameInput F)
    (settings : GameSettings F) (playerState : CharacterState) (playerPos : Vector3 F)
    (inDialogue : Bool) (dialoguePartner : Option Nat) (acc : EnemyLoop) (enemy : Enemy F) :
    EnemyTick inp.dt enemy
      (updateEnemy m inp settings playerState playerPos inDialogue dialoguePartner acc
        enemy).1 := by
  have hkeep : ∀ e' : Enemy F, EnemyKeeps enemy e' → enemy.state ≠ STATE_DYING →
      ¬enemy.health ≤ 0 → EnemyTick inp.dt enemy e' := by
    intro e' hk h1 h2
    obtain ⟨k1, k2, k3, k4, k5, k6⟩ := hk
    exact ⟨k1, k4, k3, fun h => absurd h h1, fun _ => ⟨k6, fun h => absurd h h2, fun _ => ⟨k5, k2⟩⟩⟩
  unfold updateEnemy
  dsimp only
  by_cases h1 : enemy.state = STATE_DYING
  · rw [if_pos h1]
    exact ⟨rfl, rfl, rfl, fun _ => ⟨h1, rfl, rfl⟩, fun h => absurd h1 h⟩
  rw [if_neg h1]
  by_cases h2 : enemy.health ≤ 0
  · rw [if_pos h2]
    exact ⟨rfl, rfl, rfl, fun h => absurd h h1,
      fun _ => ⟨rfl, fun _ => ⟨rfl, rfl⟩, fun h => absurd h2 (not_le.mpr h)⟩⟩
  rw [if_neg h2]
  by_cases h3 : inDialogue = true ∧ dialoguePartner = some enemy.body.handle
  · rw [if_pos h3]
    exact hkeep _ (enemyKeeps_refl enemy) h1 h2
  rw [if_neg h3]
  by_cases h4 : settings.enemiesFrozen = false
  · rw [if_pos h4]
    by_cases h5 : settings.enemiesAttack = true ∧ playerState ≠ STATE_DYING
    · rw [if_pos h5]
      exact hkeep _ (enemyAttack_enemy m inp settings playerPos _ _ acc enemy) h1 h2
    · rw [if_neg h5]
      exact hkeep _ (enemyWander_enemy m inp _ _ acc enemy) h1 h2
  · rw [if_neg h4]
    exact hkeep _ ⟨rfl, rfl, rfl, rfl, rfl, rfl⟩ h1 h2

/-- The enemy loop, on the enemies. -/
theorem enemyLoop_enemies (m : LibM F) (inp : FrameInput F)
    (settings : GameSettings F) (playerState : CharacterState) (playerPos : Vector3 F)
    (inDialogue : Bool) (dialoguePartner : Option Nat) (enemies : List (Enemy F)) :
    ∀ acc : EnemyLoop, List.Forall₂ (EnemyTick inp.dt) enemies
      (enemyLoop m inp settings playerState playerPos inDialogue dialoguePartner enemies
        acc).1 := by
  induction enemies with
  | nil => intro acc; exact List.Forall₂.nil
  | cons e rest ih =>
    intro acc
    unfold enemyLoop
    dsimp only
    exact List.Forall₂.cons (updateEnemy_enemy m inp settings playerState playerPos inDialogue
      dialoguePartner acc e) (ih _)

/-- The physics step keeps the enemies but for their place and their velocity. -/
theorem stepSimulation_enemies_keep (inp : FrameInput F) (s : Game F) :
    List.Forall₂ EnemyKeeps s.enemies (stepSimulation inp s).enemies := by
  unfold stepSimulation
  dsimp only
  rw [List.forall₂_map_right_iff]
  exact List.forall₂_same.mpr fun e _ => ⟨rfl, rfl, rfl, rfl, rfl, rfl⟩

/-- The shot and then the enemy loop make a frame of an enemy. -/
theorem enemyFrame_of_steps (dt : F) (a b c d e : Enemy F) (h1 : EnemyKeeps a b)
    (h2 : EnemyShot b c) (h3 : EnemyTick dt c d) (h4 : EnemyKeeps d e) : EnemyFrame dt a e := by
  obtain ⟨a1, a2, a3, a4, a5, a6⟩ := h1
  obtain ⟨b1, b2, b3, b4, b5, b6⟩ := h2
  obtain ⟨c1, c2, c3, c4, c5⟩ := h3
  obtain ⟨d1, d2, d3, d4, d5, d6⟩ := h4
  have hcs : c.state = a.state := b4.trans a5
  refine ⟨by rw [d1, c1, b1, a1], by rw [d4, c2, b3, a4], ?_, ?_⟩
  · intro ha
    have hc : c.state = STATE_DYING := hcs.trans ha
    obtain ⟨t1, t2, t3⟩ := c4 hc
    have hb : b.state = STATE_DYING := a5.trans ha
    have hh : c.health = b.health := by
      rcases b6 with h | ⟨h, _⟩
      · exact h
      · exact absurd hb h
    exact ⟨d5.trans t1, by rw [d3, c3, hh, a3], by rw [d6, t2, b5, a6], by rw [d2, t3, b2, a2]⟩
  · intro ha
    have hc : c.state ≠ STATE_DYING := fun h => ha (hcs ▸ h)
    obtain ⟨t1, t2, t3⟩ := c5 hc
    have hh : e.health = c.health := d3.trans c3
    refine ⟨?_, by rw [d6, t1, b5, a6], ?_, ?_⟩
    · rw [hh]
      rcases b6 with h | ⟨_, h⟩
      · exact Or.inl (h.trans a3)
      · exact Or.inr (by rw [h, a3])
    · intro h
      rw [hh] at h
      obtain ⟨u1, u2⟩ := t2 h
      exact ⟨d5.trans u1, d2.trans u2⟩
    · intro h
      rw [hh] at h
      obtain ⟨u1, u2⟩ := t3 h
      exact ⟨by rw [d5, u1, hcs], by rw [d2, u2, b2, a2]⟩

/-- The enemies that a gameplay frame hands to the respawn and the reap pass:
each enemy of the state the frame starts from, after the shot and the enemy loop. -/
theorem afterStep_enemies (m : LibM F) (inp : FrameInput F) (s : Game F) :
    List.Forall₂ (EnemyFrame inp.dt) s.enemies
      (stepSimulation inp (gameplayCommands m inp (frameStart inp s).player.body.origin
        (frameStart inp s)).1).enemies := by
  rw [gameplayCommands_fst]
  have h1 := beforePlayerUpdate_enemies_keep m inp (frameStart inp s).player.body.origin
    (frameStart inp s)
  rw [frameStart_enemies] at h1
  have h2 := playerUpdate_enemies_shot m inp (frameStart inp s).player.body.origin
    (atPlayerUpdate m inp s)
  have h3 : List.Forall₂ (EnemyTick inp.dt)
      (playerUpdate m inp (frameStart inp s).player.body.origin (atPlayerUpdate m inp s)).enemies
      (playerDeath (enemyUpdate m inp (frameStart inp s).player.body.origin
        (playerUpdate m inp (frameStart inp s).player.body.origin
          (atPlayerUpdate m inp s))).1).enemies := by
    rw [playerDeath_enemies]
    unfold enemyUpdate
    dsimp only
    exact enemyLoop_enemies m inp _ _ _ _ _ _ _
  have h4 := stepSimulation_enemies_keep inp
    (playerDeath (enemyUpdate m inp (frameStart inp s).player.body.origin
      (playerUpdate m inp (frameStart inp s).player.body.origin (atPlayerUpdate m inp s))).1)
  have h12 : List.Forall₂ (fun a c => ∃ b, EnemyKeeps a b ∧ EnemyShot b c) s.enemies
      (playerUpdate m inp (frameStart inp s).player.body.origin
        (atPlayerUpdate m inp s)).enemies :=
    forall₂_comp (fun x y z hxy hyz => ⟨y, hxy, hyz⟩) h1 h2
  have h34 : List.Forall₂ (fun c e => ∃ d, EnemyTick inp.dt c d ∧ EnemyKeeps d e)
      (playerUpdate m inp (frameStart inp s).player.body.origin (atPlayerUpdate m inp s)).enemies
      (stepSimulation inp
        (playerDeath (enemyUpdate m inp (frameStart inp s).player.body.origin
          (playerUpdate m inp (frameStart inp s).player.body.origin
            (atPlayerUpdate m inp s))).1)).enemies :=
    forall₂_comp (fun x y z hxy hyz => ⟨y, hxy, hyz⟩) h3 h4
  exact forall₂_comp (fun x y z hxy hyz => by
    obtain ⟨b, hb1, hb2⟩ := hxy
    obtain ⟨d, hd1, hd2⟩ := hyz
    exact enemyFrame_of_steps inp.dt x b y d z hb1 hb2 hd1 hd2) h12 h34

/-! ### The bodies and the handles through the sections of a frame -/

@[simp]
theorem frameStart_nextHandle (inp : FrameInput F) (s : Game F) :
    (frameStart inp s).nextHandle = s.nextHandle := by
  unfold frameStart stateSwitching
  repeat' split
  all_goals rfl

@[simp]
theorem frameStart_playerHandle (inp : FrameInput F) (s : Game F) :
    (frameStart inp s).player.body.handle = s.player.body.handle := by
  unfold frameStart stateSwitching
  repeat' split
  all_goals rfl

@[simp]
theorem playerCameraControl_nextHandle (m : LibM F) (inp : FrameInput F) (s : Game F) :
    (playerCameraControl m inp s).nextHandle = s.nextHandle := by
  unfold playerCameraControl
  dsimp only
  repeat' split
  all_goals rfl

@[simp]
theorem playerCameraControl_playerHandle (m : LibM F) (inp : FrameInput F) (s : Game F) :
    (playerCameraControl m inp s).player.body.handle = s.player.body.handle := by
  unfold playerCameraControl
  dsimp only
  repeat' split
  all_goals rfl

@[simp]
theorem groundCheck_nextHandle (inp : FrameInput F) (s : Game F) :
    (groundCheck inp s).nextHandle = s.nextHandle := by
  unfold groundCheck
  dsimp only
  repeat' split
  all_goals rfl

@[simp]
theorem groundCheck_playerHandle (inp : FrameInput F) (s : Game F) :
    (groundCheck inp s).player.body.handle = s.player.body.handle := by
  unfold groundCheck
  dsimp only
  repeat' split
  all_goals rfl

@[simp]
theorem handleDialogue_nextHandle (m : LibM F) (inp : FrameInput F) (pos : Vector3 F) (s : Game F) :
    (handleDialogue m inp pos s).nextHandle = s.nextHandle := by
  unfold handleDialogue
  dsimp only
  repeat' split
  all_goals rfl

@[simp]
theorem handleDialogue_playerHandle (m : LibM F) (inp : FrameInput F) (pos : Vector3 F) (s : Game F) :
    (handleDialogue m inp pos s).player.body.handle = s.player.body.handle := by
  unfold handleDialogue
  dsimp only
  repeat' split
  all_goals rfl

@[simp]
theorem freezeParticipants_nextHandle (s : Game F) :
    (freezeParticipants s).nextHandle = s.nextHandle := by
  unfold freezeParticipants
  dsimp only
  repeat' split
  all_goals rfl

@[simp]
theorem freezeParticipants_playerHandle (s : Game F) :
    (freezeParticipants s).player.body.handle = s.player.body.handle := by
  unfold freezeParticipants
  dsimp only
  repeat' split
  all_goals rfl

@[simp]
theorem playerMovement_nextHandle (m : LibM F) (inp : FrameInput F) (s : Game F) :
    (playerMovement m inp s).nextHandle = s.nextHandle := rfl

@[simp]
theorem playerMovement_playerHandle (m : LibM F) (inp : FrameInput F) (s : Game F) :
    (playerMovement m inp s).player.body.handle = s.player.body.handle := rfl

@[simp]
theorem tickWeaponTimers_nextHandle (inp : FrameInput F) (s : Game F) :
    (tickWeaponTimers inp s).nextHandle = s.nextHandle := by
  unfold tickWeaponTimers
  dsimp only
  repeat' split
  all_goals rfl

@[simp]
theorem tickWeaponTimers_playerHandle (inp : FrameInput F) (s : Game F) :
    (tickWeaponTimers inp s).player.body.handle = s.player.body.handle := by
  unfold tickWeaponTimers
  dsimp only
  repeat' split
  all_goals rfl

@[simp]
theorem fireWeapon_nextHandle (m : LibM F) (inp : FrameInput F) (pos : Vector3 F) (s : Game F) :
    (fireWeapon m inp pos s).nextHandle = s.nextHandle := by
  unfold fireWeapon
  dsimp only
  repeat' split
  all_goals rfl

@[simp]
theorem fireWeapon_playerHandle (m : LibM F) (inp : FrameInput F) (pos : Vector3 F) (s : Game F) :
    (fireWeapon m inp pos s).player.body.handle = s.player.body.handle := by
  unfold fireWeapon
  dsimp only
  repeat' split
  all_goals rfl

@[simp]
theorem manualReload_nextHandle (inp : FrameInput F) (s : Game F) :
    (manualReload inp s).nextHandle = s.nextHandle := by
  unfold manualReload
  split <;> rfl

@[simp]
theorem manualReload_playerHandle (inp : FrameInput F) (s : Game F) :
    (manualReload inp s).player.body.handle = s.player.body.handle := by
  unfold manualReload
  split <;> rfl

@[simp]
theorem playerDying_nextHandle (inp : FrameInput F) (s : Game F) :
    (playerDying inp s).nextHandle = s.nextHandle := by
  unfold playerDying
  dsimp only
  split <;> rfl

@[simp]
theorem playerDying_playerHandle (inp : FrameInput F) (s : Game F) :
    (playerDying inp s).player.body.handle = s.player.body.handle := by
  unfold playerDying
  dsimp only
  split <;> rfl

@[simp]
theorem enemyUpdate_nextHandle (m : LibM F) (inp : FrameInput F) (pos : Vector3 F) (s : Game F) :
    ((enemyUpdate m inp pos s).1).nextHandle = s.nextHandle := rfl

@[simp]
theorem enemyUpdate_playerHandle (m : LibM F) (inp : FrameInput F) (pos : Vector3 F) (s : Game F) :
    ((enemyUpdate m inp pos s).1).player.body.handle = s.player.body.handle := rfl

@[simp]
theorem playerDeath_nextHandle (s : Game F) :
    (playerDeath s).nextHandle = s.nextHandle := by
  unfold playerDeath
  split <;> rfl

@[simp]
theorem playerDeath_playerHandle (s : Game F) :
    (playerDeath s).player.body.handle = s.player.body.handle := by
  unfold playerDeath
  split <;> rfl

@[simp]
theorem stepSimulation_nextHandle (inp : FrameInput F) (s : Game F) :
    (stepSimulation inp s).nextHandle = s.nextHandle := rfl

@[simp]
theorem stepSimulation_playerHandle (inp : FrameInput F) (s : Game F) :
    (stepSimulation inp s).player.body.handle = s.player.body.handle := rfl

@[simp]
theorem cameraRig_nextHandle (m : LibM F) (inp : FrameInput F) (pos : Vector3 F) (s : Game F) :
    (cameraRig m inp pos s).nextHandle = s.nextHandle := rfl

@[simp]
theorem cameraRig_playerHandle (m : LibM F) (inp : FrameInput F) (pos : Vector3 F) (s : Game F) :
    (cameraRig m inp pos s).player.body.handle = s.player.body.handle := rfl

/-- The player update keeps the blocks, the world, the handles and the body of the player. -/
theorem playerUpdate_world (m : LibM F) (inp : FrameInput F) (pos : Vector3 F) (s : Game F) :
    (playerUpdate m inp pos s).worldBlocks = s.worldBlocks ∧
      (playerUpdate m inp pos s).dynamicsWorld = s.dynamicsWorld ∧
      (playerUpdate m inp pos s).nextHandle = s.nextHandle ∧
      (playerUpdate m inp pos s).player.body.handle = s.player.body.handle := by
  unfold playerUpdate atFireGate
  repeat' split
  all_goals simp

/-- The state after the physics step has the blocks, the world, the next handle
and the player's body of the state the frame starts from. -/
theorem afterStep_world (m : LibM F) (inp : FrameInput F) (s : Game F) :
    (stepSimulation inp (gameplayCommands m inp (frameStart inp s).player.body.origin
        (frameStart inp s)).1).worldBlocks = s.worldBlocks ∧
      (stepSimulation inp (gameplayCommands m inp (frameStart inp s).player.body.origin
        (frameStart inp s)).1).dynamicsWorld = s.dynamicsWorld ∧
      (stepSimulation inp (gameplayCommands m inp (frameStart inp s).player.body.origin
        (frameStart inp s)).1).nextHandle = s.nextHandle ∧
      (stepSimulation inp (gameplayCommands m inp (frameStart inp s).player.body.origin
        (frameStart inp s)).1).player.body.handle = s.player.body.handle := by
  rw [gameplayCommands_fst]
  have hp := fun pos => playerUpdate_world m inp pos (atPlayerUpdate m inp s)
  have e1 : (atPlayerUpdate m inp s).worldBlocks = s.worldBlocks := by
    simp [atPlayerUpdate, beforePlayerUpdate]
  have e2 : (atPlayerUpdate m inp s).dynamicsWorld = s.dynamicsWorld := by
    simp [atPlayerUpdate, beforePlayerUpdate]
  have e3 : (atPlayerUpdate m inp s).nextHandle = s.nextHandle := by
    simp [atPlayerUpdate, beforePlayerUpdate]
  have e4 : (atPlayerUpdate m inp s).player.body.handle = s.player.body.handle := by
    simp [atPlayerUpdate, beforePlayerUpdate]
  refine ⟨?_, ?_, ?_, ?_⟩
  · simp [(hp _).1, e1]
  · simp [(hp _).2.1, e2]
  · simp [(hp _).2.2.1, e3]
  · simp [(hp _).2.2.2, e4]

/-! ### C11: the world and the entities -/

/-- The consistency of the world reads only the handles of the entities, the
world and the next handle. -/
theorem worldConsistent_congr (s t : Game F)
    (h1 : t.enemies.map (fun e => e.body.handle) = s.enemies.map (fun e => e.body.handle))
    (h2 : t.worldBlocks = s.worldBlocks) (h3 : t.player.body.handle = s.player.body.handle)
    (h4 : t.dynamicsWorld = s.dynamicsWorld) (h5 : t.nextHandle = s.nextHandle)
    (h : WorldConsistent s) : WorldConsistent t := by
  have he : entityBodies t = entityBodies s := by
    unfold entityBodies
    rw [h1, h2, h3]
  unfold WorldConsistent
  rw [he, h4, h5]
  exact h

/-- A new body, registered and owned by a new entity, keeps the world consistent. -/
theorem worldConsistent_add (s t : Game F)
    (h1 : (entityBodies t).Perm (s.nextHandle :: entityBodies s))
    (h2 : t.dynamicsWorld = s.dynamicsWorld ++ [s.nextHandle])
    (h3 : t.nextHandle = s.nextHandle + 1)
    (h : WorldConsistent s) : WorldConsistent t := by
  obtain ⟨hp, hn, hb⟩ := h
  refine ⟨?_, ?_, ?_⟩
  · rw [h2]
    refine List.Perm.trans ?_ h1.symm
    refine List.Perm.trans (List.perm_append_singleton _ _) ?_
    exact List.Perm.cons _ hp
  · rw [List.Perm.nodup_iff h1, List.nodup_cons]
    exact ⟨fun hmem => lt_irrefl _ (hb _ hmem), hn⟩
  · intro h hmem
    rw [h3]
    rcases List.mem_cons.mp (h1.subset hmem) with rfl | hmem'
    · exact Nat.lt_succ_self _
    · exact Nat.lt_succ_of_lt (hb h hmem')

/-- Entities that go, each with its body unregistered, leave the world consistent. -/
theorem worldConsistent_remove (s t : Game F)
    (h1 : t.dynamicsWorld.Perm (entityBodies t))
    (h2 : (entityBodies t).Sublist (entityBodies s))
    (h3 : t.nextHandle = s.nextHandle)
    (h : WorldConsistent s) : WorldConsistent t := by
  obtain ⟨_, hn, hb⟩ := h
  refine ⟨h1, hn.sublist h2, ?_⟩
  intro h hmem
  rw [h3]
  exact hb h (h2.subset hmem)

/-- The function `CreateStaticBox` keeps the world consistent. -/
theorem CreateStaticBox_consistent (position size : Vector3 F) (color : Color) (s : Game F)
    (h : WorldConsistent s) : WorldConsistent (CreateStaticBox position size color s) := by
  refine worldConsistent_add s _ ?_ rfl rfl h
  unfold entityBodies CreateStaticBox
  simp only [List.map_append, List.map_cons, List.map_nil]
  refine List.Perm.trans ?_ List.perm_middle
  refine List.Perm.append_left _ ?_
  rw [List.append_assoc]
  exact List.perm_middle

/-- The function `CreateEnemy` keeps the world consistent. -/
theorem CreateEnemy_consistent (rand : Nat → Nat) (position : Vector3 F) (s : Game F)
    (h : WorldConsistent s) : WorldConsistent (CreateEnemy rand position s) :=
  worldConsistent_add s _ (List.Perm.refl _) rfl rfl h

/-- The respawn of the enemies keeps the world consistent. -/
theorem enemyRespawn_consistent (inp : FrameInput F) (deadEnemies : Int) (s : Game F)
    (h : WorldConsistent s) : WorldConsistent (enemyRespawn inp deadEnemies s) := by
  unfold enemyRespawn
  dsimp only
  repeat' split
  all_goals first
    | exact h
    | exact worldConsistent_congr s _ rfl rfl rfl rfl rfl h
    | exact CreateEnemy_consistent _ _ _ (worldConsistent_congr s _ rfl rfl rfl rfl rfl h)

/-- The reap loop unregisters the bodies of exactly the enemies it erases. -/
theorem reapLoop_world (enemies : List (Enemy F)) :
    ∀ (world rest : List Nat),
      world.Perm (enemies.map (fun e => e.body.handle) ++ rest) →
      (reapLoop enemies world).2.Perm
        ((reapLoop enemies world).1.map (fun e => e.body.handle) ++ rest) := by
  induction enemies with
  | nil => intro world rest h; exact h
  | cons it tail ih =>
    intro world rest h
    unfold reapLoop
    split
    · apply ih
      have h' := List.Perm.erase it.body.handle h
      simpa using h'
    · dsimp only
      have h' : world.Perm (tail.map (fun e => e.body.handle) ++ (it.body.handle :: rest)) := by
        refine List.Perm.trans h ?_
        simp only [List.map_cons, List.cons_append]
        exact List.perm_middle.symm
      refine List.Perm.trans (ih world _ h') ?_
      simp only [List.map_cons, List.cons_append]
      exact List.perm_middle

/-- The reap pass keeps the world consistent. -/
theorem reapDeadEnemies_consistent (s : Game F) (h : WorldConsistent s) :
    WorldConsistent (reapDeadEnemies s) := by
  refine worldConsistent_remove s _ ?_ ?_ rfl h
  · exact reapLoop_world s.enemies s.dynamicsWorld _ h.1
  · unfold entityBodies reapDeadEnemies
    dsimp only
    rw [reapLoop_fst]
    exact List.Sublist.append (List.Sublist.map _ (List.filter_sublist _)) (List.Sublist.refl _)

/-- The erase loop over the blocks unregisters the body of exactly the block it
erases, and keeps the other blocks in their order. -/
theorem eraseBlockLoop_world (hitBody : Nat) (blocks : List (PhysicsBlock F)) :
    ∀ (world rest : List Nat),
      world.Perm (blocks.map (fun b => b.body.handle) ++ rest) →
      (eraseBlockLoop hitBody blocks world).2.Perm
          ((eraseBlockLoop hitBody blocks world).1.map (fun b => b.body.handle) ++ rest) ∧
        (eraseBlockLoop hitBody blocks world).1.Sublist blocks := by
  induction blocks with
  | nil => intro world rest h; exact ⟨h, List.Sublist.refl _⟩
  | cons it tail ih =>
    intro world rest h
    unfold eraseBlockLoop
    split
    · refine ⟨?_, List.sublist_cons_self _ _⟩
      have h' := List.Perm.erase it.body.handle h
      simpa using h'
    · dsimp only
      have h' : world.Perm (tail.map (fun b => b.body.handle) ++ (it.body.handle :: rest)) := by
        refine List.Perm.trans h ?_
        simp only [List.map_cons, List.cons_append]
        exact List.perm_middle.symm
      obtain ⟨i1, i2⟩ := ih world _ h'
      refine ⟨List.Perm.trans i1 ?_, List.Sublist.cons₂ _ i2⟩
      simp only [List.map_cons, List.cons_append]
      exact List.perm_middle

/-- The erase tool of the editor keeps the world consistent. -/
theorem editorErase_consistent (hit : RayHit F) (editorCursorPos : Vector3 F) (s : Game F)
    (h : WorldConsistent s) : WorldConsistent (editorErase hit editorCursorPos s) := by
  unfold editorErase
  dsimp only
  split
  · have hw : s.dynamicsWorld.Perm (s.worldBlocks.map (fun b => b.body.handle) ++
        (s.enemies.map (fun e => e.body.handle) ++ [s.player.body.handle])) :=
      List.Perm.trans h.1 (List.perm_append_comm_assoc _ _ _)
    obtain ⟨i1, i2⟩ := eraseBlockLoop_world hit.userPointer s.worldBlocks s.dynamicsWorld _ hw
    refine worldConsistent_remove s _ ?_ ?_ rfl h
    · exact List.Perm.trans i1 (List.perm_append_comm_assoc _ _ _)
    · exact List.Sublist.append (List.Sublist.refl _)
        (List.Sublist.append (List.Sublist.map _ i2) (List.Sublist.refl _))
  · exact worldConsistent_congr s _ rfl rfl rfl rfl rfl h

/-- The tools of the editor keep the world consistent. -/
theorem editorTool_consistent (hit : RayHit F) (editorCursorPos : Vector3 F) (s : Game F)
    (h : WorldConsistent s) : WorldConsistent (editorTool hit editorCursorPos s) := by
  unfold editorTool
  split
  · exact CreateStaticBox_consistent _ _ _ s h
  · exact worldConsistent_congr s _ rfl rfl rfl rfl rfl h
  · exact editorErase_consistent hit editorCursorPos s h

/-- The editor state keeps the world consistent. -/
theorem editorState_consistent (m : LibM F) (inp : FrameInput F) (s : Game F)
    (h : WorldConsistent s) : WorldConsistent (editorState m inp s) := by
  have h1 : WorldConsistent (editorCameraControl m inp s) :=
    worldConsistent_congr s _ rfl rfl rfl rfl rfl h
  unfold editorState editorPicking
  dsimp only
  split
  · split
    · exact editorTool_consistent _ _ _ (worldConsistent_congr _ _ rfl rfl rfl rfl rfl h1)
    · exact worldConsistent_congr _ _ rfl rfl rfl rfl rfl h1
  · exact worldConsistent_congr _ _ rfl rfl rfl rfl rfl h1

/-- A frame keeps the handles of the enemies. -/
theorem enemyFrame_map_handle (dt : F) {l l' : List (Enemy F)}
    (h : List.Forall₂ (EnemyFrame dt) l l') :
    l'.map (fun e => e.body.handle) = l.map (fun e => e.body.handle) := by
  induction h with
  | nil => rfl
  | cons hab _ ih => simp only [List.map_cons, ih, hab.1]

/-- The head of the loop body keeps the world consistent. -/
theorem frameStart_consistent (inp : FrameInput F) (s : Game F) (h : WorldConsistent s) :
    WorldConsistent (frameStart inp s) :=
  worldConsistent_congr s _ (by rw [frameStart_enemies]) (frameStart_worldBlocks inp s)
    (by rw [frameStart_player]) (frameStart_dynamicsWorld inp s) (frameStart_nextHandle inp s) h

/-- Every frame keeps the world consistent. -/
theorem mainLoopBody_consistent (m : LibM F) (inp : FrameInput F) (s : Game F)
    (h : WorldConsistent s) : WorldConsistent (mainLoopBody m inp s) := by
  cases hg : (frameStart inp s).gameState
  · rw [mainLoopBody_gameplay m inp s hg]
    obtain ⟨w1, w2, w3, w4⟩ := afterStep_world m inp s
    have h1 : WorldConsistent (stepSimulation inp
        (gameplayCommands m inp (frameStart inp s).player.body.origin (frameStart inp s)).1) :=
      worldConsistent_congr s _ (enemyFrame_map_handle inp.dt (afterStep_enemies m inp s))
        w1 w4 w2 w3 h
    have h2 := reapDeadEnemies_consistent _ (enemyRespawn_consistent inp
      (gameplayCommands m inp (frameStart inp s).player.body.origin (frameStart inp s)).2 _ h1)
    exact worldConsistent_congr _ _ rfl rfl rfl rfl rfl h2
  · rw [mainLoopBody_settings m inp s hg]
    exact worldConsistent_congr _ _ rfl rfl rfl rfl rfl (frameStart_consistent inp s h)
  · rw [mainLoopBody_editor m inp s hg]
    exact worldConsistent_congr _ _ rfl rfl rfl rfl rfl
      (editorState_consistent m inp _ (frameStart_consistent inp s h))

/-- The world is consistent when `main` enters its loop. -/
theorem initialGame_consistent (m : LibM F) (rand : Nat → Nat) :
    WorldConsistent (initialGame m rand) := by
  unfold WorldConsistent entityBodies
  simp only [initialGame, CreateShooterArena, CreateStaticBox, CreateEnemy, List.foldl,
    List.nil_append, List.cons_append, List.map_cons, List.map_nil, List.append_nil,
    List.append_assoc, List.singleton_append, Nat.zero_add, Nat.reduceAdd]
  decide

/-- Every list of frames keeps the world consistent. -/
theorem runFrames_consistent (m : LibM F) (inputs : List (FrameInput F)) :
    ∀ s : Game F, WorldConsistent s → WorldConsistent (runFrames m inputs s) := by
  induction inputs with
  | nil => intro s h; exact h
  | cons inp rest ih => intro s h; exact ih _ (mainLoopBody_consistent m inp s h)

/-- In a consistent world the registered bodies are those of the entities, no
body is registered twice and no two entities own the same body. -/
theorem worldConsistent_spec (s : Game F) (h : WorldConsistent s) :
    (∀ b : Nat, b ∈ s.dynamicsWorld ↔
      (∃ e ∈ s.enemies, e.body.handle = b) ∨ (∃ k ∈ s.worldBlocks, k.body.handle = b) ∨
        s.player.body.handle = b) ∧
      s.dynamicsWorld.Nodup ∧ (entityBodies s).Nodup := by
  obtain ⟨hp, hn, _⟩ := h
  refine ⟨?_, (List.Perm.nodup_iff hp).mpr hn, hn⟩
  intro b
  rw [List.Perm.mem_iff hp]
  unfold entityBodies
  simp only [List.mem_append, List.mem_map, List.mem_singleton]
  constructor
  · rintro (h | h | h)
    · exact Or.inl h
    · exact Or.inr (Or.inl h)
    · exact Or.inr (Or.inr h.symm)
  · rintro (h | h | h)
    · exact Or.inl h
    · exact Or.inr (Or.inl h)
    · exact Or.inr (Or.inr h.symm)

/-- The body of an entity that has left its list is owned by no entity that
stays: the bodies were owned once. -/
theorem not_owned_of_removed {α : Type} (f : α → Nat) (l l' : List α) (rest : List Nat)
    (hn : (l.map f ++ rest).Nodup) (hsub : l'.Sublist l) (x : α) (hx : x ∈ l) (hx' : x ∉ l') :
    f x ∉ l'.map f ++ rest := by
  intro hmem
  rcases List.mem_append.mp hmem with h | h
  · obtain ⟨y, hy, hfy⟩ := List.mem_map.mp h
    have hyx : y = x := List.inj_on_of_nodup_map hn.of_append_left (hsub.subset hy) hx hfy
    exact hx' (hyx ▸ hy)
  · exact List.disjoint_of_nodup_append hn (List.mem_map_of_mem f hx) h

/-- The reap pass unregisters the body of every enemy it erases. -/
theorem reapDeadEnemies_unregisters (s : Game F) (h : WorldConsistent s) :
    ∀ e ∈ s.enemies, e ∉ (reapDeadEnemies s).enemies →
      e.body.handle ∈ s.dynamicsWorld ∧ e.body.handle ∉ (reapDeadEnemies s).dynamicsWorld := by
  intro e he he'
  have ht := reapDeadEnemies_consistent s h
  refine ⟨(List.Perm.mem_iff h.1).mpr ?_, fun hmem => ?_⟩
  · exact List.mem_append_left _ (List.mem_map_of_mem _ he)
  · have hsub : (reapDeadEnemies s).enemies.Sublist s.enemies := by
      unfold reapDeadEnemies
      dsimp only
      rw [reapLoop_fst]
      exact List.filter_sublist _
    exact not_owned_of_removed (fun e : Enemy F => e.body.handle) s.enemies _ _ h.2.1 hsub e he he'
      ((List.Perm.mem_iff ht.1).mp hmem)

/-- The erase tool unregisters the body of the block it erases. -/
theorem editorErase_unregisters (hit : RayHit F) (pos : Vector3 F) (s : Game F)
    (h : WorldConsistent s) :
    ∀ b ∈ s.worldBlocks, b ∉ (editorErase hit pos s).worldBlocks →
      b.body.handle ∈ s.dynamicsWorld ∧
        b.body.handle ∉ (editorErase hit pos s).dynamicsWorld := by
  intro b hb hb'
  have ht := editorErase_consistent hit pos s h
  refine ⟨(List.Perm.mem_iff h.1).mpr ?_, fun hmem => ?_⟩
  · exact List.mem_append_right _ (List.mem_append_left _ (List.mem_map_of_mem _ hb))
  · have hsub : (editorErase hit pos s).worldBlocks.Sublist s.worldBlocks := by
      unfold editorErase
      dsimp only
      split
      · exact (eraseBlockLoop_world hit.userPointer s.worldBlocks s.dynamicsWorld
          (s.enemies.map (fun e => e.body.handle) ++ [s.player.body.handle])
          (List.Perm.trans h.1 (List.perm_append_comm_assoc _ _ _))).2
      · exact List.Sublist.refl _
    have hn : (s.worldBlocks.map (fun k => k.body.handle) ++
        (s.enemies.map (fun e => e.body.handle) ++ [s.player.body.handle])).Nodup :=
      (List.Perm.nodup_iff (List.perm_append_comm_assoc _ _ _)).mp h.2.1
    have hmem' : b.body.handle ∈ (editorErase hit pos s).worldBlocks.map (fun k => k.body.handle) ++
        (s.enemies.map (fun e => e.body.handle) ++ [s.player.body.handle]) := by
      have := (List.Perm.mem_iff ht.1).mp hmem
      exact (List.Perm.mem_iff (List.perm_append_comm_assoc _ _ _)).mp this
    exact not_owned_of_removed (fun k : PhysicsBlock F => k.body.handle) s.worldBlocks _ _ hn hsub
      b hb hb' hmem'

/-- C11. World and registry consistency.  The world is consistent (the
registered bodies are, each once, the bodies owned by the live enemies, the
live static blocks and the player, and no two entities own the same body) when
`main` enters its loop; every frame, in any mode and on any input, keeps it
consistent; so it is consistent after every list of frames from the initial
state.  A consistent world has exactly the bodies of the entities registered,
none twice, and no body owned twice.  The two paths that delete an entity, the
reap pass and the erase tool of the editor, keep the world consistent, and the
body of the entity they delete was registered before and is not registered
afterwards. -/
theorem world_consistency (m : LibM F) :
    (∀ rand : Nat → Nat, WorldConsistent (initialGame m rand)) ∧
      (∀ (inp : FrameInput F) (s : Game F),
        WorldConsistent s → WorldConsistent (mainLoopBody m inp s)) ∧
      (∀ (rand : Nat → Nat) (inputs : List (FrameInput F)),
        WorldConsistent (runFrames m inputs (initialGame m rand))) ∧
      (∀ s : Game F, WorldConsistent s →
        (∀ b : Nat, b ∈ s.dynamicsWorld ↔
          (∃ e ∈ s.enemies, e.body.handle = b) ∨ (∃ k ∈ s.worldBlocks, k.body.handle = b) ∨
            s.player.body.handle = b) ∧
          s.dynamicsWorld.Nodup ∧ (entityBodies s).Nodup) ∧
      (∀ s : Game F, WorldConsistent s →
        WorldConsistent (reapDeadEnemies s) ∧
          ∀ e ∈ s.enemies, e ∉ (reapDeadEnemies s).enemies →
            e.body.handle ∈ s.dynamicsWorld ∧
              e.body.handle ∉ (reapDeadEnemies s).dynamicsWorld) ∧
      (∀ (hit : RayHit F) (pos : Vector3 F) (s : Game F), WorldConsistent s →
        WorldConsistent (editorErase hit pos s) ∧
          ∀ b ∈ s.worldBlocks, b ∉ (editorErase hit pos s).worldBlocks →
            b.body.handle ∈ s.dynamicsWorld ∧
              b.body.handle ∉ (editorErase hit pos s).dynamicsWorld) :=
  ⟨initialGame_consistent m, mainLoopBody_consistent m,
    fun rand inputs => runFrames_consistent m inputs _ (initialGame_consistent m rand),
    worldConsistent_spec,
    fun s h => ⟨reapDeadEnemies_consistent s h, reapDeadEnemies_unregisters s h⟩,
    fun hit pos s h => ⟨editorErase_consistent hit pos s h, editorErase_unregisters hit pos s h⟩⟩

/-- C11, witness: the editor with the erase tool, a click on the block at
(0, 2, -20), whose body has handle 10: the world is consistent before and after
the frame, the body is registered before and not afterwards, and the block is
gone. -/
theorem world_consistency_witness :
    WorldConsistent eraseGame ∧
      WorldConsistent (mainLoopBody exampleLibM eraseBlockInput eraseGame) ∧
      10 ∈ eraseGame.dynamicsWorld ∧
      10 ∉ (mainLoopBody exampleLibM eraseBlockInput eraseGame).dynamicsWorld ∧
      (mainLoopBody exampleLibM eraseBlockInput eraseGame).worldBlocks.map
        (fun b => b.body.handle) = [0, 1, 2, 3, 4, 5, 6, 7, 8, 9] :=
  ⟨by decide!, (world_consistency exampleLibM).2.1 eraseBlockInput eraseGame (by decide!),
    by decide!, by decide!, by decide!⟩

/-! ### The enemies at the end of a frame -/

/-- The respawn of the enemies keeps the list, or puts one new enemy on a new
body at its front. -/
theorem enemyRespawn_enemies (inp : FrameInput F) (deadEnemies : Int) (s : Game F) :
    (enemyRespawn inp deadEnemies s).enemies = s.enemies ∨
      ∃ fresh : Enemy F, EnemyFresh s.nextHandle fresh ∧
        (enemyRespawn inp deadEnemies s).enemies = fresh :: s.enemies := by
  unfold enemyRespawn
  dsimp only
  repeat' split
  all_goals first
    | exact Or.inl rfl
    | exact Or.inr ⟨_, ⟨rfl, rfl, rfl, rfl, rfl⟩, rfl⟩

/-- The enemies at the end of a gameplay frame: those of the state the frame
starts from, each after the shot and the enemy loop, without the ones that the
reap pass erases, and with at most one new enemy on a new body. -/
theorem mainLoopBody_enemies (m : LibM F) (inp : FrameInput F) (s : Game F)
    (hg : (frameStart inp s).gameState = STATE_GAMEPLAY) :
    ∃ es : List (Enemy F), List.Forall₂ (EnemyFrame inp.dt) s.enemies es ∧
      ((mainLoopBody m inp s).enemies = es.filter survivesReap ∨
        ∃ fresh : Enemy F, EnemyFresh s.nextHandle fresh ∧
          (mainLoopBody m inp s).enemies = fresh :: es.filter survivesReap) := by
  refine ⟨_, afterStep_enemies m inp s, ?_⟩
  rw [mainLoopBody_gameplay m inp s hg]
  have hfin : ∀ t : Game F,
      (cameraRig m inp (frameStart inp s).player.body.origin
        { reapDeadEnemies t with vfx := vfxDecay inp.dt (reapDeadEnemies t).vfx }).enemies =
      t.enemies.filter survivesReap := by
    intro t
    rw [cameraRig_enemies]
    unfold reapDeadEnemies
    dsimp only
    rw [reapLoop_fst]
    rfl
  unfold gameplayState
  dsimp only
  rw [hfin]
  rcases enemyRespawn_enemies inp
    (gameplayCommands m inp (frameStart inp s).player.body.origin (frameStart inp s)).2
    (stepSimulation inp
      (gameplayCommands m inp (frameStart inp s).player.body.origin (frameStart inp s)).1)
    with h | ⟨fresh, hf, h⟩
  · rw [h]
    exact Or.inl rfl
  · rw [h, (afterStep_world m inp s).2.2.1] at *
    refine Or.inr ⟨fresh, hf, ?_⟩
    rw [List.filter_cons, if_pos]
    unfold survivesReap
    rw [decide_eq_true_eq]
    intro hd
    rw [hf.2.2.2.2] at hd
    exact CharacterState.noConfusion hd.1

/-- The enemies and the player at the end of a frame outside the gameplay state. -/
theorem mainLoopBody_idle (m : LibM F) (inp : FrameInput F) (s : Game F)
    (hg : (frameStart inp s).gameState ≠ STATE_GAMEPLAY) :
    (mainLoopBody m inp s).enemies = s.enemies ∧ (mainLoopBody m inp s).player = s.player := by
  cases hs : (frameStart inp s).gameState
  · exact absurd hs hg
  · rw [mainLoopBody_settings m inp s hs]
    exact ⟨frameStart_enemies inp s, frameStart_player inp s⟩
  · rw [mainLoopBody_editor m inp s hs]
    have h1 : ∀ t : Game F, (editorState m inp t).enemies = t.enemies ∧
        (editorState m inp t).player = t.player := by
      intro t
      unfold editorState editorPicking editorTool
      dsimp only
      repeat' split
      all_goals exact ⟨rfl, rfl⟩
    exact ⟨(h1 _).1.trans (frameStart_enemies inp s), (h1 _).2.trans (frameStart_player inp s)⟩

/-- Every enemy at the end of a frame is new, or an enemy of the state the frame
starts from: unchanged outside the gameplay state, after the shot and the enemy
loop in it. -/
theorem mainLoopBody_enemy_origin (m : LibM F) (inp : FrameInput F) (s : Game F) :
    ∀ e' ∈ (mainLoopBody m inp s).enemies,
      EnemyFresh s.nextHandle e' ∨
        (e' ∈ s.enemies ∧ (frameStart inp s).gameState ≠ STATE_GAMEPLAY) ∨
        ∃ e ∈ s.enemies, EnemyFrame inp.dt e e' ∧
          (frameStart inp s).gameState = STATE_GAMEPLAY := by
  intro e' he'
  by_cases hg : (frameStart inp s).gameState = STATE_GAMEPLAY
  · obtain ⟨es, hes, hfin⟩ := mainLoopBody_enemies m inp s hg
    have hmem : ∀ x ∈ es, ∃ e ∈ s.enemies, EnemyFrame inp.dt e x := by
      intro x hx
      obtain ⟨n, hn, rfl⟩ := List.getElem_of_mem hx
      have hlen := hes.length_eq
      exact ⟨s.enemies[n], List.getElem_mem _, (List.forall₂_iff_get.mp hes).2 n (hlen ▸ hn) hn⟩
    rcases hfin with h | ⟨fresh, hf, h⟩
    · rw [h] at he'
      obtain ⟨e, he, hr⟩ := hmem e' (List.mem_filter.mp he').1
      exact Or.inr (Or.inr ⟨e, he, hr, hg⟩)
    · rw [h] at he'
      rcases List.mem_cons.mp he' with rfl | he''
      · exact Or.inl hf
      · obtain ⟨e, he, hr⟩ := hmem e' (List.mem_filter.mp he'').1
        exact Or.inr (Or.inr ⟨e, he, hr, hg⟩)
  · rw [(mainLoopBody_idle m inp s hg).1] at he'
    exact Or.inr (Or.inl ⟨he', hg⟩)

/-- A property of the enemies that holds for a new enemy and that a gameplay
frame keeps holds for the enemies after every frame. -/
theorem mainLoopBody_enemies_invariant (m : LibM F) (P : Enemy F → Prop)
    (hfresh : ∀ (h : Nat) (e : Enemy F), EnemyFresh h e → P e)
    (hstep : ∀ (dt : F) (e e' : Enemy F), P e → EnemyFrame dt e e' → P e')
    (inp : FrameInput F) (s : Game F) (hs : ∀ e ∈ s.enemies, P e) :
    ∀ e ∈ (mainLoopBody m inp s).enemies, P e := by
  intro e' he'
  rcases mainLoopBody_enemy_origin m inp s e' he' with h | h | ⟨e, he, hr, _⟩
  · exact hfresh _ _ h
  · exact hs _ h.1
  · exact hstep _ _ _ (hs e he) hr

/-- A property of the enemies that holds for a new enemy and that a gameplay
frame keeps holds for the enemies after every list of frames. -/
theorem runFrames_enemies_invariant (m : LibM F) (P : Enemy F → Prop)
    (hfresh : ∀ (h : Nat) (e : Enemy F), EnemyFresh h e → P e)
    (hstep : ∀ (dt : F) (e e' : Enemy F), P e → EnemyFrame dt e e' → P e')
    (inputs : List (FrameInput F)) :
    ∀ s : Game F, (∀ e ∈ s.enemies, P e) → ∀ e ∈ (runFrames m inputs s).enemies, P e := by
  induction inputs with
  | nil => intro s hs; exact hs
  | cons inp rest ih =>
    intro s hs
    exact ih _ (mainLoopBody_enemies_invariant m P hfresh hstep inp s hs)

/-- The enemies of the initial state are new. -/
theorem initialGame_enemies (m : LibM F) (rand : Nat → Nat) :
    ∀ e ∈ (initialGame m rand).enemies, ∃ h : Nat, EnemyFresh h e := by
  intro e he
  simp only [initialGame, CreateShooterArena, CreateStaticBox, CreateEnemy, List.foldl,
    List.nil_append, List.mem_cons, List.mem_singleton, List.not_mem_nil, or_false] at he
  rcases he with rfl | rfl | rfl | rfl | rfl
  all_goals exact ⟨_, rfl, rfl, rfl, rfl, rfl⟩

/-- In a consistent world an enemy at the end of a frame that has the body of
an enemy of the state the frame starts from is that enemy: unchanged outside the
gameplay state, after the shot and the enemy loop in it. -/
theorem mainLoopBody_same_body (m : LibM F) (inp : FrameInput F) (s : Game F)
    (hw : WorldConsistent s) (e : Enemy F) (he : e ∈ s.enemies) (e' : Enemy F)
    (he' : e' ∈ (mainLoopBody m inp s).enemies) (hh : e'.body.handle = e.body.handle) :
    e' = e ∨ EnemyFrame inp.dt e e' := by
  have hin : ∀ x ∈ s.enemies, x.body.handle = e.body.handle → x = e := fun x hx hxe =>
    List.inj_on_of_nodup_map hw.2.1.of_append_left hx he hxe
  rcases mainLoopBody_enemy_origin m inp s e' he' with h | h | ⟨e0, he0, hr, _⟩
  · exfalso
    have hlt := hw.2.2 e.body.handle (List.mem_append_left _ (List.mem_map_of_mem _ he))
    rw [← hh, h.1] at hlt
    exact lt_irrefl _ hlt
  · exact Or.inl (hin e' h.1 hh)
  · have : e0 = e := hin e0 he0 (hr.1.symm.trans hh)
    exact Or.inr (this ▸ hr)

/-- A dying enemy is at the end of the frame, or the reap pass has erased it. -/
theorem mainLoopBody_dying_stays (m : LibM F) (inp : FrameInput F) (s : Game F)
    (e : Enemy F) (he : e ∈ s.enemies) (hd : e.state = STATE_DYING) :
    (∃ e' ∈ (mainLoopBody m inp s).enemies, e'.body.handle = e.body.handle) ∨
      ((frameStart inp s).gameState = STATE_GAMEPLAY ∧ e.deathTimer + inp.dt > 3) := by
  by_cases hg : (frameStart inp s).gameState = STATE_GAMEPLAY
  · obtain ⟨es, hes, hfin⟩ := mainLoopBody_enemies m inp s hg
    obtain ⟨n, hn, rfl⟩ := List.getElem_of_mem he
    have hn' : n < es.length := hes.length_eq ▸ hn
    have hr : EnemyFrame inp.dt s.enemies[n] es[n] := (List.forall₂_iff_get.mp hes).2 n hn hn'
    by_cases ht : s.enemies[n].deathTimer + inp.dt > 3
    · exact Or.inr ⟨hg, ht⟩
    · left
      have hsurv : es[n] ∈ es.filter survivesReap := by
        refine List.mem_filter.mpr ⟨List.getElem_mem _, ?_⟩
        unfold survivesReap
        rw [decide_eq_true_eq, (hr.2.2.1 hd).2.2.1]
        exact fun h => ht h.2
      rcases hfin with h | ⟨fresh, _, h⟩
      · exact ⟨es[n], h ▸ hsurv, hr.1⟩
      · exact ⟨es[n], h ▸ List.mem_cons_of_mem _ hsurv, hr.1⟩
  · exact Or.inl ⟨e, (mainLoopBody_idle m inp s hg).1 ▸ he, rfl⟩

/-! ### C12: the dying enemy -/

/-- A new enemy is not dying, has health, and has its collision response on. -/
theorem enemyFresh_alive (h : Nat) (e : Enemy F) (hf : EnemyFresh h e) :
    (e.state = STATE_DYING ↔ e.health ≤ 0) ∧
      (e.state = STATE_DYING ↔ e.body.noContactResponse = true) := by
  obtain ⟨_, h2, h3, _, h5⟩ := hf
  rw [h2, h3, h5]
  exact ⟨⟨fun h => CharacterState.noConfusion h, fun h => absurd h (by decide)⟩,
    ⟨fun h => CharacterState.noConfusion h, fun h => Bool.noConfusion h⟩⟩

/-- C12. The dying enemy.  (1) At the end of a gameplay frame that starts with
every dying enemy at health 0 or less, an enemy is dying if and only if its
health is 0 or less: the shot of the frame comes before the enemy loop, so a
shot that takes the last health makes the enemy dying in that frame.  (2) After
every list of frames from the initial state, an enemy is dying if and only if
its health is 0 or less, and if and only if its collision response is off.
(3) In a consistent world, the enemy that has the body of a dying enemy at the
end of the next frame, in any mode, is dying, with the same health and the
same collision flag: the state never leaves dying.  (4) In a consistent world,
an enemy that is not dying before a frame and dying after it has health 0 or
less and its collision response off.  (5) A dying enemy is in the list at the
end of the frame unless the frame is a gameplay frame that takes its death timer
above 3, which is the test of the reap pass. -/
theorem dying_iff_no_health (m : LibM F) :
    (∀ (inp : FrameInput F) (s : Game F), (frameStart inp s).gameState = STATE_GAMEPLAY →
      (∀ e ∈ s.enemies, e.state = STATE_DYING → e.health ≤ 0) →
      ∀ e' ∈ (mainLoopBody m inp s).enemies, (e'.state = STATE_DYING ↔ e'.health ≤ 0)) ∧
      (∀ (rand : Nat → Nat) (inputs : List (FrameInput F)),
        ∀ e ∈ (runFrames m inputs (initialGame m rand)).enemies,
          (e.state = STATE_DYING ↔ e.health ≤ 0) ∧
            (e.state = STATE_DYING ↔ e.body.noContactResponse = true)) ∧
      (∀ (inp : FrameInput F) (s : Game F), WorldConsistent s →
        ∀ e ∈ s.enemies, e.state = STATE_DYING →
          ∀ e' ∈ (mainLoopBody m inp s).enemies, e'.body.handle = e.body.handle →
            e'.state = STATE_DYING ∧ e'.health = e.health ∧
              e'.body.noContactResponse = e.body.noContactResponse) ∧
      (∀ (inp : FrameInput F) (s : Game F), WorldConsistent s →
        ∀ e ∈ s.enemies, e.state ≠ STATE_DYING →
          ∀ e' ∈ (mainLoopBody m inp s).enemies, e'.body.handle = e.body.handle →
            e'.state = STATE_DYING → e'.health ≤ 0 ∧ e'.body.noContactResponse = true) ∧
      (∀ (inp : FrameInput F) (s : Game F), ∀ e ∈ s.enemies, e.state = STATE_DYING →
        (∃ e' ∈ (mainLoopBody m inp s).enemies, e'.body.handle = e.body.handle) ∨
          ((frameStart inp s).gameState = STATE_GAMEPLAY ∧ e.deathTimer + inp.dt > 3)) := by
  refine ⟨?_, ?_, ?_, ?_, ?_⟩
  · intro inp s hg hs e' he'
    rcases mainLoopBody_enemy_origin m inp s e' he' with h | h | ⟨e, he, hr, _⟩
    · obtain ⟨_, _, h3, _, h5⟩ := h
      rw [h3, h5]
      exact ⟨fun h => CharacterState.noConfusion h, fun h => absurd h (by decide)⟩
    · exact absurd hg h.2
    · obtain ⟨_, _, r3, r4⟩ := hr
      by_cases hd : e.state = STATE_DYING
      · obtain ⟨t1, t2, _, _⟩ := r3 hd
        rw [t1, t2]
        exact ⟨fun _ => hs e he hd, fun _ => rfl⟩
      · obtain ⟨_, _, t3, t4⟩ := r4 hd
        constructor
        · intro hd'
          by_contra hpos
          exact hd ((t4 (not_le.mp hpos)).1 ▸ hd')
        · intro hle
          exact (t3 hle).1
  · intro rand inputs
    refine runFrames_enemies_invariant m
      (fun e => (e.state = STATE_DYING ↔ e.health ≤ 0) ∧
        (e.state = STATE_DYING ↔ e.body.noContactResponse = true)) ?_ ?_ inputs _ ?_
    · intro h e hf
      exact enemyFresh_alive h e hf
    · intro dt e e' he hr
      obtain ⟨_, _, r3, r4⟩ := hr
      by_cases hd : e.state = STATE_DYING
      · obtain ⟨t1, t2, _, t4⟩ := r3 hd
        rw [t1, t2, t4]
        exact ⟨⟨fun _ => he.1.mp hd, fun _ => rfl⟩, ⟨fun _ => he.2.mp hd, fun _ => rfl⟩⟩
      · obtain ⟨_, _, t3, t4⟩ := r4 hd
        by_cases hle : e'.health ≤ 0
        · obtain ⟨u1, u2⟩ := t3 hle
          rw [u1, u2]
          exact ⟨⟨fun _ => hle, fun _ => rfl⟩, ⟨fun _ => rfl, fun _ => rfl⟩⟩
        · obtain ⟨u1, u2⟩ := t4 (not_le.mp hle)
          rw [u1, u2]
          exact ⟨⟨fun h => absurd h hd, fun h => absurd h hle⟩,
            ⟨fun h => absurd h hd, fun h => absurd (he.2.mpr h) hd⟩⟩
    · intro e he
      obtain ⟨h, hf⟩ := initialGame_enemies m rand e he
      exact enemyFresh_alive h e hf
  · intro inp s hw e he hd e' he' hh
    rcases mainLoopBody_same_body m inp s hw e he e' he' hh with rfl | hr
    · exact ⟨hd, rfl, rfl⟩
    · obtain ⟨t1, t2, _, t4⟩ := hr.2.2.1 hd
      exact ⟨t1, t2, t4⟩
  · intro inp s hw e he hd e' he' hh hd'
    rcases mainLoopBody_same_body m inp s hw e he e' he' hh with rfl | hr
    · exact absurd hd' hd
    · obtain ⟨_, _, t3, t4⟩ := hr.2.2.2 hd
      by_cases hle : e'.health ≤ 0
      · exact ⟨hle, (t3 hle).2⟩
      · exact absurd ((t4 (not_le.mp hle)).1 ▸ hd') hd
  · intro inp s e he hd
    exact mainLoopBody_dying_stays m inp s e he hd

/-- C12, witness: the enemy on the body 15 has 25 health left and the shot of
the frame hits it; at the end of the frame it is dying with health 0 and its
collision response off, and the other enemies are as they were. -/
theorem dying_iff_no_health_witness :
    (frameStart shotInput weakEnemyGame).gameState = STATE_GAMEPLAY ∧
      (∀ e ∈ weakEnemyGame.enemies, e.state = STATE_DYING → e.health ≤ 0) ∧
      (∀ e' ∈ (mainLoopBody exampleLibM shotInput weakEnemyGame).enemies,
        (e'.state = STATE_DYING ↔ e'.health ≤ 0)) ∧
      weakEnemyGame.enemies.map (fun e => (e.body.handle, e.health, e.state)) =
        [(15, 25, STATE_ON_GROUND), (14, 100, STATE_ON_GROUND), (13, 100, STATE_ON_GROUND),
          (12, 100, STATE_ON_GROUND), (11, 100, STATE_ON_GROUND)] ∧
      (mainLoopBody exampleLibM shotInput weakEnemyGame).enemies.map
          (fun e => (e.body.handle, e.health, e.state, e.body.noContactResponse)) =
        [(15, 0, STATE_DYING, true), (14, 100, STATE_ON_GROUND, false),
          (13, 100, STATE_ON_GROUND, false), (12, 100, STATE_ON_GROUND, false),
          (11, 100, STATE_ON_GROUND, false)] :=
  ⟨by decide!, by decide!,
    (dying_iff_no_health exampleLibM).1 shotInput weakEnemyGame (by decide!) (by decide!),
    by decide!, by decide!⟩

/-! ### C13: the range of the health -/

/-- A melee tick of a frame shorter than 1/20 second leaves a health that is
not negative not negative. -/
theorem meleeDamage_nonneg (dt : F) (hdt : dt < 1 / 20) (health : Int) (hh : 0 ≤ health) :
    0 ≤ meleeDamage dt health := by
  unfold meleeDamage floatToInt
  have h1 : (0 : F) ≤ (health : F) := by exact_mod_cast hh
  have h2 : 20 * dt < 1 := by linarith
  split
  · rename_i h
    exact Int.floor_nonneg.mpr h
  · have h3 : ((-1 : Int) : F) < (health : F) - 20 * dt := by
      push_cast
      linarith
    have := Int.lt_ceil.mpr h3
    omega

/-- The enemy loop of a frame shorter than 1/20 second leaves the player's
health not negative when it was not negative. -/
theorem enemyLoop_playerHealth_nonneg (m : LibM F) (inp : FrameInput F) (hdt : inp.dt < 1 / 20)
    (settings : GameSettings F) (playerState : CharacterState) (playerPos : Vector3 F)
    (inDialogue : Bool) (dialoguePartner : Option Nat) (enemies : List (Enemy F)) :
    ∀ acc : EnemyLoop, 0 ≤ acc.playerHealth →
      0 ≤ (enemyLoop m inp settings playerState playerPos inDialogue dialoguePartner enemies
        acc).2.playerHealth := by
  induction enemies with
  | nil => intro acc h; exact h
  | cons e rest ih =>
    intro acc hacc
    unfold enemyLoop
    dsimp only
    apply ih
    rcases (updateEnemy_acc m inp settings playerState playerPos inDialogue dialoguePartner
      acc e).2 with h | h
    · rw [h]; exact hacc
    · rw [h.2.2.2.2.2.2.2]
      exact meleeDamage_nonneg inp.dt hdt _ hacc

/-- The player update keeps the health of the player or sets it to the maximum. -/
theorem playerUpdate_health (m : LibM F) (inp : FrameInput F) (pos : Vector3 F) (s : Game F) :
    (playerUpdate m inp pos s).player.maxHealth = s.player.maxHealth ∧
      ((playerUpdate m inp pos s).player.health = s.player.health ∨
        (playerUpdate m inp pos s).player.health = s.player.maxHealth) := by
  unfold playerUpdate
  split
  · simp only [manualReload_player, fireWeapon_player, atFireGate, tickWeaponTimers_player]
    exact ⟨rfl, Or.inl rfl⟩
  · split
    · unfold playerDying
      dsimp only
      split
      · exact ⟨rfl, Or.inr rfl⟩
      · exact ⟨rfl, Or.inl rfl⟩
    · exact ⟨rfl, Or.inl rfl⟩

/-- The health of the player over a frame that does not run backwards: the
maximum stays, the health stays at most the maximum, and it stays not negative
when the frame is shorter than 1/20 second. -/
theorem mainLoopBody_player_health (m : LibM F) (inp : FrameInput F) (s : Game F)
    (hdt : 0 ≤ inp.dt) (hmax : s.player.health ≤ s.player.maxHealth) :
    (mainLoopBody m inp s).player.maxHealth = s.player.maxHealth ∧
      (mainLoopBody m inp s).player.health ≤ s.player.maxHealth ∧
      (inp.dt < 1 / 20 → 0 ≤ s.player.health → 0 ≤ (mainLoopBody m inp s).player.health) := by
  by_cases hg : (frameStart inp s).gameState = STATE_GAMEPLAY
  · obtain ⟨_, h2, h3, _, _⟩ := mainLoopBody_player m inp s hg
    rw [h2, h3, gameplayCommands_fst]
    have hd : ∀ t : Game F, (playerDeath t).player.health = t.player.health ∧
        (playerDeath t).player.maxHealth = t.player.maxHealth := by
      intro t
      unfold playerDeath
      split <;> exact ⟨rfl, rfl⟩
    rw [(hd _).1, (hd _).2]
    obtain ⟨_, a2, a3, _⟩ := atPlayerUpdate_player m inp s
    obtain ⟨u1, u2⟩ := playerUpdate_health m inp (frameStart inp s).player.body.origin
      (atPlayerUpdate m inp s)
    rw [a3] at u1
    rw [a2, a3] at u2
    have hu : (playerUpdate m inp (frameStart inp s).player.body.origin
        (atPlayerUpdate m inp s)).player.health ≤ s.player.maxHealth := by
      rcases u2 with h | h
      · rw [h]; exact hmax
      · rw [h]
    unfold enemyUpdate
    dsimp only
    refine ⟨u1, ?_, ?_⟩
    · exact le_trans (enemyLoop_playerHealth_le m inp hdt _ _ _ _ _ _ _) hu
    · intro hsmall h0
      apply enemyLoop_playerHealth_nonneg m inp hsmall
      dsimp only
      rcases u2 with h | h
      · rw [h]; exact h0
      · rw [h]; exact le_trans h0 hmax
  · rw [(mainLoopBody_idle m inp s hg).2]
    exact ⟨rfl, hmax, fun _ h => h⟩

/-- A new enemy has the health that the program keeps. -/
theorem enemyHealthy_of_fresh (h : Nat) (e : Enemy F) (hf : EnemyFresh h e) : EnemyHealthy e := by
  obtain ⟨_, _, h3, h4, h5⟩ := hf
  unfold EnemyHealthy
  rw [h3, h4, h5]
  exact ⟨rfl, by decide, by decide, by decide,
    ⟨fun h => CharacterState.noConfusion h, fun h => absurd h (by decide)⟩⟩

/-- A gameplay frame keeps the health of an enemy as the program keeps it: the
shot takes 25 from an enemy that is not dying, which has 25 or more. -/
theorem enemyHealthy_frame (dt : F) (e e' : Enemy F) (he : EnemyHealthy e)
    (hr : EnemyFrame dt e e') : EnemyHealthy e' := by
  obtain ⟨h1, h2, h3, h4, h5⟩ := he
  obtain ⟨_, r2, r3, r4⟩ := hr
  unfold EnemyHealthy
  by_cases hd : e.state = STATE_DYING
  · obtain ⟨t1, t2, _, _⟩ := r3 hd
    rw [r2, t1, t2]
    exact ⟨h1, h2, h3, h4, ⟨fun _ => h5.mp hd, fun _ => rfl⟩⟩
  · obtain ⟨t1, _, t3, t4⟩ := r4 hd
    have hpos : 0 < e.health := not_le.mp fun h => hd (h5.mpr h)
    obtain ⟨k, hk⟩ := h4
    have hiff : e'.state = STATE_DYING ↔ e'.health ≤ 0 := by
      constructor
      · intro hd'
        by_contra hle
        exact hd ((t4 (not_le.mp hle)).1 ▸ hd')
      · intro hle
        exact (t3 hle).1
    rw [r2]
    rcases t1 with t | t
    · rw [t] at hiff ⊢
      exact ⟨h1, h2, h3, ⟨k, hk⟩, hiff⟩
    · refine ⟨h1, ?_, ?_, ⟨k - 1, ?_⟩, hiff⟩
      · rw [t]; omega
      · rw [t]; omega
      · rw [t]; omega

/-- The health of the player over a list of frames that do not run backwards:
the maximum stays, the health stays at most the maximum, and it stays not
negative when every frame is shorter than 1/20 second. -/
theorem runFrames_player_health (m : LibM F) (inputs : List (FrameInput F)) :
    ∀ s : Game F, (∀ inp ∈ inputs, 0 ≤ inp.dt) → s.player.health ≤ s.player.maxHealth →
      (runFrames m inputs s).player.maxHealth = s.player.maxHealth ∧
        (runFrames m inputs s).player.health ≤ s.player.maxHealth ∧
        ((∀ inp ∈ inputs, inp.dt < 1 / 20) → 0 ≤ s.player.health →
          0 ≤ (runFrames m inputs s).player.health) := by
  induction inputs with
  | nil => intro s _ hmax; exact ⟨rfl, hmax, fun _ h => h⟩
  | cons inp rest ih =>
    intro s hdt hmax
    obtain ⟨f1, f2, f3⟩ := mainLoopBody_player_health m inp s
      (hdt inp (List.mem_cons_self _ _)) hmax
    obtain ⟨i1, i2, i3⟩ := ih (mainLoopBody m inp s)
      (fun x hx => hdt x (List.mem_cons_of_mem _ hx)) (f1 ▸ f2)
    refine ⟨i1.trans f1, f1 ▸ i2, ?_⟩
    intro hsmall h0
    exact i3 (fun x hx => hsmall x (List.mem_cons_of_mem _ hx))
      (f3 (hsmall inp (List.mem_cons_self _ _)) h0)

/-- C13 (counterexample). Three frames from the initial state: Tab opens the
settings menu and a click turns the attack of the enemies on; Tab closes the
menu, and the physics step of that frame leaves the player one unit from the
enemy at (-15, 2, -20); the next frame takes six seconds.  No frame time is
negative.  After the second frame the game is in the gameplay state with the
attack on, the player at (-15, 2, -19) with health 100; the melee tick of the
third frame makes the health `int(100 - 20 * 6) = -20`, which is not in
[0, maxHealth] = [0, 100]. -/
theorem health_range_counterexample :
    (∀ inp ∈ [menuInput, resumeInput, stallInput], 0 ≤ inp.dt) ∧
      ((runFrames exampleLibM [menuInput, resumeInput] exampleGame).gameState = STATE_GAMEPLAY ∧
        (runFrames exampleLibM [menuInput, resumeInput] exampleGame).settings.enemiesAttack =
          true ∧
        (runFrames exampleLibM [menuInput, resumeInput] exampleGame).player.body.origin =
          ⟨-15, 2, -19⟩ ∧
        (runFrames exampleLibM [menuInput, resumeInput] exampleGame).player.health = 100) ∧
      (runFrames exampleLibM [menuInput, resumeInput, stallInput] exampleGame).player.health =
        -20 ∧
      (runFrames exampleLibM [menuInput, resumeInput, stallInput] exampleGame).player.maxHealth =
        100 ∧
      ¬(0 ≤ (runFrames exampleLibM [menuInput, resumeInput, stallInput]
            exampleGame).player.health ∧
          (runFrames exampleLibM [menuInput, resumeInput, stallInput]
            exampleGame).player.health ≤
          (runFrames exampleLibM [menuInput, resumeInput, stallInput]
            exampleGame).player.maxHealth) := by
  refine ⟨by decide!, by decide!, by decide!, by decide!, by decide!⟩

/-- C13 (amended). In every state reachable from the initial state by a list of
frames with no negative frame time, on any inputs, settings and ray results:
the health of every live enemy lies in [0, maxHealth], with maxHealth = 100;
the health of the player is at most its maxHealth = 100; and the health of the
player is at least 0 when every frame is shorter than 1/20 second. -/
theorem health_range (m : LibM F) (rand : Nat → Nat) (inputs : List (FrameInput F))
    (hdt : ∀ inp ∈ inputs, 0 ≤ inp.dt) :
    (∀ e ∈ (runFrames m inputs (initialGame m rand)).enemies,
        0 ≤ e.health ∧ e.health ≤ e.maxHealth ∧ e.maxHealth = 100) ∧
      (runFrames m inputs (initialGame m rand)).player.health ≤
        (runFrames m inputs (initialGame m rand)).player.maxHealth ∧
      (runFrames m inputs (initialGame m rand)).player.maxHealth = 100 ∧
      ((∀ inp ∈ inputs, inp.dt < 1 / 20) →
        0 ≤ (runFrames m inputs (initialGame m rand)).player.health) := by
  have hp : (initialGame m rand).player.health = 100 ∧
      (initialGame m rand).player.maxHealth = 100 := by
    simp [initialGame, CreateShooterArena, CreateStaticBox, CreateEnemy]
  obtain ⟨p1, p2, p3⟩ := runFrames_player_health m inputs (initialGame m rand) hdt
    (by rw [hp.1, hp.2])
  have he := runFrames_enemies_invariant m EnemyHealthy enemyHealthy_of_fresh enemyHealthy_frame
    inputs (initialGame m rand) (fun e he => by
      obtain ⟨h, hf⟩ := initialGame_enemies m rand e he
      exact enemyHealthy_of_fresh h e hf)
  refine ⟨?_, ?_, p1.trans hp.2, ?_⟩
  · intro e hmem
    obtain ⟨h1, h2, h3, _, _⟩ := he e hmem
    exact ⟨h2, h1 ▸ h3, h1⟩
  · rw [p1]; exact p2
  · intro hsmall
    exact p3 hsmall (by rw [hp.1]; decide)

/-- C13, witness: the first two frames of the counterexample and then a frame
of 1/30 second: no frame time is negative and every frame is shorter than 1/20
second; the melee tick takes the player's health to 99, the health of the
enemies and of the player are in range. -/
theorem health_range_witness :
    (∀ inp ∈ [menuInput, resumeInput, idleInput (1 / 30)], 0 ≤ inp.dt) ∧
      (∀ inp ∈ [menuInput, resumeInput, idleInput (1 / 30)], inp.dt < 1 / 20) ∧
      (runFrames exampleLibM [menuInput, resumeInput, idleInput (1 / 30)]
        (initialGame exampleLibM fun _ => 0)).player.health = 99 ∧
      ((∀ e ∈ (runFrames exampleLibM [menuInput, resumeInput, idleInput (1 / 30)]
            (initialGame exampleLibM fun _ => 0)).enemies,
          0 ≤ e.health ∧ e.health ≤ e.maxHealth ∧ e.maxHealth = 100) ∧
        (runFrames exampleLibM [menuInput, resumeInput, idleInput (1 / 30)]
            (initialGame exampleLibM fun _ => 0)).player.health ≤
          (runFrames exampleLibM [menuInput, resumeInput, idleInput (1 / 30)]
            (initialGame exampleLibM fun _ => 0)).player.maxHealth ∧
        (runFrames exampleLibM [menuInput, resumeInput, idleInput (1 / 30)]
          (initialGame exampleLibM fun _ => 0)).player.maxHealth = 100 ∧
        ((∀ inp ∈ [menuInput, resumeInput, idleInput (1 / 30)], inp.dt < 1 / 20) →
          0 ≤ (runFrames exampleLibM [menuInput, resumeInput, idleInput (1 / 30)]
            (initialGame exampleLibM fun _ => 0)).player.health)) :=
  ⟨by decide!, by decide!, by decide!,
    health_range exampleLibM (fun _ => 0) [menuInput, resumeInput, idleInput (1 / 30)]
      (by decide!)⟩

/-! ### C21: the ground check -/

/-- C21. The ground check.  The ground ray starts at the origin of the player
and ends 0.55 * playerHeight = 1.1 straight below it.  In a gameplay frame the
state of the player right after the check is on-ground when the ray reports a
hit, whatever the state was before the frame, and the state before the frame
when it reports none; the check changes nothing but that state, and nothing at
all without a hit. -/
theorem ground_check (m : LibM F) (inp : FrameInput F) (s : Game F) :
    (groundRayStart s.player.body.origin = s.player.body.origin ∧
        groundRayEnd s.player.body.origin =
          ⟨s.player.body.origin.x, s.player.body.origin.y - 11 / 10, s.player.body.origin.z⟩) ∧
      (groundCheck inp (playerCameraControl m inp (frameStart inp s))).player.state =
        (if inp.groundRay = true then STATE_ON_GROUND else s.player.state) ∧
      groundCheck inp s =
        (if inp.groundRay = true then { s with player := { s.player with state := STATE_ON_GROUND } }
          else s) := by
  refine ⟨⟨rfl, ?_⟩, ?_, ?_⟩
  · unfold groundRayEnd groundRayStart playerHeight
    norm_num
  · rw [toggle_player_state, (groundCheck_player inp s).1]
  · rfl

/-- C21, on an example: the player is dying in the air and the ray reports a
hit; right after the check the player is on the ground.  Without the hit the
player is still dying. -/
theorem ground_check_witness :
    deadPlayerGame.player.state = STATE_DYING ∧
      (groundCheck groundedInput
        (playerCameraControl exampleLibM groundedInput
          (frameStart groundedInput deadPlayerGame))).player.state = STATE_ON_GROUND ∧
      (groundCheck (idleInput (1 / 2))
        (playerCameraControl exampleLibM (idleInput (1 / 2))
          (frameStart (idleInput (1 / 2)) deadPlayerGame))).player.state = STATE_DYING :=
  ⟨by decide!,
    ((ground_check exampleLibM groundedInput deadPlayerGame).2.1).trans (by decide!),
    ((ground_check exampleLibM (idleInput (1 / 2)) deadPlayerGame).2.1).trans (by decide!)⟩

/-! ### C22: the enemy in melee range -/

/-- C22 (the code's behaviour). For an enemy that is not dying, has health above
0 and is not the dialogue partner, with enemies not frozen, attack mode on and
the player not dying, whenever the distance to the player is below 1.5: the
enemy loop clears the moving flag and leaves the linear velocity of the body as
it was before, horizontal components included; no velocity is commanded. -/
theorem melee_keeps_velocity (m : LibM F) (inp : FrameInput F) (settings : GameSettings F)
    (playerState : CharacterState) (playerPos : Vector3 F) (inDialogue : Bool)
    (dialoguePartner : Option Nat) (acc : EnemyLoop) (enemy : Enemy F)
    (hstate : enemy.state ≠ STATE_DYING)
    (hhealth : 0 < enemy.health)
    (hpartner : ¬(inDialogue = true ∧ dialoguePartner = some enemy.body.handle))
    (hfrozen : settings.enemiesFrozen = false)
    (hattack : settings.enemiesAttack = true)
    (hplayer : playerState ≠ STATE_DYING)
    (hnear : Vector3Length m (Vector3Subtract playerPos (GetEnemyPosition enemy)) < 3 / 2) :
    (updateEnemy m inp settings playerState playerPos inDialogue dialoguePartner acc
        enemy).1.isMoving = false ∧
      (updateEnemy m inp settings playerState playerPos inDialogue dialoguePartner acc
        enemy).1.body.linearVelocity = enemy.body.linearVelocity := by
  unfold updateEnemy
  dsimp only
  rw [if_neg hstate, if_neg (not_le.mpr hhealth), if_neg hpartner, if_pos hfrozen,
    if_pos ⟨hattack, hplayer⟩]
  unfold enemyAttack
  dsimp only
  rw [if_pos hnear]
  exact ⟨rfl, rfl⟩

/-- C22, the failing input.  An enemy that moves at (3, -1, 4), one unit from
the player: the enemy loop clears its moving flag and leaves its velocity at
(3, -1, 4), not at (0, -1, 0).  And two frames of a game: in the first the
enemy on the body 15 is three units from the player and chases, its commanded
velocity is (0, 0, 4), and the physics step leaves it one unit from the player;
in the second it is in melee range, and the velocity handed to the physics step
is still (0, 0, 4), with the moving flag cleared. -/
theorem melee_keeps_velocity_witness :
    ((updateEnemy exampleLibM (idleInput (1 / 60)) attackSettings STATE_ON_GROUND ⟨0, 0, 1⟩
          false none ⟨100, 0, 0⟩ slidingEnemy).1.isMoving = false ∧
        (updateEnemy exampleLibM (idleInput (1 / 60)) attackSettings STATE_ON_GROUND ⟨0, 0, 1⟩
          false none ⟨100, 0, 0⟩ slidingEnemy).1.body.linearVelocity = ⟨3, -1, 4⟩) ∧
      ((mainLoopBody exampleLibM closeInInput chaseGame).enemies.filter
          fun e => e.body.handle = 15).map
          (fun e => (e.isMoving, e.body.origin, e.body.linearVelocity)) =
        [(true, ⟨-15, 2, -18⟩, ⟨0, 0, 4⟩)] ∧
      (mainLoopBody exampleLibM closeInInput chaseGame).player.body.origin = ⟨-15, 2, -17⟩ ∧
      ((gameplayCommands exampleLibM (idleInput (1 / 60))
          (mainLoopBody exampleLibM closeInInput chaseGame).player.body.origin
          (frameStart (idleInput (1 / 60))
            (mainLoopBody exampleLibM closeInInput chaseGame))).1.enemies.filter
          fun e => e.body.handle = 15).map
          (fun e => (e.isMoving, e.body.origin, e.body.linearVelocity)) =
        [(false, ⟨-15, 2, -18⟩, ⟨0, 0, 4⟩)] :=
  ⟨melee_keeps_velocity exampleLibM (idleInput (1 / 60)) attackSettings STATE_ON_GROUND ⟨0, 0, 1⟩
      false none ⟨100, 0, 0⟩ slidingEnemy (by decide!) (by decide!) (by decide!) (by decide!)
      (by decide!) (by decide!) (by decide!),
    by decide!, by decide!, by decide!⟩

/-! ### C23: the switch of the mode -/

/-- The mode at the end of a frame is the mode that the state switching leaves. -/
theorem mainLoopBody_gameState (m : LibM F) (inp : FrameInput F) (s : Game F) :
    (mainLoopBody m inp s).gameState = (frameStart inp s).gameState := by
  cases hg : (frameStart inp s).gameState
  · rw [mainLoopBody_gameplay m inp s hg]
    simp [hg]
  · rw [mainLoopBody_settings m inp s hg]
    exact hg
  · rw [mainLoopBody_editor m inp s hg]
    simp [hg]

/-- The mode that the state switching leaves. -/
theorem frameStart_gameState (inp : FrameInput F) (s : Game F) :
    (frameStart inp s).gameState =
      if inp.keyTabPressed = true then
        if s.gameState = STATE_SETTINGS then
          if s.settings.inEditMode = true then STATE_EDITOR else STATE_GAMEPLAY
        else STATE_SETTINGS
      else s.gameState := by
  unfold frameStart stateSwitching
  dsimp only
  repeat' split
  all_goals rfl

/-- C23 (counterexample). The game is in the settings menu with the edit-mode
flag off; Tab is pressed in two consecutive frames, and the flag stays off.
The first press leads to the gameplay state and the second back to the settings
menu: the two presses do not end in the gameplay state. -/
theorem mode_switch_counterexample :
    menuGame.gameState = STATE_SETTINGS ∧ menuGame.settings.inEditMode = false ∧
      tabInput.keyTabPressed = true ∧
      (mainLoopBody exampleLibM tabInput menuGame).gameState = STATE_GAMEPLAY ∧
      (mainLoopBody exampleLibM tabInput menuGame).settings.inEditMode = false ∧
      (mainLoopBody exampleLibM tabInput
        (mainLoopBody exampleLibM tabInput menuGame)).gameState = STATE_SETTINGS ∧
      (mainLoopBody exampleLibM tabInput
        (mainLoopBody exampleLibM tabInput menuGame)).settings.inEditMode = false ∧
      (mainLoopBody exampleLibM tabInput
        (mainLoopBody exampleLibM tabInput menuGame)).gameState ≠ STATE_GAMEPLAY := by
  refine ⟨by decide!, by decide!, by decide!, by decide!, by decide!, by decide!, by decide!,
    by decide!⟩

/-- C23 (amended). With a Tab press the mode of the frame goes from gameplay to
settings, from editor to settings, and from settings to editor when the
edit-mode flag is set and to gameplay otherwise; without a Tab press it stays.
So no frame goes from gameplay to editor or from editor to gameplay, and a frame
that enters the editor comes from the settings with the flag set and Tab
pressed.  From gameplay or from the editor, two consecutive Tab presses with
the flag off at the second press end in gameplay; from the settings two
consecutive Tab presses end in the settings. -/
theorem mode_switch (m : LibM F) (inp : FrameInput F) (s : Game F) :
    ((inp.keyTabPressed = true → s.gameState = STATE_GAMEPLAY →
          (mainLoopBody m inp s).gameState = STATE_SETTINGS) ∧
        (inp.keyTabPressed = true → s.gameState = STATE_EDITOR →
          (mainLoopBody m inp s).gameState = STATE_SETTINGS) ∧
        (inp.keyTabPressed = true → s.gameState = STATE_SETTINGS →
          s.settings.inEditMode = true → (mainLoopBody m inp s).gameState = STATE_EDITOR) ∧
        (inp.keyTabPressed = true → s.gameState = STATE_SETTINGS →
          s.settings.inEditMode = false → (mainLoopBody m inp s).gameState = STATE_GAMEPLAY) ∧
        (inp.keyTabPressed = false → (mainLoopBody m inp s).gameState = s.gameState)) ∧
      (s.gameState = STATE_GAMEPLAY → (mainLoopBody m inp s).gameState ≠ STATE_EDITOR) ∧
      (s.gameState = STATE_EDITOR → (mainLoopBody m inp s).gameState ≠ STATE_GAMEPLAY) ∧
      ((mainLoopBody m inp s).gameState = STATE_EDITOR → s.gameState ≠ STATE_EDITOR →
        s.gameState = STATE_SETTINGS ∧ s.settings.inEditMode = true ∧
          inp.keyTabPressed = true) ∧
      (∀ inp2 : FrameInput F, inp.keyTabPressed = true → inp2.keyTabPressed = true →
        s.gameState ≠ STATE_SETTINGS → (mainLoopBody m inp s).settings.inEditMode = false →
        (mainLoopBody m inp2 (mainLoopBody m inp s)).gameState = STATE_GAMEPLAY) ∧
      (∀ inp2 : FrameInput F, inp.keyTabPressed = true → inp2.keyTabPressed = true →
        s.gameState = STATE_SETTINGS →
        (mainLoopBody m inp2 (mainLoopBody m inp s)).gameState = STATE_SETTINGS) := by
  have hstep : ∀ (i : FrameInput F) (t : Game F), (mainLoopBody m i t).gameState =
      if i.keyTabPressed = true then
        if t.gameState = STATE_SETTINGS then
          if t.settings.inEditMode = true then STATE_EDITOR else STATE_GAMEPLAY
        else STATE_SETTINGS
      else t.gameState := fun i t => by
    rw [mainLoopBody_gameState, frameStart_gameState]
  refine ⟨⟨?_, ?_, ?_, ?_, ?_⟩, ?_, ?_, ?_, ?_, ?_⟩
  · intro h1 h2
    rw [hstep, h2]
    simp [h1]
  · intro h1 h2
    rw [hstep, h2]
    simp [h1]
  · intro h1 h2 h3
    rw [hstep, h2]
    simp [h1, h3]
  · intro h1 h2 h3
    rw [hstep, h2]
    simp [h1, h3]
  · intro h1
    rw [hstep]
    simp [h1]
  · intro h2
    rw [hstep, h2]
    split <;> simp
  · intro h2
    rw [hstep, h2]
    split <;> simp
  · intro h1 h2
    rw [hstep] at h1
    by_cases ht : inp.keyTabPressed = true
    · by_cases hs : s.gameState = STATE_SETTINGS
      · by_cases he : s.settings.inEditMode = true
        · exact ⟨hs, he, ht⟩
        · simp [ht, hs, he] at h1
      · simp [ht, hs] at h1
    · simp [ht] at h1
      exact absurd h1 h2
  · intro inp2 h1 h2 h3 h4
    have hfirst : (mainLoopBody m inp s).gameState = STATE_SETTINGS := by
      rw [hstep]
      simp [h1, h3]
    rw [hstep, hfirst]
    simp [h2, h4]
  · intro inp2 h1 h2 h3
    have hfirst : (mainLoopBody m inp s).gameState ≠ STATE_SETTINGS := by
      rw [hstep, h3]
      simp only [h1, if_true]
      split <;> simp
    rw [hstep]
    simp [h2, hfirst]

/-- C23, on an example: from the initial state, which is in gameplay, one Tab
press leads to the settings, and with the flag still off a second one leads
back to gameplay. -/
theorem mode_switch_witness :
    exampleGame.gameState = STATE_GAMEPLAY ∧
      (mainLoopBody exampleLibM tabInput exampleGame).gameState = STATE_SETTINGS ∧
      (mainLoopBody exampleLibM tabInput exampleGame).settings.inEditMode = false ∧
      (mainLoopBody exampleLibM tabInput
        (mainLoopBody exampleLibM tabInput exampleGame)).gameState = STATE_GAMEPLAY :=
  ⟨by decide!, (mode_switch exampleLibM tabInput exampleGame).1.1 (by decide!) (by decide!),
    by decide!,
    (mode_switch exampleLibM tabInput exampleGame).2.2.2.2.1 tabInput (by decide!) (by decide!)
      (by decide!) (by decide!)⟩

/-! ### C24: the frames outside the gameplay state -/

/-- The head of the loop body when it leaves the game in the editor: the clock
has advanced, and the editor camera is where it was or where the switch from the
settings puts it. -/
theorem frameStart_editor (inp : FrameInput F) (s : Game F)
    (hg : (frameStart inp s).gameState = STATE_EDITOR) :
    ∃ (cam : Camera3D F) (yaw pitch : F),
      frameStart inp s =
        { s with
          gameState := STATE_EDITOR
          animationTimer := s.animationTimer + inp.dt
          editorCamera := cam
          editorYaw := yaw
          editorPitch := pitch } := by
  unfold frameStart stateSwitching at hg ⊢
  dsimp only at hg ⊢
  split at hg
  · split at hg
    · split at hg
      · rename_i h1 h2 h3
        rw [if_pos h1, if_pos h2, if_pos h3]
        exact ⟨_, _, _, rfl⟩
      · exact GameState.noConfusion hg
    · exact GameState.noConfusion hg
  · rename_i h1
    rw [if_neg h1]
    refine ⟨s.editorCamera, s.editorYaw, s.editorPitch, ?_⟩
    cases s
    simp only at hg
    subst hg
    rfl

/-- The editor state changes the editor camera, the editor cursor, the blocks
with their bodies, and the spawn points, and nothing else. -/
theorem editorState_frame (m : LibM F) (inp : FrameInput F) (s : Game F) :
    ∃ (cam : Camera3D F) (yaw pitch : F) (cursorPos : Vector3 F) (cursorValid : Bool)
      (blocks : List (PhysicsBlock F)) (points : List (Vector3 F)) (world : List Nat)
      (next : Nat),
      editorState m inp s =
        { s with
          editorCamera := cam
          editorYaw := yaw
          editorPitch := pitch
          editorCursorPos := cursorPos
          editorCursorValid := cursorValid
          worldBlocks := blocks
          enemySpawnPoints := points
          dynamicsWorld := world
          nextHandle := next } := by
  unfold editorState editorPicking editorTool editorErase CreateStaticBox editorCameraControl
  dsimp only
  repeat' split
  all_goals exact ⟨_, _, _, _, _, _, _, _, _, rfl⟩

/-- The head of the loop body when it leaves the game in the settings: only the
clock and the mode have changed. -/
theorem frameStart_settings_mode (inp : FrameInput F) (s : Game F)
    (hg : (frameStart inp s).gameState = STATE_SETTINGS) :
    frameStart inp s =
      { s with gameState := STATE_SETTINGS, animationTimer := s.animationTimer + inp.dt } := by
  unfold frameStart stateSwitching at hg ⊢
  dsimp only at hg ⊢
  split at hg
  · split at hg
    · split at hg
      · exact GameState.noConfusion hg
      · exact GameState.noConfusion hg
    · rename_i h1 h2
      rw [if_pos h1, if_neg h2]
  · rename_i h1
    rw [if_neg h1]
    cases s
    simp only at hg
    subst hg
    rfl

/-- C24 (counterexample). A frame in the editor, without a click, in which the
editor ray hits a block: the editor cursor, which was invalid at (0, 0, 0), is
valid at (0, 2.5, -17.99) after the frame.  And a frame in which Tab leads from
gameplay to the settings: the mode has changed.  Neither the cursor nor the
mode is one of the clock, the effects, the settings, the editor camera, the
blocks and the spawn points. -/
theorem paused_outside_gameplay_counterexample :
    ((frameStart hoverInput eraseGame).gameState = STATE_EDITOR ∧
        eraseGame.editorCursorValid = false ∧ eraseGame.editorCursorPos = ⟨0, 0, 0⟩ ∧
        (mainLoopBody exampleLibM hoverInput eraseGame).editorCursorValid = true ∧
        (mainLoopBody exampleLibM hoverInput eraseGame).editorCursorPos =
          ⟨0, 5 / 2, -1799 / 100⟩) ∧
      ((frameStart tabInput exampleGame).gameState = STATE_SETTINGS ∧
        exampleGame.gameState = STATE_GAMEPLAY ∧
        (mainLoopBody exampleLibM tabInput exampleGame).gameState = STATE_SETTINGS) := by
  refine ⟨⟨by decide!, by decide!, by decide!, by decide!, by decide!⟩,
    ⟨by decide!, by decide!, by decide!⟩⟩

/-- C24 (amended). A frame whose mode after the Tab handling is settings or
editor leaves alone the player (health, state, facing and body), the list of the
enemies with every field of every enemy, the ammo, the reload, fire,
player-death and enemy-respawn timers and the dialogue state, for every frame
time and input.  In the settings the state after the frame is the state before
it but for the mode, the clock, the effects and the settings, so the blocks and
the spawn points are as they were.  In the editor it is the state before it
but for the mode, the clock, the effects, the editor camera with its yaw and
pitch, the editor cursor, the blocks with their bodies and the spawn points. -/
theorem paused_outside_gameplay (m : LibM F) (inp : FrameInput F) (s : Game F)
    (hg : (frameStart inp s).gameState ≠ STATE_GAMEPLAY) :
    ((mainLoopBody m inp s).player = s.player ∧
        (mainLoopBody m inp s).enemies = s.enemies ∧
        (mainLoopBody m inp s).currentAmmo = s.currentAmmo ∧
        (mainLoopBody m inp s).reloadTimer = s.reloadTimer ∧
        (mainLoopBody m inp s).fireTimer = s.fireTimer ∧
        (mainLoopBody m inp s).playerDeathTimer = s.playerDeathTimer ∧
        (mainLoopBody m inp s).enemyRespawnTimer = s.enemyRespawnTimer ∧
        (mainLoopBody m inp s).inDialogue = s.inDialogue ∧
        (mainLoopBody m inp s).dialoguePartner = s.dialoguePartner ∧
        (mainLoopBody m inp s).currentDialogue = s.currentDialogue) ∧
      ((frameStart inp s).gameState = STATE_SETTINGS →
        mainLoopBody m inp s =
            { s with
              gameState := STATE_SETTINGS
              animationTimer := s.animationTimer + inp.dt
              vfx := vfxDecay inp.dt s.vfx
              settings := inp.settingsMenu s.settings } ∧
          (mainLoopBody m inp s).worldBlocks = s.worldBlocks ∧
          (mainLoopBody m inp s).enemySpawnPoints = s.enemySpawnPoints) ∧
      ((frameStart inp s).gameState = STATE_EDITOR →
        ∃ (cam : Camera3D F) (yaw pitch : F) (cursorPos : Vector3 F) (cursorValid : Bool)
          (blocks : List (PhysicsBlock F)) (points : List (Vector3 F)) (world : List Nat)
          (next : Nat),
          mainLoopBody m inp s =
            { s with
              gameState := STATE_EDITOR
              animationTimer := s.animationTimer + inp.dt
              vfx := vfxDecay inp.dt s.vfx
              editorCamera := cam
              editorYaw := yaw
              editorPitch := pitch
              editorCursorPos := cursorPos
              editorCursorValid := cursorValid
              worldBlocks := blocks
              enemySpawnPoints := points
              dynamicsWorld := world
              nextHandle := next }) := by
  have hS : (frameStart inp s).gameState = STATE_SETTINGS →
      mainLoopBody m inp s =
        { s with
          gameState := STATE_SETTINGS
          animationTimer := s.animationTimer + inp.dt
          vfx := vfxDecay inp.dt s.vfx
          settings := inp.settingsMenu s.settings } := by
    intro hs
    rw [mainLoopBody_settings m inp s hs, frameStart_settings_mode inp s hs]
  have hE : (frameStart inp s).gameState = STATE_EDITOR →
      ∃ (cam : Camera3D F) (yaw pitch : F) (cursorPos : Vector3 F) (cursorValid : Bool)
        (blocks : List (PhysicsBlock F)) (points : List (Vector3 F)) (world : List Nat)
        (next : Nat),
        mainLoopBody m inp s =
          { s with
            gameState := STATE_EDITOR
            animationTimer := s.animationTimer + inp.dt
            vfx := vfxDecay inp.dt s.vfx
            editorCamera := cam
            editorYaw := yaw
            editorPitch := pitch
            editorCursorPos := cursorPos
            editorCursorValid := cursorValid
            worldBlocks := blocks
            enemySpawnPoints := points
            dynamicsWorld := world
            nextHandle := next } := by
    intro he
    rw [mainLoopBody_editor m inp s he]
    obtain ⟨cam0, yaw0, pitch0, h0⟩ := frameStart_editor inp s he
    obtain ⟨cam, yaw, pitch, cp, cv, bl, pt, w, n, h1⟩ := editorState_frame m inp (frameStart inp s)
    rw [h1, h0]
    exact ⟨cam, yaw, pitch, cp, cv, bl, pt, w, n, rfl⟩
  refine ⟨?_, fun hs => ⟨hS hs, ?_, ?_⟩, hE⟩
  · cases hc : (frameStart inp s).gameState
    · exact absurd hc hg
    · rw [hS hc]
      exact ⟨rfl, rfl, rfl, rfl, rfl, rfl, rfl, rfl, rfl, rfl⟩
    · obtain ⟨cam, yaw, pitch, cp, cv, bl, pt, w, n, h1⟩ := hE hc
      rw [h1]
      exact ⟨rfl, rfl, rfl, rfl, rfl, rfl, rfl, rfl, rfl, rfl⟩
  · rw [hS hs]
  · rw [hS hs]

/-- C24, on an example: the frame of the counterexample in the editor leaves the
player, the enemies, the ammo, the timers and the dialogue state alone. -/
theorem paused_outside_gameplay_witness :
    (frameStart hoverInput eraseGame).gameState ≠ STATE_GAMEPLAY ∧
      ((mainLoopBody exampleLibM hoverInput eraseGame).player = eraseGame.player ∧
        (mainLoopBody exampleLibM hoverInput eraseGame).enemies = eraseGame.enemies ∧
        (mainLoopBody exampleLibM hoverInput eraseGame).currentAmmo = eraseGame.currentAmmo ∧
        (mainLoopBody exampleLibM hoverInput eraseGame).reloadTimer = eraseGame.reloadTimer ∧
        (mainLoopBody exampleLibM hoverInput eraseGame).fireTimer = eraseGame.fireTimer ∧
        (mainLoopBody exampleLibM hoverInput eraseGame).playerDeathTimer =
          eraseGame.playerDeathTimer ∧
        (mainLoopBody exampleLibM hoverInput eraseGame).enemyRespawnTimer =
          eraseGame.enemyRespawnTimer ∧
        (mainLoopBody exampleLibM hoverInput eraseGame).inDialogue = eraseGame.inDialogue ∧
        (mainLoopBody exampleLibM hoverInput eraseGame).dialoguePartner =
          eraseGame.dialoguePartner ∧
        (mainLoopBody exampleLibM hoverInput eraseGame).currentDialogue =
          eraseGame.currentDialogue) :=
  ⟨by decide!, (paused_outside_gameplay exampleLibM hoverInput eraseGame (by decide!)).1⟩

/-! ### C25: the distance of the chase camera -/

@[simp]
theorem playerCameraControl_cameraDistance (m : LibM F) (inp : FrameInput F) (s : Game F) :
    (playerCameraControl m inp s).cameraDistance = s.cameraDistance := by
  unfold playerCameraControl
  dsimp only
  repeat' split
  all_goals rfl

@[simp]
theorem groundCheck_cameraDistance (inp : FrameInput F) (s : Game F) :
    (groundCheck inp s).cameraDistance = s.cameraDistance := by
  unfold groundCheck
  dsimp only
  repeat' split
  all_goals rfl

@[simp]
theorem handleDialogue_cameraDistance (m : LibM F) (inp : FrameInput F) (pos : Vector3 F) (s : Game F) :
    (handleDialogue m inp pos s).cameraDistance = s.cameraDistance := by
  unfold handleDialogue
  dsimp only
  repeat' split
  all_goals rfl

@[simp]
theorem freezeParticipants_cameraDistance (s : Game F) :
    (freezeParticipants s).cameraDistance = s.cameraDistance := by
  unfold freezeParticipants
  dsimp only
  repeat' split
  all_goals rfl

@[simp]
theorem playerMovement_cameraDistance (m : LibM F) (inp : FrameInput F) (s : Game F) :
    (playerMovement m inp s).cameraDistance = s.cameraDistance := rfl

@[simp]
theorem tickWeaponTimers_cameraDistance (inp : FrameInput F) (s : Game F) :
    (tickWeaponTimers inp s).cameraDistance = s.cameraDistance := by
  unfold tickWeaponTimers
  dsimp only
  repeat' split
  all_goals rfl

@[simp]
theorem fireWeapon_cameraDistance (m : LibM F) (inp : FrameInput F) (pos : Vector3 F) (s : Game F) :
    (fireWeapon m inp pos s).cameraDistance = s.cameraDistance := by
  unfold fireWeapon
  dsimp only
  repeat' split
  all_goals rfl

@[simp]
theorem manualReload_cameraDistance (inp : FrameInput F) (s : Game F) :
    (manualReload inp s).cameraDistance = s.cameraDistance := by
  unfold manualReload
  split <;> rfl

@[simp]
theorem playerDying_cameraDistance (inp : FrameInput F) (s : Game F) :
    (playerDying inp s).cameraDistance = s.cameraDistance := by
  unfold playerDying
  dsimp only
  split <;> rfl

@[simp]
theorem enemyUpdate_cameraDistance (m : LibM F) (inp : FrameInput F) (pos : Vector3 F) (s : Game F) :
    ((enemyUpdate m inp pos s).1).cameraDistance = s.cameraDistance := rfl

@[simp]
theorem playerDeath_cameraDistance (s : Game F) :
    (playerDeath s).cameraDistance = s.cameraDistance := by
  unfold playerDeath
  split <;> rfl

@[simp]
theorem stepSimulation_cameraDistance (inp : FrameInput F) (s : Game F) :
    (stepSimulation inp s).cameraDistance = s.cameraDistance := rfl

@[simp]
theorem enemyRespawn_cameraDistance (inp : FrameInput F) (d : Int) (s : Game F) :
    (enemyRespawn inp d s).cameraDistance = s.cameraDistance := by
  unfold enemyRespawn
  dsimp only
  repeat' split
  all_goals rfl

@[simp]
theorem reapDeadEnemies_cameraDistance (s : Game F) :
    (reapDeadEnemies s).cameraDistance = s.cameraDistance := rfl

/-- The gameplay state leaves the distance of the camera alone: only the camera
rig writes it. -/
theorem gameplayState_cameraDistance (m : LibM F) (inp : FrameInput F) (pos : Vector3 F)
    (s : Game F) : (gameplayState m inp pos s).cameraDistance = s.cameraDistance := by
  have hp : ∀ t : Game F, (playerUpdate m inp pos t).cameraDistance = t.cameraDistance := by
    intro t
    unfold playerUpdate atFireGate
    repeat' split
    all_goals simp
  simp [gameplayState, gameplayCommands, beforePlayerUpdate, hp]

/-- The distance of the camera after a frame: eased toward the target of the
frame in the gameplay state, as it was in the other states. -/
theorem mainLoopBody_cameraDistance (m : LibM F) (inp : FrameInput F) (s : Game F) :
    (mainLoopBody m inp s).cameraDistance =
      if (frameStart inp s).gameState = STATE_GAMEPLAY then
        Lerp s.cameraDistance (if (mainLoopBody m inp s).isAiming = true then 3 else 8)
          (inp.dt * 5)
      else s.cameraDistance := by
  cases hg : (frameStart inp s).gameState
  · rw [if_pos rfl, mainLoopBody_gameplay m inp s hg]
    have h : ∀ t : Game F, (cameraRig m inp (frameStart inp s).player.body.origin t).cameraDistance =
        Lerp t.cameraDistance
          (if (cameraRig m inp (frameStart inp s).player.body.origin t).isAiming = true then 3
            else 8) (inp.dt * 5) := fun t => rfl
    rw [h]
    dsimp only
    rw [gameplayState_cameraDistance]
    unfold frameStart stateSwitching
    repeat' split
    all_goals rfl
  · rw [if_neg (by decide), mainLoopBody_settings m inp s hg]
    unfold frameStart stateSwitching
    repeat' split
    all_goals rfl
  · rw [if_neg (by decide), mainLoopBody_editor m inp s hg]
    have h : ∀ t : Game F, (editorState m inp t).cameraDistance = t.cameraDistance := by
      intro t
      unfold editorState editorPicking editorTool
      dsimp only
      repeat' split
      all_goals rfl
    dsimp only
    rw [h]
    unfold frameStart stateSwitching
    repeat' split
    all_goals rfl

/-- With an amount in [0, 1] the interpolation lies between its start and its
finish. -/
theorem lerp_between (d t k : F) (hk0 : 0 ≤ k) (hk1 : k ≤ 1) :
    (d ≤ t → d ≤ Lerp d t k ∧ Lerp d t k ≤ t) ∧ (t ≤ d → t ≤ Lerp d t k ∧ Lerp d t k ≤ d) := by
  unfold Lerp
  constructor
  · intro h
    constructor
    · nlinarith [mul_nonneg hk0 (sub_nonneg.mpr h)]
    · nlinarith [mul_nonneg (sub_nonneg.mpr hk1) (sub_nonneg.mpr h)]
  · intro h
    constructor
    · nlinarith [mul_nonneg (sub_nonneg.mpr hk1) (sub_nonneg.mpr h)]
    · nlinarith [mul_nonneg hk0 (sub_nonneg.mpr h)]

/-- A frame of at most 1/5 second keeps the distance of the camera in [3, 8]. -/
theorem mainLoopBody_cameraDistance_bound (m : LibM F) (inp : FrameInput F) (s : Game F)
    (h0 : 0 ≤ inp.dt) (h1 : inp.dt ≤ 1 / 5) (hlo : 3 ≤ s.cameraDistance)
    (hhi : s.cameraDistance ≤ 8) :
    3 ≤ (mainLoopBody m inp s).cameraDistance ∧ (mainLoopBody m inp s).cameraDistance ≤ 8 := by
  rw [mainLoopBody_cameraDistance]
  have hk0 : 0 ≤ inp.dt * 5 := by linarith
  have hk1 : inp.dt * 5 ≤ 1 := by linarith
  split
  · split
    · obtain ⟨a, b⟩ := (lerp_between s.cameraDistance 3 (inp.dt * 5) hk0 hk1).2 hlo
      exact ⟨a, le_trans b hhi⟩
    · obtain ⟨a, b⟩ := (lerp_between s.cameraDistance 8 (inp.dt * 5) hk0 hk1).1 hhi
      exact ⟨le_trans hlo a, b⟩
  · exact ⟨hlo, hhi⟩

/-- C25. The distance of the chase camera.  It is 8 when `main` enters its
loop.  A gameplay frame makes it `d + 5 * dt * (target - d)`, where the target
is 3 when the player aims in that frame and 8 otherwise; any other frame leaves
it alone.  A frame with `0 <= dt <= 0.2` keeps it in [3, 8] and, in the gameplay
state, between its old value and the target, so it does not move away from the
target nor pass it; so it is in [3, 8] after every list of such frames from the
initial state, whatever the inputs.  And a gameplay frame with `dt > 0.4` in
which the player aims takes it from 8 to below 3. -/
theorem camera_distance_bound (m : LibM F) :
    (∀ rand : Nat → Nat, (initialGame m rand).cameraDistance = 8) ∧
      (∀ (inp : FrameInput F) (s : Game F), (frameStart inp s).gameState = STATE_GAMEPLAY →
        (mainLoopBody m inp s).cameraDistance =
          s.cameraDistance + 5 * inp.dt *
            ((if (mainLoopBody m inp s).isAiming = true then (3 : F) else 8) -
              s.cameraDistance)) ∧
      (∀ (inp : FrameInput F) (s : Game F), 0 ≤ inp.dt → inp.dt ≤ 1 / 5 →
        3 ≤ s.cameraDistance → s.cameraDistance ≤ 8 →
        (3 ≤ (mainLoopBody m inp s).cameraDistance ∧
            (mainLoopBody m inp s).cameraDistance ≤ 8) ∧
          ((frameStart inp s).gameState = STATE_GAMEPLAY →
            (s.cameraDistance ≤ (if (mainLoopBody m inp s).isAiming = true then (3 : F) else 8) →
              s.cameraDistance ≤ (mainLoopBody m inp s).cameraDistance ∧
                (mainLoopBody m inp s).cameraDistance ≤
                  (if (mainLoopBody m inp s).isAiming = true then (3 : F) else 8)) ∧
            ((if (mainLoopBody m inp s).isAiming = true then (3 : F) else 8) ≤ s.cameraDistance →
              (if (mainLoopBody m inp s).isAiming = true then (3 : F) else 8) ≤
                  (mainLoopBody m inp s).cameraDistance ∧
                (mainLoopBody m inp s).cameraDistance ≤ s.cameraDistance))) ∧
      (∀ (rand : Nat → Nat) (inputs : List (FrameInput F)),
        (∀ inp ∈ inputs, 0 ≤ inp.dt ∧ inp.dt ≤ 1 / 5) →
        3 ≤ (runFrames m inputs (initialGame m rand)).cameraDistance ∧
          (runFrames m inputs (initialGame m rand)).cameraDistance ≤ 8) ∧
      (∀ (inp : FrameInput F) (s : Game F), (frameStart inp s).gameState = STATE_GAMEPLAY →
        s.cameraDistance = 8 → (mainLoopBody m inp s).isAiming = true → 2 / 5 < inp.dt →
        (mainLoopBody m inp s).cameraDistance < 3) := by
  have hinit : ∀ rand : Nat → Nat, (initialGame m rand).cameraDistance = 8 := by
    intro rand
    simp [initialGame, CreateShooterArena, CreateStaticBox, CreateEnemy]
  have hform : ∀ (inp : FrameInput F) (s : Game F),
      (frameStart inp s).gameState = STATE_GAMEPLAY →
      (mainLoopBody m inp s).cameraDistance =
        s.cameraDistance + 5 * inp.dt *
          ((if (mainLoopBody m inp s).isAiming = true then (3 : F) else 8) -
            s.cameraDistance) := by
    intro inp s hg
    rw [mainLoopBody_cameraDistance, if_pos hg]
    unfold Lerp
    ring
  refine ⟨hinit, hform, ?_, ?_, ?_⟩
  · intro inp s h0 h1 hlo hhi
    refine ⟨mainLoopBody_cameraDistance_bound m inp s h0 h1 hlo hhi, ?_⟩
    intro hg
    have hk0 : 0 ≤ inp.dt * 5 := by linarith
    have hk1 : inp.dt * 5 ≤ 1 := by linarith
    have hb := lerp_between s.cameraDistance
      (if (mainLoopBody m inp s).isAiming = true then (3 : F) else 8) (inp.dt * 5) hk0 hk1
    have he : (mainLoopBody m inp s).cameraDistance =
        Lerp s.cameraDistance (if (mainLoopBody m inp s).isAiming = true then (3 : F) else 8)
          (inp.dt * 5) := by
      rw [mainLoopBody_cameraDistance, if_pos hg]
    rw [← he] at hb
    exact hb
  · intro rand inputs
    have hrun : ∀ (inputs : List (FrameInput F)) (s : Game F),
        (∀ inp ∈ inputs, 0 ≤ inp.dt ∧ inp.dt ≤ 1 / 5) →
        3 ≤ s.cameraDistance ∧ s.cameraDistance ≤ 8 →
        3 ≤ (runFrames m inputs s).cameraDistance ∧ (runFrames m inputs s).cameraDistance ≤ 8 := by
      intro inputs
      induction inputs with
      | nil => intro s _ hs; exact hs
      | cons inp rest ih =>
        intro s hdt hs
        exact ih _ (fun x hx => hdt x (List.mem_cons_of_mem _ hx))
          (mainLoopBody_cameraDistance_bound m inp s (hdt inp (List.mem_cons_self _ _)).1
            (hdt inp (List.mem_cons_self _ _)).2 hs.1 hs.2)
    intro hdt
    exact hrun inputs _ hdt (by rw [hinit]; norm_num)
  · intro inp s hg h8 haim hdt
    rw [hform inp s hg, h8, if_pos haim]
    nlinarith

/-- C25, on examples.  From the initial state the player aims: a frame of 1/10
second takes the distance from 8 to 5.5, inside [3, 8]; a frame of 1/2 second
takes it to -4.5, outside [3, 8]. -/
theorem camera_distance_bound_witness :
    ((0 : ℚ) ≤ (aimInput (1 / 10)).dt ∧ (aimInput (1 / 10)).dt ≤ 1 / 5 ∧
        exampleGame.cameraDistance = 8) ∧
      (mainLoopBody exampleLibM (aimInput (1 / 10)) exampleGame).cameraDistance = 11 / 2 ∧
      (3 ≤ (mainLoopBody exampleLibM (aimInput (1 / 10)) exampleGame).cameraDistance ∧
        (mainLoopBody exampleLibM (aimInput (1 / 10)) exampleGame).cameraDistance ≤ 8) ∧
      ((frameStart (aimInput (1 / 2)) exampleGame).gameState = STATE_GAMEPLAY ∧
        (mainLoopBody exampleLibM (aimInput (1 / 2)) exampleGame).isAiming = true ∧
        (2 : ℚ) / 5 < (aimInput (1 / 2)).dt) ∧
      (mainLoopBody exampleLibM (aimInput (1 / 2)) exampleGame).cameraDistance = -9 / 2 ∧
      (mainLoopBody exampleLibM (aimInput (1 / 2)) exampleGame).cameraDistance < 3 :=
  ⟨⟨by decide!, by decide!, by decide!⟩, by decide!,
    ((camera_distance_bound exampleLibM).2.2.1 (aimInput (1 / 10)) exampleGame (by decide!)
      (by decide!) (by decide!) (by decide!)).1,
    ⟨by decide!, by decide!, by decide!⟩, by decide!,
    (camera_distance_bound exampleLibM).2.2.2.2 (aimInput (1 / 2)) exampleGame (by decide!)
      (by decide!) (by decide!) (by decide!)⟩

end Theorems

end UnchartedBlockout
